import Mathlib

/-!
# Coordination layer of the Teensy ADC library (`ADC.h`, `ADC.cpp`)

A shallow embedding of the class `ADC`: the dispatch policies and the dispatched
operations of `ADC.h`, and the synchronized operations of `ADC.cpp` (blocking
reads, non-blocking starts and read, continuous starts).

The class `ADC_Module` (`ADC_Module.h`) is not part of the sources at hand.  Its
member functions are therefore taken as a parameter (`Driver`), each as a state
transformer on the module object it is called on, and its constants as the
parameter `Build`.  Every call the coordination layer makes on a module, every
`__disable_irq`/`__enable_irq` and every `yield` is recorded, in program order,
in the `trace` field of the state, so that statements such as "`check_fun` is
never invoked" can be expressed.

The semantics is sequential: what the hardware or an interrupt handler does to
a module between two calls is part of what the next driver call on that module
finds and returns.  Values of type `int`/`int32_t` are integers, reduced to 32
bits where the code computes with them (`wrap_int32`); `fail_flag` is a natural
number read as a bit set.
-/

namespace TeensyADC

/-! ## Data model -/

/-- The selector `ADC_NUM` of a request: a concrete module or `ANY`. -/
inductive ADC_NUM where
  | ADC_0
  | ADC_1
  | ANY
  deriving DecidableEq

/-- The two module objects `adc0` and `adc1` of the class `ADC`. -/
inductive Which where
  | adc0
  | adc1
  deriving DecidableEq

/-- The constants of the build that `ADC.h`/`ADC.cpp` use and that are declared
elsewhere (`ADC_Module.h`): the number of ADC modules and the error codes. -/
structure Build where
  ADC_NUM_ADCS : Nat
  ADC_ERROR_VALUE : Int
  ADC_ERROR_WRONG_PIN : Nat
  ADC_ERROR_COMPARISON : Nat
  deriving DecidableEq

/-- The part of an `ADC_Module` object that the class `ADC` reads or writes
directly (`fail_flag`, `num_measurements`, `adcWasInUse`, `adc_config`), the
channel register `SC1A` of the module, and `hw` for everything else the driver
owns.  `κ` is the type `ADC_Module::ADC_Config`. -/
structure ADC_Module (σ κ : Type) where
  fail_flag : Nat
  num_measurements : Nat
  adcWasInUse : Bool
  adc_config : κ
  SC1A : Nat
  hw : σ
  deriving DecidableEq

/-- One observable step of the coordination layer: a member function called on
a module (with its arguments), an interrupt mask change, a `yield`, or a direct
access to a channel register. -/
inductive Event (κ : Type) where
  | check_fun (w : Which)
  | conversion_fun (w : Which)
  | checkPin (w : Which) (pin : Nat)
  | checkDifferentialPins (w : Which) (pinP pinN : Nat)
  | getResolution (w : Which)
  | isConverting (w : Which)
  | isComplete (w : Which)
  | readSingle (w : Which)
  | saveConfig (w : Which) (snapshot : κ)
  | loadConfig (w : Which) (snapshot : κ)
  | singleMode (w : Which)
  | startReadFast (w : Which) (pin : Nat)
  | startDifferentialFast (w : Which) (pinP pinN : Nat)
  | startContinuous (w : Which) (pin : Nat)
  | startContinuousDifferential (w : Which) (pinP pinN : Nat)
  | readSC1A (w : Which)
  | writeSC1A (w : Which) (value : Nat)
  | disable_irq
  | enable_irq
  | yield
  | resetError (w : Which)
  | analogReadContinuous (w : Which)
  | stopContinuous (w : Which)
  deriving DecidableEq

/-- The member functions of `ADC_Module` that the class `ADC` calls.  Each one
runs on the module object it is called on: it gets the module and returns its
result together with the module as it leaves it.  `saveConfig` gets the
contents of the `ADC_Config` it is asked to fill and returns the filled one;
`zeroConfig` is the initializer `{0}`. -/
structure Driver (σ κ : Type) where
  checkPin : Nat → ADC_Module σ κ → Bool × ADC_Module σ κ
  checkDifferentialPins : Nat → Nat → ADC_Module σ κ → Bool × ADC_Module σ κ
  getResolution : ADC_Module σ κ → Nat × ADC_Module σ κ
  isConverting : ADC_Module σ κ → Bool × ADC_Module σ κ
  isComplete : ADC_Module σ κ → Bool × ADC_Module σ κ
  readSingle : ADC_Module σ κ → Int × ADC_Module σ κ
  singleMode : ADC_Module σ κ → ADC_Module σ κ
  startReadFast : Nat → ADC_Module σ κ → ADC_Module σ κ
  startDifferentialFast : Nat → Nat → ADC_Module σ κ → ADC_Module σ κ
  saveConfig : κ → ADC_Module σ κ → κ × ADC_Module σ κ
  loadConfig : κ → ADC_Module σ κ → ADC_Module σ κ
  analogRead : Nat → ADC_Module σ κ → Int × ADC_Module σ κ
  zeroConfig : κ
  analogReadDifferential : Nat → Nat → ADC_Module σ κ → Int × ADC_Module σ κ
  startSingleRead : Nat → ADC_Module σ κ → Bool × ADC_Module σ κ
  startSingleDifferential : Nat → Nat → ADC_Module σ κ → Bool × ADC_Module σ κ
  startContinuous : Nat → ADC_Module σ κ → Bool × ADC_Module σ κ
  startContinuousDifferential : Nat → Nat → ADC_Module σ κ → Bool × ADC_Module σ κ
  resetError : ADC_Module σ κ → ADC_Module σ κ
  analogReadContinuous : ADC_Module σ κ → Int × ADC_Module σ κ
  stopContinuous : ADC_Module σ κ → ADC_Module σ κ

/-- The state of the class `ADC`: its two module objects and the record of the
steps performed so far. -/
structure ADC (σ κ : Type) where
  adc0 : ADC_Module σ κ
  adc1 : ADC_Module σ κ
  trace : List (Event κ)
  deriving DecidableEq

/-- The pair returned by the synchronized reads, `ADC::Sync_result`. -/
structure Sync_result where
  result_adc0 : Int
  result_adc1 : Int
  deriving DecidableEq

section Model

variable {σ κ : Type}

/-- The module object a `Which` stands for. -/
def ADC.get (s : ADC σ κ) : Which → ADC_Module σ κ
  | .adc0 => s.adc0
  | .adc1 => s.adc1

/-- Replace one module object. -/
def ADC.set (s : ADC σ κ) (w : Which) (m : ADC_Module σ κ) : ADC σ κ :=
  match w with
  | .adc0 => { s with adc0 := m }
  | .adc1 => { s with adc1 := m }

/-- Record one step at the end of the trace. -/
def ADC.log (s : ADC σ κ) (e : Event κ) : ADC σ κ :=
  { s with trace := s.trace ++ [e] }

/-- Call a member function with a result on module `w`, recording the call. -/
def ADC.invoke {β : Type} (s : ADC σ κ) (w : Which)
    (f : ADC_Module σ κ → β × ADC_Module σ κ) (e : Event κ) : β × ADC σ κ :=
  ((f (s.get w)).1, (s.set w (f (s.get w)).2).log e)

/-- Call a member function without a result on module `w`, recording the call. -/
def ADC.run (s : ADC σ κ) (w : Which)
    (f : ADC_Module σ κ → ADC_Module σ κ) (e : Event κ) : ADC σ κ :=
  (s.set w (f (s.get w))).log e

/-- The statement `adcW->fail_flag |= bits;`. -/
def ADC.orFail (s : ADC σ κ) (w : Which) (bits : Nat) : ADC σ κ :=
  s.set w { s.get w with fail_flag := (s.get w).fail_flag ||| bits }

/-! ## Dispatch policies (`ADC.h`, lines 61-137) -/

/-- The template `ADC::workload_dispatch_policy` (`ADC.h`, lines 66-96).
`args` stands for the parameter pack, `ofInt` for the conversion of the
constant `ADC_ERROR_VALUE` to `ret_type` at `return ADC_ERROR_VALUE;`. -/
def workload_dispatch_policy {α ρ : Type} (K : Build) (ofInt : Int → ρ)
    (check_fun : α → ADC_Module σ κ → Bool × ADC_Module σ κ)
    (conversion_fun : α → ADC_Module σ κ → ρ × ADC_Module σ κ)
    (adc_num : ADC_NUM) (args : α) (s : ADC σ κ) : ρ × ADC σ κ :=
  if K.ADC_NUM_ADCS = 1 then
    s.invoke .adc0 (conversion_fun args) (.conversion_fun .adc0)
  else
    match adc_num with
    | .ANY =>
      let c0 := s.invoke .adc0 (check_fun args) (.check_fun .adc0)
      let adc0Pin := c0.1
      let c1 := c0.2.invoke .adc1 (check_fun args) (.check_fun .adc1)
      let adc1Pin := c1.1
      let s2 := c1.2
      if adc0Pin && adc1Pin then
        if s2.adc0.num_measurements > s2.adc1.num_measurements then
          s2.invoke .adc1 (conversion_fun args) (.conversion_fun .adc1)
        else
          s2.invoke .adc0 (conversion_fun args) (.conversion_fun .adc0)
      else if adc0Pin then
        s2.invoke .adc0 (conversion_fun args) (.conversion_fun .adc0)
      else if adc1Pin then
        s2.invoke .adc1 (conversion_fun args) (.conversion_fun .adc1)
      else
        (ofInt K.ADC_ERROR_VALUE,
          (s2.orFail .adc0 K.ADC_ERROR_WRONG_PIN).orFail .adc1 K.ADC_ERROR_WRONG_PIN)
    | .ADC_0 => s.invoke .adc0 (conversion_fun args) (.conversion_fun .adc0)
    | .ADC_1 => s.invoke .adc1 (conversion_fun args) (.conversion_fun .adc1)

/-- The template `ADC::simple_dispatch_policy` (`ADC.h`, lines 102-128). -/
def simple_dispatch_policy {α ρ : Type} (K : Build) (ofInt : Int → ρ)
    (check_fun : α → ADC_Module σ κ → Bool × ADC_Module σ κ)
    (conversion_fun : α → ADC_Module σ κ → ρ × ADC_Module σ κ)
    (adc_num : ADC_NUM) (args : α) (s : ADC σ κ) : ρ × ADC σ κ :=
  if K.ADC_NUM_ADCS = 1 then
    s.invoke .adc0 (conversion_fun args) (.conversion_fun .adc0)
  else
    match adc_num with
    | .ANY =>
      let c0 := s.invoke .adc0 (check_fun args) (.check_fun .adc0)
      if c0.1 then
        c0.2.invoke .adc0 (conversion_fun args) (.conversion_fun .adc0)
      else
        let c1 := c0.2.invoke .adc1 (check_fun args) (.check_fun .adc1)
        if c1.1 then
          c1.2.invoke .adc1 (conversion_fun args) (.conversion_fun .adc1)
        else
          (ofInt K.ADC_ERROR_VALUE,
            (c1.2.orFail .adc0 K.ADC_ERROR_WRONG_PIN).orFail .adc1 K.ADC_ERROR_WRONG_PIN)
    | .ADC_0 => s.invoke .adc0 (conversion_fun args) (.conversion_fun .adc0)
    | .ADC_1 => s.invoke .adc1 (conversion_fun args) (.conversion_fun .adc1)

/-- The template `ADC::dispatch_policy` (`ADC.h`, lines 131-137): the workload
policy is the one selected. -/
def dispatch_policy {α ρ : Type} (K : Build) (ofInt : Int → ρ)
    (check_fun : α → ADC_Module σ κ → Bool × ADC_Module σ κ)
    (conversion_fun : α → ADC_Module σ κ → ρ × ADC_Module σ κ)
    (adc_num : ADC_NUM) (args : α) (s : ADC σ κ) : ρ × ADC σ κ :=
  workload_dispatch_policy K ofInt check_fun conversion_fun adc_num args s

/-- The member `ADC::analogRead` (`ADC.h`, lines 414-421); `ret_type` is `int`. -/
def analogRead (D : Driver σ κ) (K : Build) (pin : Nat) (adc_num : ADC_NUM)
    (s : ADC σ κ) : Int × ADC σ κ :=
  if K.ADC_NUM_ADCS = 1 then
    s.invoke .adc0 (D.analogRead pin) (.conversion_fun .adc0)
  else
    dispatch_policy K id D.checkPin D.analogRead adc_num pin s

/-! ## The preemption protocol and the blocking synchronized reads (`ADC.cpp`) -/

/-- Two's complement reduction to `int32_t`, the type of the fields of
`Sync_result`. -/
def wrap_int32 (x : Int) : Int :=
  (x + 2147483648) % 4294967296 - 2147483648

/-- The block `ADC.cpp` 245-253 (for `adc0`) and 254-262 (for `adc1`): the local
`old_adcK_config = {0}`, `wasADCKInUse = adcK->isConverting()`, and when that is
set, `saveConfig(&old_adcK_config)` between `__disable_irq()` and
`__enable_irq()`.  Returns `(wasADCKInUse, old_adcK_config)`. -/
def preempt (D : Driver σ κ) (w : Which) (s : ADC σ κ) : (Bool × κ) × ADC σ κ :=
  let old_config := D.zeroConfig
  let c := s.invoke w D.isConverting (.isConverting w)
  let wasInUse := c.1
  if wasInUse then
    let s1 := c.2.log .disable_irq
    let r := D.saveConfig old_config (s1.get w)
    let s2 := (s1.set w r.2).log (.saveConfig w r.1)
    ((wasInUse, r.1), s2.log .enable_irq)
  else
    ((wasInUse, old_config), c.2)

/-- The loop `while( (adc0->isConverting()) || (adc1->isConverting()) ) { yield(); }`
(`ADC.cpp` 273-276 and 360-363).  `fuel` bounds the number of times the loop
condition is evaluated; `none` means the loop is still running when the fuel
is used up.  `||` does not evaluate its right operand when the left one is
true.  `yield()` is recorded; the progress of the conversions meanwhile shows
in the next answers of `isConverting`. -/
def waitBoth (D : Driver σ κ) : Nat → ADC σ κ → Option (ADC σ κ)
  | 0, _ => none
  | fuel + 1, s =>
    let c0 := s.invoke .adc0 D.isConverting (.isConverting .adc0)
    if c0.1 then
      waitBoth D fuel (c0.2.log .yield)
    else
      let c1 := c0.2.invoke .adc1 D.isConverting (.isConverting .adc1)
      if c1.1 then
        waitBoth D fuel (c1.2.log .yield)
      else
        some c1.2

/-- Assignment to the field of `res` that belongs to module `w`. -/
def Sync_result.setField (res : Sync_result) (w : Which) (v : Int) : Sync_result :=
  match w with
  | .adc0 => { res with result_adc0 := v }
  | .adc1 => { res with result_adc1 := v }

/-- The field of `res` that belongs to module `w`. -/
def Sync_result.field (res : Sync_result) : Which → Int
  | .adc0 => res.result_adc0
  | .adc1 => res.result_adc1

/-- One `if ( adcK->isComplete() ) { res.result_adcK = adcK->readSingle(); }
else { adcK->fail_flag |= ADC_ERROR_COMPARISON; }` (`ADC.cpp` 280-284 for
`adc0`, 285-289 for `adc1`). -/
def finishOne (D : Driver σ κ) (K : Build) (w : Which) (res : Sync_result)
    (s : ADC σ κ) : Sync_result × ADC σ κ :=
  let c := s.invoke w D.isComplete (.isComplete w)
  if c.1 then
    let r := c.2.invoke w D.readSingle (.readSingle w)
    (res.setField w r.1, r.2)
  else
    (res, c.2.orFail w K.ADC_ERROR_COMPARISON)

/-- The critical section `ADC.cpp` 279-290 of `analogSynchronizedRead`. -/
def finishing (D : Driver σ κ) (K : Build) (res : Sync_result) (s : ADC σ κ) :
    Sync_result × ADC σ κ :=
  let f0 := finishOne D K .adc0 res (s.log .disable_irq)
  let f1 := finishOne D K .adc1 f0.1 f0.2
  (f1.1, f1.2.log .enable_irq)

/-- One block of `analogSynchronizedReadDifferential` (`ADC.cpp` 365-372 for
`adc0`, 373-380 for `adc1`): as `finishOne`, and when `resolutionK==16` the
field just read is doubled in place (`res.result_adcK *= 2`). -/
def finishOneDifferential (D : Driver σ κ) (K : Build) (w : Which) (resolution : Nat)
    (res : Sync_result) (s : ADC σ κ) : Sync_result × ADC σ κ :=
  let c := s.invoke w D.isComplete (.isComplete w)
  if c.1 then
    let r := c.2.invoke w D.readSingle (.readSingle w)
    let res1 := res.setField w r.1
    if resolution = 16 then
      (res1.setField w (wrap_int32 (res1.field w * 2)), r.2)
    else
      (res1, r.2)
  else
    (res, c.2.orFail w K.ADC_ERROR_COMPARISON)

/-- The critical section `ADC.cpp` 364-381 of
`analogSynchronizedReadDifferential`. -/
def finishingDifferential (D : Driver σ κ) (K : Build) (resolution0 resolution1 : Nat)
    (res : Sync_result) (s : ADC σ κ) : Sync_result × ADC σ κ :=
  let f0 := finishOneDifferential D K .adc0 resolution0 res (s.log .disable_irq)
  let f1 := finishOneDifferential D K .adc1 resolution1 f0.1 f0.2
  (f1.1, f1.2.log .enable_irq)

/-- The statement `if (wasADCKInUse) { adcK->loadConfig(&old_adcK_config); }`
(`ADC.cpp` 294-297 and 298-301). -/
def restore (D : Driver σ κ) (w : Which) (wasInUse : Bool) (old_config : κ)
    (s : ADC σ κ) : ADC σ κ :=
  if wasInUse then
    s.run w (D.loadConfig old_config) (.loadConfig w old_config)
  else
    s

/-- The statements `ADC.cpp` 264-270: both modules to single-shot mode, then
the two starts. -/
def startingRead (D : Driver σ κ) (pin0 pin1 : Nat) (s : ADC σ κ) : ADC σ κ :=
  let s1 := s.run .adc0 D.singleMode (.singleMode .adc0)
  let s2 := s1.run .adc1 D.singleMode (.singleMode .adc1)
  let s3 := s2.run .adc0 (D.startReadFast pin0) (.startReadFast .adc0 pin0)
  s3.run .adc1 (D.startReadFast pin1) (.startReadFast .adc1 pin1)

/-- The statements `ADC.cpp` 351-357. -/
def startingDifferential (D : Driver σ κ) (pin0P pin0N pin1P pin1N : Nat)
    (s : ADC σ κ) : ADC σ κ :=
  let s1 := s.run .adc0 D.singleMode (.singleMode .adc0)
  let s2 := s1.run .adc1 D.singleMode (.singleMode .adc1)
  let s3 := s2.run .adc0 (D.startDifferentialFast pin0P pin0N)
    (.startDifferentialFast .adc0 pin0P pin0N)
  s3.run .adc1 (D.startDifferentialFast pin1P pin1N)
    (.startDifferentialFast .adc1 pin1P pin1N)

/-- The member `ADC::analogSynchronizedRead` (`ADC.cpp` 228-306).  `fuel` is
handed to the wait loop; the result is `none` when the loop does not end within
it. -/
def analogSynchronizedRead (D : Driver σ κ) (K : Build) (fuel : Nat) (pin0 pin1 : Nat)
    (s : ADC σ κ) : Option (Sync_result × ADC σ κ) :=
  let res : Sync_result := ⟨K.ADC_ERROR_VALUE, K.ADC_ERROR_VALUE⟩
  let k0 := s.invoke .adc0 (D.checkPin pin0) (.checkPin .adc0 pin0)
  if !k0.1 then
    some (res, k0.2.orFail .adc0 K.ADC_ERROR_WRONG_PIN)
  else
    let k1 := k0.2.invoke .adc1 (D.checkPin pin1) (.checkPin .adc1 pin1)
    if !k1.1 then
      some (res, k1.2.orFail .adc1 K.ADC_ERROR_WRONG_PIN)
    else
      let p0 := preempt D .adc0 k1.2
      let p1 := preempt D .adc1 p0.2
      match waitBoth D fuel (startingRead D pin0 pin1 p1.2) with
      | none => none
      | some sp =>
        let f := finishing D K res sp
        let r0 := restore D .adc0 p0.1.1 p0.1.2 f.2
        let r1 := restore D .adc1 p1.1.1 p1.1.2 r0
        some (f.1, r1)

/-- The member `ADC::analogSynchronizedReadDifferential` (`ADC.cpp` 313-397). -/
def analogSynchronizedReadDifferential (D : Driver σ κ) (K : Build) (fuel : Nat)
    (pin0P pin0N pin1P pin1N : Nat) (s : ADC σ κ) : Option (Sync_result × ADC σ κ) :=
  let res : Sync_result := ⟨K.ADC_ERROR_VALUE, K.ADC_ERROR_VALUE⟩
  let k0 := s.invoke .adc0 (D.checkDifferentialPins pin0P pin0N)
    (.checkDifferentialPins .adc0 pin0P pin0N)
  if !k0.1 then
    some (res, k0.2.orFail .adc0 K.ADC_ERROR_WRONG_PIN)
  else
    let k1 := k0.2.invoke .adc1 (D.checkDifferentialPins pin1P pin1N)
      (.checkDifferentialPins .adc1 pin1P pin1N)
    if !k1.1 then
      some (res, k1.2.orFail .adc1 K.ADC_ERROR_WRONG_PIN)
    else
      let g0 := k1.2.invoke .adc0 D.getResolution (.getResolution .adc0)
      let resolution0 := g0.1
      let g1 := g0.2.invoke .adc1 D.getResolution (.getResolution .adc1)
      let resolution1 := g1.1
      let p0 := preempt D .adc0 g1.2
      let p1 := preempt D .adc1 p0.2
      match waitBoth D fuel (startingDifferential D pin0P pin0N pin1P pin1N p1.2) with
      | none => none
      | some sp =>
        let f := finishingDifferential D K resolution0 resolution1 res sp
        let r0 := restore D .adc0 p0.1.1 p0.1.2 f.2
        let r1 := restore D .adc1 p1.1.1 p1.1.2 r0
        some (f.1, r1)

/-! ## The dispatched operations (`ADC.h`, lines 414-533) -/

/-- The conversion of an `int` to `bool`, as at `return ADC_ERROR_VALUE;` in a
function whose `ret_type` is `bool`. -/
def bool_of_int (i : Int) : Bool :=
  decide (i ≠ 0)

/-- The member `ADC::analogReadDifferential` (`ADC.h`, lines 451-457). -/
def analogReadDifferential (D : Driver σ κ) (K : Build) (pinP pinN : Nat) (adc_num : ADC_NUM)
    (s : ADC σ κ) : Int × ADC σ κ :=
  if K.ADC_NUM_ADCS = 1 then
    s.invoke .adc0 (D.analogReadDifferential pinP pinN) (.conversion_fun .adc0)
  else
    dispatch_policy K id (fun a : Nat × Nat => D.checkDifferentialPins a.1 a.2)
      (fun a : Nat × Nat => D.analogReadDifferential a.1 a.2) adc_num (pinP, pinN) s

/-- The member `ADC::startSingleRead` (`ADC.h`, lines 469-475). -/
def startSingleRead (D : Driver σ κ) (K : Build) (pin : Nat) (adc_num : ADC_NUM)
    (s : ADC σ κ) : Bool × ADC σ κ :=
  if K.ADC_NUM_ADCS = 1 then
    s.invoke .adc0 (D.startSingleRead pin) (.conversion_fun .adc0)
  else
    dispatch_policy K bool_of_int D.checkPin D.startSingleRead adc_num pin s

/-- The member `ADC::startSingleDifferential` (`ADC.h`, lines 485-491). -/
def startSingleDifferential (D : Driver σ κ) (K : Build) (pinP pinN : Nat)
    (adc_num : ADC_NUM) (s : ADC σ κ) : Bool × ADC σ κ :=
  if K.ADC_NUM_ADCS = 1 then
    s.invoke .adc0 (D.startSingleDifferential pinP pinN) (.conversion_fun .adc0)
  else
    dispatch_policy K bool_of_int (fun a : Nat × Nat => D.checkDifferentialPins a.1 a.2)
      (fun a : Nat × Nat => D.startSingleDifferential a.1 a.2) adc_num (pinP, pinN) s

/-- The member `ADC::startContinuous` (`ADC.h`, lines 512-518). -/
def startContinuous (D : Driver σ κ) (K : Build) (pin : Nat) (adc_num : ADC_NUM)
    (s : ADC σ κ) : Bool × ADC σ κ :=
  if K.ADC_NUM_ADCS = 1 then
    s.invoke .adc0 (D.startContinuous pin) (.conversion_fun .adc0)
  else
    dispatch_policy K bool_of_int D.checkPin D.startContinuous adc_num pin s

/-- The member `ADC::startContinuousDifferential` (`ADC.h`, lines 527-533). -/
def startContinuousDifferential (D : Driver σ κ) (K : Build) (pinP pinN : Nat)
    (adc_num : ADC_NUM) (s : ADC σ κ) : Bool × ADC σ κ :=
  if K.ADC_NUM_ADCS = 1 then
    s.invoke .adc0 (D.startContinuousDifferential pinP pinN) (.conversion_fun .adc0)
  else
    dispatch_policy K bool_of_int (fun a : Nat × Nat => D.checkDifferentialPins a.1 a.2)
      (fun a : Nat × Nat => D.startContinuousDifferential a.1 a.2) adc_num (pinP, pinN) s

/-- The array `adc` of `ADC.h` (lines 154-160), read at index `i`: `adc0`,
`adc1`, and no module beyond. -/
def adcAt : Nat → Option Which
  | 0 => some .adc0
  | 1 => some .adc1
  | _ => none

/-- The member `ADC::resetError` (`ADC.h`, lines 686-690):
`for(int i=0; i< ADC_NUM_ADCS; i++) { adc[i]->resetError(); }`. -/
def resetError (D : Driver σ κ) (K : Build) (s : ADC σ κ) : ADC σ κ :=
  (List.range K.ADC_NUM_ADCS).foldl
    (fun acc i =>
      match adcAt i with
      | some w => acc.run w D.resetError (.resetError w)
      | none => acc)
    s

/-! ## The non-blocking synchronized operations (`ADC.cpp`, lines 406-511) -/

/-- The block `ADC.cpp` 419-426 (for `adc0`) and 427-434 (for `adc1`), the same
in `startSynchronizedSingleDifferential` (470-477, 478-485):
`adcK->adcWasInUse = adcK->isConverting();` and, when that is set,
`adcK->saveConfig(&adcK->adc_config)` between `__disable_irq()` and
`__enable_irq()`.  `saveConfig` is handed the field `adc_config` of the module
itself, and what it stores there is the field afterwards. -/
def preemptStored (D : Driver σ κ) (w : Which) (s : ADC σ κ) : ADC σ κ :=
  let c := s.invoke w D.isConverting (.isConverting w)
  let s1 := c.2.set w { c.2.get w with adcWasInUse := c.1 }
  if (s1.get w).adcWasInUse then
    let s2 := s1.log .disable_irq
    let r := D.saveConfig (s2.get w).adc_config (s2.get w)
    let s3 := (s2.set w { r.2 with adc_config := r.1 }).log (.saveConfig w r.1)
    s3.log .enable_irq
  else
    s1

/-- The member `ADC::startSynchronizedSingleRead` (`ADC.cpp` 406-448). -/
def startSynchronizedSingleRead (D : Driver σ κ) (K : Build) (pin0 pin1 : Nat)
    (s : ADC σ κ) : Bool × ADC σ κ :=
  let k0 := s.invoke .adc0 (D.checkPin pin0) (.checkPin .adc0 pin0)
  if !k0.1 then
    (false, k0.2.orFail .adc0 K.ADC_ERROR_WRONG_PIN)
  else
    let k1 := k0.2.invoke .adc1 (D.checkPin pin1) (.checkPin .adc1 pin1)
    if !k1.1 then
      (false, k1.2.orFail .adc1 K.ADC_ERROR_WRONG_PIN)
    else
      let p0 := preemptStored D .adc0 k1.2
      let p1 := preemptStored D .adc1 p0
      (true, startingRead D pin0 pin1 p1)

/-- The member `ADC::startSynchronizedSingleDifferential` (`ADC.cpp` 457-498). -/
def startSynchronizedSingleDifferential (D : Driver σ κ) (K : Build)
    (pin0P pin0N pin1P pin1N : Nat) (s : ADC σ κ) : Bool × ADC σ κ :=
  let k0 := s.invoke .adc0 (D.checkDifferentialPins pin0P pin0N)
    (.checkDifferentialPins .adc0 pin0P pin0N)
  if !k0.1 then
    (false, k0.2.orFail .adc0 K.ADC_ERROR_WRONG_PIN)
  else
    let k1 := k0.2.invoke .adc1 (D.checkDifferentialPins pin1P pin1N)
      (.checkDifferentialPins .adc1 pin1P pin1N)
    if !k1.1 then
      (false, k1.2.orFail .adc1 K.ADC_ERROR_WRONG_PIN)
    else
      let p0 := preemptStored D .adc0 k1.2
      let p1 := preemptStored D .adc1 p0
      (true, startingDifferential D pin0P pin0N pin1P pin1N p1)

/-- The member `ADC::readSynchronizedSingle` (`ADC.cpp` 504-511). -/
def readSynchronizedSingle (D : Driver σ κ) (s : ADC σ κ) : Sync_result × ADC σ κ :=
  let r0 := s.invoke .adc0 D.readSingle (.readSingle .adc0)
  let r1 := r0.2.invoke .adc1 D.readSingle (.readSingle .adc1)
  (⟨r0.1, r1.1⟩, r1.2)

/-! ## The synchronized continuous starts (`ADC.cpp`, lines 520-579) -/

/-- A read of the register `ADC0_SC1A` or `ADC1_SC1A`. -/
def ADC.readSC1A (s : ADC σ κ) (w : Which) : Nat × ADC σ κ :=
  ((s.get w).SC1A, s.log (.readSC1A w))

/-- A write to the register `ADC0_SC1A` or `ADC1_SC1A`. -/
def ADC.writeSC1A (s : ADC σ κ) (w : Which) (value : Nat) : ADC σ κ :=
  (s.set w { s.get w with SC1A := value }).log (.writeSC1A w value)

/-- The statements `ADC.cpp` 537-543 (and 569-575): each register is read into
its `temp_ADCK_SC1A` and set to `0x1F`, then both are written back between
`__disable_irq()` and `__enable_irq()`. -/
def alignContinuous (s : ADC σ κ) : ADC σ κ :=
  let t0 := s.readSC1A .adc0
  let s1 := t0.2.writeSC1A .adc0 0x1F
  let t1 := s1.readSC1A .adc1
  let s2 := t1.2.writeSC1A .adc1 0x1F
  let s3 := s2.log .disable_irq
  let s4 := s3.writeSC1A .adc0 t0.1
  let s5 := s4.writeSC1A .adc1 t1.1
  s5.log .enable_irq

/-- The member `ADC::startSynchronizedContinuous` (`ADC.cpp` 520-546).  The
values returned by the two `startContinuous` calls are not used. -/
def startSynchronizedContinuous (D : Driver σ κ) (K : Build) (pin0 pin1 : Nat)
    (s : ADC σ κ) : Bool × ADC σ κ :=
  let k0 := s.invoke .adc0 (D.checkPin pin0) (.checkPin .adc0 pin0)
  if !k0.1 then
    (false, k0.2.orFail .adc0 K.ADC_ERROR_WRONG_PIN)
  else
    let k1 := k0.2.invoke .adc1 (D.checkPin pin1) (.checkPin .adc1 pin1)
    if !k1.1 then
      (false, k1.2.orFail .adc1 K.ADC_ERROR_WRONG_PIN)
    else
      let c0 := k1.2.invoke .adc0 (D.startContinuous pin0) (.startContinuous .adc0 pin0)
      let c1 := c0.2.invoke .adc1 (D.startContinuous pin1) (.startContinuous .adc1 pin1)
      (true, alignContinuous c1.2)

/-- The member `ADC::startSynchronizedContinuousDifferential` (`ADC.cpp`
552-579). -/
def startSynchronizedContinuousDifferential (D : Driver σ κ) (K : Build)
    (pin0P pin0N pin1P pin1N : Nat) (s : ADC σ κ) : Bool × ADC σ κ :=
  let k0 := s.invoke .adc0 (D.checkDifferentialPins pin0P pin0N)
    (.checkDifferentialPins .adc0 pin0P pin0N)
  if !k0.1 then
    (false, k0.2.orFail .adc0 K.ADC_ERROR_WRONG_PIN)
  else
    let k1 := k0.2.invoke .adc1 (D.checkDifferentialPins pin1P pin1N)
      (.checkDifferentialPins .adc1 pin1P pin1N)
    if !k1.1 then
      (false, k1.2.orFail .adc1 K.ADC_ERROR_WRONG_PIN)
    else
      let c0 := k1.2.invoke .adc0 (D.startContinuousDifferential pin0P pin0N)
        (.startContinuousDifferential .adc0 pin0P pin0N)
      let c1 := c0.2.invoke .adc1 (D.startContinuousDifferential pin1P pin1N)
        (.startContinuousDifferential .adc1 pin1P pin1N)
      (true, alignContinuous c1.2)

/-- The member `ADC::readSynchronizedContinuous` (`ADC.cpp` 582-589). -/
def readSynchronizedContinuous (D : Driver σ κ) (s : ADC σ κ) : Sync_result × ADC σ κ :=
  let r0 := s.invoke .adc0 D.analogReadContinuous (.analogReadContinuous .adc0)
  let r1 := r0.2.invoke .adc1 D.analogReadContinuous (.analogReadContinuous .adc1)
  (⟨r0.1, r1.1⟩, r1.2)

/-- The member `ADC::stopSynchronizedContinuous` (`ADC.cpp` 592-596). -/
def stopSynchronizedContinuous (D : Driver σ κ) (s : ADC σ κ) : ADC σ κ :=
  let s1 := s.run .adc0 D.stopContinuous (.stopContinuous .adc0)
  s1.run .adc1 D.stopContinuous (.stopContinuous .adc1)

/-! ### Intermediate states of the blocking reads -/

/-- The state of `analogSynchronizedRead` once both `checkPin` calls have been
made (`ADC.cpp` 233-240, both answers true). -/
def checkedRead (D : Driver σ κ) (pin0 pin1 : Nat) (s : ADC σ κ) : ADC σ κ :=
  ((s.invoke .adc0 (D.checkPin pin0) (.checkPin .adc0 pin0)).2.invoke .adc1
    (D.checkPin pin1) (.checkPin .adc1 pin1)).2

/-- The state in which `analogSynchronizedRead` enters its wait loop: after the
checks, the two preemptions and the starts (`ADC.cpp` 233-270). -/
def loopEntryRead (D : Driver σ κ) (pin0 pin1 : Nat) (s : ADC σ κ) : ADC σ κ :=
  startingRead D pin0 pin1
    (preempt D .adc1 (preempt D .adc0 (checkedRead D pin0 pin1 s)).2).2

/-- The state of `analogSynchronizedReadDifferential` once both
`checkDifferentialPins` calls and both `getResolution` calls have been made
(`ADC.cpp` 318-328, both checks true). -/
def checkedDifferential (D : Driver σ κ) (pin0P pin0N pin1P pin1N : Nat)
    (s : ADC σ κ) : ADC σ κ :=
  ((((s.invoke .adc0 (D.checkDifferentialPins pin0P pin0N)
        (.checkDifferentialPins .adc0 pin0P pin0N)).2.invoke .adc1
      (D.checkDifferentialPins pin1P pin1N)
        (.checkDifferentialPins .adc1 pin1P pin1N)).2.invoke .adc0
    D.getResolution (.getResolution .adc0)).2.invoke .adc1
    D.getResolution (.getResolution .adc1)).2

/-- The state in which `analogSynchronizedReadDifferential` enters its wait
loop (`ADC.cpp` 318-357). -/
def loopEntryDifferential (D : Driver σ κ) (pin0P pin0N pin1P pin1N : Nat)
    (s : ADC σ κ) : ADC σ κ :=
  startingDifferential D pin0P pin0N pin1P pin1N
    (preempt D .adc1 (preempt D .adc0
      (checkedDifferential D pin0P pin0N pin1P pin1N s)).2).2

/-! ### The finishing step, module by module

What the specification says of one module in the finishing step, written
without reference to the other module. -/

/-- The field of the result for a module that is in state `m` when the wait
loop ends: the value of `readSingle` if `isComplete` holds, `ADC_ERROR_VALUE`
otherwise. -/
def finishedField (D : Driver σ κ) (K : Build) (m : ADC_Module σ κ) : Int :=
  if (D.isComplete m).1 then (D.readSingle (D.isComplete m).2).1 else K.ADC_ERROR_VALUE

/-- The module after the finishing step: read if `isComplete` holds, marked
with `ADC_ERROR_COMPARISON` otherwise. -/
def finishedModule (D : Driver σ κ) (K : Build) (m : ADC_Module σ κ) : ADC_Module σ κ :=
  if (D.isComplete m).1 then (D.readSingle (D.isComplete m).2).2
  else { (D.isComplete m).2 with
         fail_flag := (D.isComplete m).2.fail_flag ||| K.ADC_ERROR_COMPARISON }

/-- The calls the finishing step makes on module `w` in state `m`. -/
def finishedEvents (D : Driver σ κ) (w : Which) (m : ADC_Module σ κ) : List (Event κ) :=
  if (D.isComplete m).1 then [.isComplete w, .readSingle w] else [.isComplete w]

/-- The field of the result of a differential read for a module in state `m`
at the end of the wait loop, whose resolution was `resolution` at entry: twice
the value of `readSingle` (as an `int32_t`) at 16 bits, that value at any other
resolution, `ADC_ERROR_VALUE` if `isComplete` does not hold. -/
def finishedFieldDifferential (D : Driver σ κ) (K : Build) (resolution : Nat)
    (m : ADC_Module σ κ) : Int :=
  if (D.isComplete m).1 then
    if resolution = 16 then wrap_int32 ((D.readSingle (D.isComplete m).2).1 * 2)
    else (D.readSingle (D.isComplete m).2).1
  else K.ADC_ERROR_VALUE

/-! ### The preemption protocol, module by module -/

/-- Whether a module in state `m` is preempted: the answer of `isConverting`. -/
def wasInUse (D : Driver σ κ) (m : ADC_Module σ κ) : Bool :=
  (D.isConverting m).1

/-- The snapshot `saveConfig` takes of a module that was in state `m` when
`isConverting` was asked. -/
def snapshot (D : Driver σ κ) (m : ADC_Module σ κ) : κ :=
  (D.saveConfig D.zeroConfig (D.isConverting m).2).1

/-- The module after the preemption step, from its state `m` before it. -/
def preemptedModule (D : Driver σ κ) (m : ADC_Module σ κ) : ADC_Module σ κ :=
  if wasInUse D m then (D.saveConfig D.zeroConfig (D.isConverting m).2).2
  else (D.isConverting m).2

/-- The steps of the preemption of module `w`, from its state `m` before it. -/
def preemptEvents (D : Driver σ κ) (w : Which) (m : ADC_Module σ κ) : List (Event κ) :=
  if wasInUse D m then
    [.isConverting w, .disable_irq, .saveConfig w (snapshot D m), .enable_irq]
  else [.isConverting w]

/-- The module after the restoring step: `entry` is its state before the
preemption step, `m` its state after the finishing step. -/
def restoredModule (D : Driver σ κ) (entry m : ADC_Module σ κ) : ADC_Module σ κ :=
  if wasInUse D entry then D.loadConfig (snapshot D entry) m else m

/-- The steps of the restoring of module `w`. -/
def restoreEvents (D : Driver σ κ) (w : Which) (entry : ADC_Module σ κ) : List (Event κ) :=
  if wasInUse D entry then [.loadConfig w (snapshot D entry)] else []

/-! ### The stored preemption of the non-blocking starts, module by module -/

/-- The module once `adcK->adcWasInUse = adcK->isConverting();` has run on it
in state `m`. -/
def storedEntry (D : Driver σ κ) (m : ADC_Module σ κ) : ADC_Module σ κ :=
  { (D.isConverting m).2 with adcWasInUse := (D.isConverting m).1 }

/-- The snapshot `saveConfig(&adcK->adc_config)` takes of a module that was in
state `m` when `isConverting` was asked. -/
def storedSnapshot (D : Driver σ κ) (m : ADC_Module σ κ) : κ :=
  (D.saveConfig (storedEntry D m).adc_config (storedEntry D m)).1

/-- The module after the preemption step of a non-blocking start, from its
state `m` before it. -/
def preemptedStoredModule (D : Driver σ κ) (m : ADC_Module σ κ) : ADC_Module σ κ :=
  if wasInUse D m then
    { (D.saveConfig (storedEntry D m).adc_config (storedEntry D m)).2 with
      adc_config := storedSnapshot D m }
  else storedEntry D m

/-- The steps of the preemption of module `w` in a non-blocking start. -/
def preemptStoredEvents (D : Driver σ κ) (w : Which) (m : ADC_Module σ κ) :
    List (Event κ) :=
  if wasInUse D m then
    [.isConverting w, .disable_irq, .saveConfig w (storedSnapshot D m), .enable_irq]
  else [.isConverting w]

/-- The steps of the register alignment of the continuous starts, for registers
that hold `v0` and `v1` when it begins. -/
def alignEvents (v0 v1 : Nat) : List (Event κ) :=
  [.readSC1A .adc0, .writeSC1A .adc0 31, .readSC1A .adc1, .writeSC1A .adc1 31,
    .disable_irq, .writeSC1A .adc0 v0, .writeSC1A .adc1 v1, .enable_irq]

/-! ### Reading the trace -/

/-- The snapshot an event stores, if it is a `saveConfig` on module `w`. -/
def Event.saved (w : Which) : Event κ → Option κ
  | .saveConfig w1 c => if w1 = w then some c else none
  | _ => none

/-- The snapshot an event loads, if it is a `loadConfig` on module `w`. -/
def Event.loaded (w : Which) : Event κ → Option κ
  | .loadConfig w1 c => if w1 = w then some c else none
  | _ => none

/-- The snapshots taken by `saveConfig` on module `w` in a trace, in order. -/
def savedSnapshots (w : Which) (tr : List (Event κ)) : List κ :=
  tr.filterMap (Event.saved w)

/-- The snapshots handed to `loadConfig` on module `w` in a trace, in order. -/
def loadedSnapshots (w : Which) (tr : List (Event κ)) : List κ :=
  tr.filterMap (Event.loaded w)

/-- The events of the wait loop: polls of `isConverting` and `yield`. -/
def Event.isPoll : Event κ → Bool
  | .isConverting _ => true
  | .yield => true
  | _ => false

/-- What the restore property says of one module `w` over a call whose new
steps are `evs`: `entry` is the module before the preemption step,
`afterFinish` after the finishing step, `final` at return.  If the module was
converting, `saveConfig` ran on it once, `loadConfig` ran on it once, with the
snapshot `saveConfig` took, and the module at return is the result of that
`loadConfig`; under any reading `obs` of a module that `loadConfig` of a saved
snapshot reinstates, the module at return reads as it did when the snapshot
was taken.  If it was not converting, neither ran on it. -/
def RestoredOnce (D : Driver σ κ) (w : Which) (entry afterFinish final : ADC_Module σ κ)
    (evs : List (Event κ)) : Prop :=
  (wasInUse D entry = true →
    savedSnapshots w evs = [snapshot D entry]
    ∧ loadedSnapshots w evs = [snapshot D entry]
    ∧ final = D.loadConfig (snapshot D entry) afterFinish
    ∧ ∀ (β : Type) (obs : ADC_Module σ κ → β),
        (∀ z m m1, obs (D.loadConfig (D.saveConfig z m).1 m1) = obs m) →
        obs final = obs (D.isConverting entry).2)
  ∧ (wasInUse D entry = false →
    savedSnapshots w evs = [] ∧ loadedSnapshots w evs = [] ∧ final = afterFinish)

/-! ### The choice of the dispatch policy -/

/-- The module that is not `w`. -/
def Which.other : Which → Which
  | .adc0 => .adc1
  | .adc1 => .adc0

/-- The state of `workload_dispatch_policy` once it has made its checks
(`ADC.h`, lines 74-75); it makes them in a build with more than one module and
for `adc_num == ANY` only. -/
def checkedState {α : Type} (K : Build)
    (check_fun : α → ADC_Module σ κ → Bool × ADC_Module σ κ)
    (adc_num : ADC_NUM) (args : α) (s : ADC σ κ) : ADC σ κ :=
  if K.ADC_NUM_ADCS = 1 then s
  else
    match adc_num with
    | .ANY =>
      ((s.invoke .adc0 (check_fun args) (.check_fun .adc0)).2.invoke .adc1
        (check_fun args) (.check_fun .adc1)).2
    | _ => s

/-! ### Frame conditions on the driver -/

/-- The driver functions that run in a non-blocking synchronized start leave
the fields `adcWasInUse` and `adc_config` to the class `ADC`: the checks and
`isConverting` do not change `adc_config`, `saveConfig` does not change
`adcWasInUse`, and `singleMode` and the starts change neither. -/
structure Driver.KeepsStoredFields (D : Driver σ κ) : Prop where
  checkPin : ∀ pin m, (D.checkPin pin m).2.adc_config = m.adc_config
  checkDifferentialPins : ∀ p n m, (D.checkDifferentialPins p n m).2.adc_config = m.adc_config
  isConverting : ∀ m, (D.isConverting m).2.adc_config = m.adc_config
  saveConfig : ∀ c m, (D.saveConfig c m).2.adcWasInUse = m.adcWasInUse
  singleMode : ∀ m, (D.singleMode m).adcWasInUse = m.adcWasInUse
    ∧ (D.singleMode m).adc_config = m.adc_config
  startReadFast : ∀ pin m, (D.startReadFast pin m).adcWasInUse = m.adcWasInUse
    ∧ (D.startReadFast pin m).adc_config = m.adc_config
  startDifferentialFast : ∀ p n m, (D.startDifferentialFast p n m).adcWasInUse = m.adcWasInUse
    ∧ (D.startDifferentialFast p n m).adc_config = m.adc_config

/-! ### Accumulation of `fail_flag` -/

/-- Every bit set in the `fail_flag` of `m` is set in the `fail_flag` of `m1`. -/
def KeepsBits (m m1 : ADC_Module σ κ) : Prop :=
  ∀ i, m.fail_flag.testBit i = true → m1.fail_flag.testBit i = true

/-- Every bit set in a `fail_flag` in state `s` is set in it in state `s1`. -/
def StateKeepsBits (s s1 : ADC σ κ) : Prop :=
  KeepsBits s.adc0 s1.adc0 ∧ KeepsBits s.adc1 s1.adc1

/-- No driver function other than `resetError` clears a bit of `fail_flag`. -/
structure Driver.KeepsFlags (D : Driver σ κ) : Prop where
  checkPin : ∀ pin m, KeepsBits m (D.checkPin pin m).2
  checkDifferentialPins : ∀ p n m, KeepsBits m (D.checkDifferentialPins p n m).2
  getResolution : ∀ m, KeepsBits m (D.getResolution m).2
  isConverting : ∀ m, KeepsBits m (D.isConverting m).2
  isComplete : ∀ m, KeepsBits m (D.isComplete m).2
  readSingle : ∀ m, KeepsBits m (D.readSingle m).2
  singleMode : ∀ m, KeepsBits m (D.singleMode m)
  startReadFast : ∀ pin m, KeepsBits m (D.startReadFast pin m)
  startDifferentialFast : ∀ p n m, KeepsBits m (D.startDifferentialFast p n m)
  saveConfig : ∀ c m, KeepsBits m (D.saveConfig c m).2
  loadConfig : ∀ c m, KeepsBits m (D.loadConfig c m)
  startContinuous : ∀ pin m, KeepsBits m (D.startContinuous pin m).2
  startContinuousDifferential : ∀ p n m, KeepsBits m (D.startContinuousDifferential p n m).2

/-! ### Reading the order of the steps -/

/-- The steps that prepare and start a single conversion: `singleMode`,
`startReadFast` and `startDifferentialFast`. -/
def Event.isStartStep : Event κ → Bool
  | .singleMode _ => true
  | .startReadFast _ _ => true
  | .startDifferentialFast _ _ _ => true
  | _ => false

/-- The changes of the interrupt mask: `__disable_irq()` and `__enable_irq()`. -/
def Event.isMask : Event κ → Bool
  | .disable_irq => true
  | .enable_irq => true
  | _ => false

/-! ### The two halves of the register alignment -/

/-- The statements `ADC.cpp` 537-538 (and 569-570): `ADC0_SC1A` is read into
`temp_ADC0_SC1A` and set to `0x1F`, then `ADC1_SC1A` is read into
`temp_ADC1_SC1A` and set to `0x1F`.  Returns the two temporaries. -/
def disableBoth (s : ADC σ κ) : (Nat × Nat) × ADC σ κ :=
  let t0 := s.readSC1A .adc0
  let s1 := t0.2.writeSC1A .adc0 0x1F
  let t1 := s1.readSC1A .adc1
  let s2 := t1.2.writeSC1A .adc1 0x1F
  ((t0.1, t1.1), s2)

/-- The statements `ADC.cpp` 540-543 (and 572-575): between `__disable_irq()`
and `__enable_irq()`, `ADC0_SC1A = temp_ADC0_SC1A; ADC1_SC1A = temp_ADC1_SC1A;`. -/
def restoreBoth (temps : Nat × Nat) (s : ADC σ κ) : ADC σ κ :=
  let s3 := s.log .disable_irq
  let s4 := s3.writeSC1A .adc0 temps.1
  let s5 := s4.writeSC1A .adc1 temps.2
  s5.log .enable_irq

/-- The state of `startSynchronizedContinuous` after its two `startContinuous`
calls (`ADC.cpp` 523-533, both checks true). -/
def continuousStarted (D : Driver σ κ) (pin0 pin1 : Nat) (s : ADC σ κ) : ADC σ κ :=
  let k0 := s.invoke .adc0 (D.checkPin pin0) (.checkPin .adc0 pin0)
  let k1 := k0.2.invoke .adc1 (D.checkPin pin1) (.checkPin .adc1 pin1)
  let c0 := k1.2.invoke .adc0 (D.startContinuous pin0) (.startContinuous .adc0 pin0)
  (c0.2.invoke .adc1 (D.startContinuous pin1) (.startContinuous .adc1 pin1)).2

/-- The state of `startSynchronizedContinuousDifferential` after its two
`startContinuousDifferential` calls (`ADC.cpp` 555-565, both checks true). -/
def continuousStartedDifferential (D : Driver σ κ) (pin0P pin0N pin1P pin1N : Nat)
    (s : ADC σ κ) : ADC σ κ :=
  let k0 := s.invoke .adc0 (D.checkDifferentialPins pin0P pin0N)
    (.checkDifferentialPins .adc0 pin0P pin0N)
  let k1 := k0.2.invoke .adc1 (D.checkDifferentialPins pin1P pin1N)
    (.checkDifferentialPins .adc1 pin1P pin1N)
  let c0 := k1.2.invoke .adc0 (D.startContinuousDifferential pin0P pin0N)
    (.startContinuousDifferential .adc0 pin0P pin0N)
  (c0.2.invoke .adc1 (D.startContinuousDifferential pin1P pin1N)
    (.startContinuousDifferential .adc1 pin1P pin1N)).2

/-! ### The module a dispatch policy converts on -/

/-- The steps that are to run with interrupts enabled: the polls of
`isConverting` and `yield`, `singleMode`, the starts and `loadConfig`. -/
def Event.needsInterrupts : Event κ → Bool
  | .yield => true
  | .isConverting _ => true
  | .singleMode _ => true
  | .startReadFast _ _ => true
  | .startDifferentialFast _ _ _ => true
  | .startContinuous _ _ => true
  | .startContinuousDifferential _ _ _ => true
  | .loadConfig _ _ => true
  | _ => false

/-- The interrupt mask after one step, `masked` being the mask before it.
There is no answer when the step is a `__disable_irq()` inside a masked window
(a nested window), an `__enable_irq()` outside one, or a step that needs
interrupts inside one. -/
def maskStep (masked : Bool) : Event κ → Option Bool
  | .disable_irq => if masked then none else some true
  | .enable_irq => if masked then some false else none
  | e => if masked && e.needsInterrupts then none else some masked

/-- The interrupt mask after the steps of a trace. -/
def maskRun (masked : Bool) : List (Event κ) → Option Bool
  | [] => some masked
  | e :: es => (maskStep masked e).bind (fun m => maskRun m es)

/-- Whether a step is `__disable_irq()`. -/
def Event.isDisable : Event κ → Bool
  | .disable_irq => true
  | _ => false

/-- Whether a step is `__enable_irq()`. -/
def Event.isEnable : Event κ → Bool
  | .enable_irq => true
  | _ => false

/-- The steps `evs`, run from interrupts enabled, end with interrupts enabled,
open no window inside a window, close none outside one, run no step that needs
interrupts inside one, and hold as many `__disable_irq()` as `__enable_irq()`. -/
def Balanced (evs : List (Event κ)) : Prop :=
  maskRun false evs = some false
    ∧ evs.countP Event.isDisable = evs.countP Event.isEnable

/-! ### The wait loop, turn by turn -/

/-- One evaluation of the loop condition
`(adc0->isConverting()) || (adc1->isConverting())` (`ADC.cpp` 273): `adc1` is
asked only when `adc0` answers false. -/
def loopCondition (D : Driver σ κ) (s : ADC σ κ) : Bool × ADC σ κ :=
  let c0 := s.invoke .adc0 D.isConverting (.isConverting .adc0)
  if c0.1 then (true, c0.2)
  else c0.2.invoke .adc1 D.isConverting (.isConverting .adc1)

/-- One turn of the wait loop: an evaluation of the condition, then the body
`yield();` (`ADC.cpp` 273-276). -/
def loopTurn (D : Driver σ κ) (s : ADC σ κ) : ADC σ κ :=
  (loopCondition D s).2.log .yield

/-- The state after `n` turns of the wait loop. -/
def loopTurns (D : Driver σ κ) (n : Nat) (s : ADC σ κ) : ADC σ κ :=
  (loopTurn D)^[n] s

/-- A module after `n` polls of `isConverting`. -/
def polled (D : Driver σ κ) (n : Nat) (m : ADC_Module σ κ) : ADC_Module σ κ :=
  (fun x => (D.isConverting x).2)^[n] m

/-- Whether a step is `yield()`. -/
def Event.isYield : Event κ → Bool
  | .yield => true
  | _ => false

end Model

/-! ## The pin translation tables (`ADC.cpp`, lines 34-193) -/

/-- The board variants `ADC.cpp` defines its tables for, named as the macros of
its `#if defined(...)` branches. -/
inductive Board where
  | ADC_TEENSY_3_0
  | ADC_TEENSY_3_1
  | ADC_TEENSY_LC
  | ADC_TEENSY_3_5
  | ADC_TEENSY_3_6
  deriving DecidableEq

/-- The marker of a pin on mux a, `ADC_SC1A_PIN_MUX`; its value is the one the
comment `ADC.cpp` 38 gives. -/
def ADC_SC1A_PIN_MUX : Nat := 128

/-- The marker of a differential pin, `ADC_SC1A_PIN_DIFF`; its value is the one
the comment `ADC.cpp` 39 gives. -/
def ADC_SC1A_PIN_DIFF : Nat := 64

/-- The table `ADC::channel2sc1aADC0` (`ADC.cpp` 44-91), from a pin number to
the value for the register `SC1A` of `ADC0`; `31` deactivates the ADC. -/
def channel2sc1aADC0 : Board → List Nat
  | .ADC_TEENSY_3_0 =>
    [5, 14, 8, 9, 13, 12, 6, 7, 15, 4, 0, 19, 3, 21,
     5, 14, 8, 9, 13, 12, 6, 7, 15, 4,
     31, 31, 31, 31, 31, 31, 31, 31, 31, 31,
     0+ADC_SC1A_PIN_DIFF, 19+ADC_SC1A_PIN_DIFF, 3+ADC_SC1A_PIN_DIFF, 21+ADC_SC1A_PIN_DIFF,
     26, 22, 23, 27, 29, 30]
  | .ADC_TEENSY_3_1 =>
    [5, 14, 8, 9, 13, 12, 6, 7, 15, 4, 0, 19, 3, 31,
     5, 14, 8, 9, 13, 12, 6, 7, 15, 4,
     31, 31, 31, 31, 31, 31, 31, 31, 31, 31,
     0+ADC_SC1A_PIN_DIFF, 19+ADC_SC1A_PIN_DIFF, 3+ADC_SC1A_PIN_DIFF, 31+ADC_SC1A_PIN_DIFF,
     26, 22, 23, 27, 29, 30]
  | .ADC_TEENSY_LC =>
    [5, 14, 8, 9, 13, 12, 6, 7, 15, 11, 0, 4+ADC_SC1A_PIN_MUX, 23, 31,
     5, 14, 8, 9, 13, 12, 6, 7, 15, 11,
     0+ADC_SC1A_PIN_DIFF, 4+ADC_SC1A_PIN_MUX+ADC_SC1A_PIN_DIFF, 23, 31, 31, 31, 31, 31, 31, 31,
     31, 31, 31, 31,
     26, 27, 31, 27, 29, 30]
  | .ADC_TEENSY_3_5 =>
    [5, 14, 8, 9, 13, 12, 6, 7, 15, 4, 3, 31, 31, 31,
     5, 14, 8, 9, 13, 12, 6, 7, 15, 4,
     26, 27, 29, 30, 31, 31, 31,
     31, 31, 17, 18,
     31, 31, 31, 31, 31, 31, 31, 31, 31,
     31, 31, 31, 31, 31, 31, 31, 31, 31,
     31, 31, 31, 31, 31, 31, 31, 31, 31,
     31, 31, 3+ADC_SC1A_PIN_DIFF, 31+ADC_SC1A_PIN_DIFF, 23, 31, 1, 31]
  | .ADC_TEENSY_3_6 =>
    [5, 14, 8, 9, 13, 12, 6, 7, 15, 4, 3, 31, 31, 31,
     5, 14, 8, 9, 13, 12, 6, 7, 15, 4,
     26, 27, 29, 30, 31, 31, 31,
     31, 31, 17, 18,
     31, 31, 31, 31, 31, 31, 31, 31, 31,
     31, 31, 31, 31, 31, 31, 31, 31, 31,
     31, 31, 31, 31, 31, 31, 31, 31, 31,
     31, 31, 3+ADC_SC1A_PIN_DIFF, 31+ADC_SC1A_PIN_DIFF, 23, 31]

/-- The table `ADC::channel2sc1aADC1` (`ADC.cpp` 93-125); it is defined for the
boards with a second ADC only. -/
def channel2sc1aADC1 : Board → Option (List Nat)
  | .ADC_TEENSY_3_1 => some
    [31, 31, 8, 9, 31, 31, 31, 31, 31, 31, 3, 31, 0, 19,
     31, 31, 8, 9, 31, 31, 31, 31, 31, 31,
     31, 31,
     5+ADC_SC1A_PIN_MUX, 5, 4, 6, 7, 4+ADC_SC1A_PIN_MUX, 31, 31,
     3+ADC_SC1A_PIN_DIFF, 31+ADC_SC1A_PIN_DIFF, 0+ADC_SC1A_PIN_DIFF, 19+ADC_SC1A_PIN_DIFF,
     26, 18, 31, 27, 29, 30]
  | .ADC_TEENSY_3_5 => some
    [31, 31, 8, 9, 31, 31, 31, 31, 31, 31, 31, 19, 14, 15,
     31, 31, 8, 9, 31, 31, 31, 31, 31, 31,
     26, 27, 29, 30, 18, 31, 31,
     14, 15, 31, 31, 4, 5, 6, 7, 17,
     31, 31, 31, 31,
     31, 31, 31, 31, 31, 10, 11, 31, 31,
     31, 31, 31, 31, 31, 31, 31, 31, 31,
     31, 31, 0+ADC_SC1A_PIN_DIFF, 19+ADC_SC1A_PIN_DIFF, 31, 23, 31, 1]
  | .ADC_TEENSY_3_6 => some
    [31, 31, 8, 9, 31, 31, 31, 31, 31, 31, 31, 19, 14, 15,
     31, 31, 8, 9, 31, 31, 31, 31, 31, 31,
     26, 27, 29, 30, 18, 31, 31,
     14, 15, 31, 31, 4, 5, 6, 7, 17,
     31, 31, 31, 23,
     31, 31, 31, 31, 31, 10, 11, 31, 31,
     31, 31, 31, 31, 31, 31, 31, 31, 31,
     31, 31, 0+ADC_SC1A_PIN_DIFF, 19+ADC_SC1A_PIN_DIFF, 31, 23]
  | _ => none

/-- The table `ADC::sc1a2channelADC0` (`ADC.cpp` 153-177), from a value of
`SC1A` to a pin number. -/
def sc1a2channelADC0 : Board → List Nat
  | .ADC_TEENSY_3_0 | .ADC_TEENSY_3_1 =>
    [34, 0, 0, 36, 23, 14, 20, 21, 16, 17, 0, 0, 19, 18,
     15, 22, 23, 0, 0, 35, 0, 37,
     39, 40, 0, 0, 38, 41, 42, 43,
     0]
  | .ADC_TEENSY_LC =>
    [24, 0, 0, 0, 25, 14, 20, 21, 16, 17, 0, 23, 19, 18,
     15, 22, 23, 0, 0, 0, 0, 0,
     26, 0, 0, 0, 38, 41, 0, 42, 43,
     0]
  | .ADC_TEENSY_3_5 | .ADC_TEENSY_3_6 =>
    [0, 68, 0, 64, 23, 14, 20, 21, 16, 17, 0, 0, 19, 18,
     15, 22, 0, 33, 34, 0, 0, 0,
     0, 66, 0, 0, 70, 0, 0, 0,
     0]

/-- The table `ADC::sc1a2channelADC1` (`ADC.cpp` 179-194), from a value of
`SC1A` to a pin number; defined for the boards with a second ADC only. -/
def sc1a2channelADC1 : Board → Option (List Nat)
  | .ADC_TEENSY_3_1 => some
    [36, 0, 0, 34, 28, 26, 29, 30, 16, 17, 0, 0, 0, 0,
     0, 0, 0, 0, 39, 37, 0, 0,
     0, 0, 0, 0, 38, 41, 0, 42,
     43]
  | .ADC_TEENSY_3_5 | .ADC_TEENSY_3_6 => some
    [0, 69, 0, 0, 35, 36, 37, 38, 0, 0, 49, 50, 0, 0,
     31, 32, 0, 39, 71, 65, 0, 0,
     0, 67, 0, 0, 0, 0, 0, 0,
     0]
  | _ => none

/-- The element `table[i]` of one of the tables.  The arrays are declared with
`ADC_MAX_PIN+1` elements (`ADC.h` 695-705), so the elements past the
initializer list are zero. -/
def tableAt (table : List Nat) (i : Nat) : Nat :=
  table.getD i 0

/-- The channel number in a table entry: its low five bits, without the
markers `ADC_SC1A_PIN_MUX` and `ADC_SC1A_PIN_DIFF`. -/
def sc1aChannel (entry : Nat) : Nat :=
  entry &&& 0x1F

/-- Whether the SC1A-to-pin table of `ADC0` sends the channel of pin `p` back
to `p`, for a pin `ADC0` reads. -/
def invertsAt (b : Board) (p : Nat) : Bool :=
  sc1aChannel (tableAt (channel2sc1aADC0 b) p) == 31
    || tableAt (sc1a2channelADC0 b) (sc1aChannel (tableAt (channel2sc1aADC0 b) p)) == p

/-! ## A concrete driver

A small executable driver on which the statements below are instantiated: a
module reads the pins of a list, a differential pair is a pin of the list and
its successor, every poll of `isConverting` uses up one unit of `busy`, a
conversion is started with one unit, and a configuration snapshot is the pair
of the conversion mode and the units left. -/

/-- The driver-owned state of the concrete driver. -/
structure DemoHW where
  pins : List Nat
  busy : Nat
  mode : Nat
  compareOk : Bool
  sample : Int
  resolution : Nat
  deriving DecidableEq

/-- A module of the concrete driver. -/
abbrev DemoModule := ADC_Module DemoHW (Nat × Nat)

/-- The concrete driver. -/
def demoDriver : Driver DemoHW (Nat × Nat) where
  checkPin := fun pin m => (decide (pin ∈ m.hw.pins), m)
  checkDifferentialPins := fun p n m => (decide (p ∈ m.hw.pins) && decide (n = p + 1), m)
  getResolution := fun m => (m.hw.resolution, m)
  isConverting := fun m => (decide (0 < m.hw.busy), { m with hw := { m.hw with busy := m.hw.busy - 1 } })
  isComplete := fun m => (m.hw.compareOk, m)
  readSingle := fun m => (m.hw.sample, m)
  singleMode := fun m => { m with hw := { m.hw with mode := 0 } }
  startReadFast := fun pin m => { m with hw := { m.hw with busy := 1, mode := pin + 1 } }
  startDifferentialFast := fun p n m => { m with hw := { m.hw with busy := 1, mode := 100 * p + n } }
  saveConfig := fun _ m => ((m.hw.mode, m.hw.busy), m)
  loadConfig := fun c m => { m with hw := { m.hw with mode := c.1, busy := c.2 } }
  analogRead := fun pin m => (m.hw.sample + pin, m)
  zeroConfig := (0, 0)
  analogReadDifferential := fun p n m => (m.hw.sample + p - n, m)
  startSingleRead := fun pin m => (true, { m with hw := { m.hw with busy := 1, mode := pin + 1 } })
  startSingleDifferential := fun p n m =>
    (true, { m with hw := { m.hw with busy := 1, mode := 100 * p + n } })
  startContinuous := fun pin m =>
    (true, { m with SC1A := pin, hw := { m.hw with busy := 9, mode := 1000 + pin } })
  startContinuousDifferential := fun p n m =>
    (true, { m with SC1A := p, hw := { m.hw with busy := 9, mode := 2000 + 100 * p + n } })
  resetError := fun m => { m with fail_flag := 0 }
  analogReadContinuous := fun m => (m.hw.sample, m)
  stopContinuous := fun m => { m with SC1A := 31, hw := { m.hw with busy := 0, mode := 0 } }

/-- A two-module build, with sample values for the error codes. -/
def demoBuild : Build where
  ADC_NUM_ADCS := 2
  ADC_ERROR_VALUE := -70000
  ADC_ERROR_WRONG_PIN := 4
  ADC_ERROR_COMPARISON := 16

/-- A single-module build, with the same sample values. -/
def demoBuildSingle : Build where
  ADC_NUM_ADCS := 1
  ADC_ERROR_VALUE := -70000
  ADC_ERROR_WRONG_PIN := 4
  ADC_ERROR_COMPARISON := 16

/-- A module of the concrete driver with the given pins, workload, polls left,
comparison outcome, sample and resolution. -/
def demoModule (pins : List Nat) (load busy : Nat) (ok : Bool) (sample : Int)
    (resolution : Nat) : DemoModule where
  fail_flag := 0
  num_measurements := load
  adcWasInUse := false
  adc_config := (0, 0)
  SC1A := 31
  hw := ⟨pins, busy, 7, ok, sample, resolution⟩

/-- Module `adc0` reads pin 14 and holds sample 100, module `adc1` reads pin 26
and holds sample 300; `busy0` is the time left of a conversion running on
`adc0`, `ok0`/`ok1` say whether the comparisons succeed, `res0`/`res1` are the
resolutions. -/
def demoADC (busy0 : Nat) (ok0 ok1 : Bool) (res0 res1 : Nat) : ADC DemoHW (Nat × Nat) where
  adc0 := demoModule [14] 0 busy0 ok0 100 res0
  adc1 := demoModule [26] 5 0 ok1 300 res1
  trace := []

/-- The state `demoADC` is in when a blocking read has started both conversions
and its wait loop has ended: both modules idle in modes `mode0` and `mode1`,
after the steps `tr`. -/
def demoWaited (ok0 ok1 : Bool) (res0 res1 mode0 mode1 : Nat)
    (tr : List (Event (Nat × Nat))) : ADC DemoHW (Nat × Nat) where
  adc0 := { demoModule [14] 0 0 ok0 100 res0 with hw := ⟨[14], 0, mode0, ok0, 100, res0⟩ }
  adc1 := { demoModule [26] 5 0 ok1 300 res1 with hw := ⟨[26], 0, mode1, ok1, 300, res1⟩ }
  trace := tr

/-- Two idle modules as in `demoADC`, with `ADC_ERROR_COMPARISON` (16) already
set in `adc0->fail_flag`. -/
def demoFlagged : ADC DemoHW (Nat × Nat) where
  adc0 := { demoModule [14] 0 0 true 100 10 with fail_flag := 16 }
  adc1 := demoModule [26] 5 0 true 300 10
  trace := []

/-- The polls of the wait loop on the concrete driver after two fresh starts. -/
def demoPolls : List (Event (Nat × Nat)) :=
  [.isConverting .adc0, .yield, .isConverting .adc0, .isConverting .adc1, .yield,
    .isConverting .adc0, .isConverting .adc1]

/-! ## Auxiliary facts -/

theorem demoDriver_keepsFlags : demoDriver.KeepsFlags where
  checkPin := fun _ _ _ h => h
  checkDifferentialPins := fun _ _ _ _ h => h
  getResolution := fun _ _ h => h
  isConverting := fun _ _ h => h
  isComplete := fun _ _ h => h
  readSingle := fun _ _ h => h
  singleMode := fun _ _ h => h
  startReadFast := fun _ _ _ h => h
  startDifferentialFast := fun _ _ _ _ h => h
  saveConfig := fun _ _ _ h => h
  loadConfig := fun _ _ _ h => h
  startContinuous := fun _ _ _ h => h
  startContinuousDifferential := fun _ _ _ _ h => h

theorem demoDriver_keepsStoredFields : demoDriver.KeepsStoredFields where
  checkPin := fun _ _ => rfl
  checkDifferentialPins := fun _ _ _ => rfl
  isConverting := fun _ => rfl
  saveConfig := fun _ _ => rfl
  singleMode := fun _ => ⟨rfl, rfl⟩
  startReadFast := fun _ _ => ⟨rfl, rfl⟩
  startDifferentialFast := fun _ _ _ => ⟨rfl, rfl⟩


section Facts

variable {σ κ : Type}

theorem lor_and_self_right (a b : Nat) : (a ||| b) &&& b = b := by
  apply Nat.eq_of_testBit_eq
  intro i
  simp only [Nat.testBit_and, Nat.testBit_or]
  cases a.testBit i <;> cases b.testBit i <;> rfl

end Facts

/-! ## Accumulation of `fail_flag`, step by step -/

section Accumulation

variable {σ κ : Type}

theorem KeepsBits.self (m : ADC_Module σ κ) : KeepsBits m m :=
  fun _ h => h

theorem KeepsBits.andThen {m m1 m2 : ADC_Module σ κ} (h : KeepsBits m m1)
    (h1 : KeepsBits m1 m2) : KeepsBits m m2 :=
  fun i hi => h1 i (h i hi)

theorem keepsBits_of_eq {m m1 : ADC_Module σ κ} (h : m1.fail_flag = m.fail_flag) :
    KeepsBits m m1 := by
  intro i hi
  rw [h]
  exact hi

theorem keepsBits_orFail (m : ADC_Module σ κ) (bits : Nat) :
    KeepsBits m { m with fail_flag := m.fail_flag ||| bits } := by
  intro i hi
  simp [Nat.testBit_or, hi]

theorem StateKeepsBits.selfState (s : ADC σ κ) : StateKeepsBits s s :=
  ⟨KeepsBits.self _, KeepsBits.self _⟩

theorem StateKeepsBits.andThenState {s s1 s2 : ADC σ κ} (h : StateKeepsBits s s1)
    (h1 : StateKeepsBits s1 s2) : StateKeepsBits s s2 :=
  ⟨h.1.andThen h1.1, h.2.andThen h1.2⟩

theorem keepsBits_preemptedModule (D : Driver σ κ) (hD : D.KeepsFlags) (m : ADC_Module σ κ) :
    KeepsBits m (preemptedModule D m) := by
  unfold preemptedModule
  split
  · exact (hD.isConverting m).andThen (hD.saveConfig _ _)
  · exact hD.isConverting m

theorem keepsBits_preemptedStoredModule (D : Driver σ κ) (hD : D.KeepsFlags)
    (m : ADC_Module σ κ) : KeepsBits m (preemptedStoredModule D m) := by
  have h1 : KeepsBits m (storedEntry D m) :=
    (hD.isConverting m).andThen (keepsBits_of_eq rfl)
  unfold preemptedStoredModule
  split
  · exact (h1.andThen (hD.saveConfig _ _)).andThen (keepsBits_of_eq rfl)
  · exact h1

theorem keepsBits_finishedModule (D : Driver σ κ) (K : Build) (hD : D.KeepsFlags)
    (m : ADC_Module σ κ) : KeepsBits m (finishedModule D K m) := by
  unfold finishedModule
  split
  · exact (hD.isComplete m).andThen (hD.readSingle _)
  · exact (hD.isComplete m).andThen (keepsBits_orFail _ _)

theorem keepsBits_restoredModule (D : Driver σ κ) (hD : D.KeepsFlags)
    (entry m : ADC_Module σ κ) : KeepsBits m (restoredModule D entry m) := by
  unfold restoredModule
  split
  · exact hD.loadConfig _ _
  · exact KeepsBits.self _

theorem waitBoth_keepsBits (D : Driver σ κ) (hD : D.KeepsFlags) (fuel : Nat) :
    ∀ s sp : ADC σ κ, waitBoth D fuel s = some sp → StateKeepsBits s sp := by
  induction fuel with
  | zero => intro s sp h; simp [waitBoth] at h
  | succ n ih =>
    intro s sp h
    simp only [waitBoth] at h
    split at h
    · refine StateKeepsBits.andThenState ?_ (ih _ _ h)
      exact ⟨hD.isConverting _, KeepsBits.self _⟩
    · split at h
      · refine StateKeepsBits.andThenState ?_ (ih _ _ h)
        exact ⟨hD.isConverting _, hD.isConverting _⟩
      · simp only [Option.some.injEq] at h
        subst h
        exact ⟨hD.isConverting _, hD.isConverting _⟩

/-- A bit pattern that is set in the `fail_flag` of `m` is set in every
`fail_flag` that keeps the bits of `m`. -/
theorem keepsBits_land {m m1 : ADC_Module σ κ} (h : KeepsBits m m1) (c : Nat)
    (hc : m.fail_flag &&& c = c) : m1.fail_flag &&& c = c := by
  apply Nat.eq_of_testBit_eq
  intro i
  rw [Nat.testBit_and]
  cases hci : c.testBit i
  · simp
  · have hm : m.fail_flag.testBit i = true := by
      have := congrArg (fun x => x.testBit i) hc
      simp only [Nat.testBit_and, hci, Bool.and_true] at this
      exact this
    simp [h i hm]

end Accumulation

/-! ## The phases of the blocking reads -/

section Phases

variable {σ κ : Type}

theorem preempt_adc0 (D : Driver σ κ) (s : ADC σ κ) :
    preempt D .adc0 s =
      ((wasInUse D s.adc0, if wasInUse D s.adc0 then snapshot D s.adc0 else D.zeroConfig),
        { adc0 := preemptedModule D s.adc0
          adc1 := s.adc1
          trace := s.trace ++ preemptEvents D .adc0 s.adc0 }) := by
  cases h : (D.isConverting s.adc0).1 <;>
    simp [preempt, wasInUse, snapshot, preemptedModule, preemptEvents, ADC.invoke, ADC.get,
      ADC.set, ADC.log, h]

theorem preempt_adc1 (D : Driver σ κ) (s : ADC σ κ) :
    preempt D .adc1 s =
      ((wasInUse D s.adc1, if wasInUse D s.adc1 then snapshot D s.adc1 else D.zeroConfig),
        { adc0 := s.adc0
          adc1 := preemptedModule D s.adc1
          trace := s.trace ++ preemptEvents D .adc1 s.adc1 }) := by
  cases h : (D.isConverting s.adc1).1 <;>
    simp [preempt, wasInUse, snapshot, preemptedModule, preemptEvents, ADC.invoke, ADC.get,
      ADC.set, ADC.log, h]

theorem startingRead_eq (D : Driver σ κ) (pin0 pin1 : Nat) (s : ADC σ κ) :
    startingRead D pin0 pin1 s =
      { adc0 := D.startReadFast pin0 (D.singleMode s.adc0)
        adc1 := D.startReadFast pin1 (D.singleMode s.adc1)
        trace := s.trace ++ [.singleMode .adc0, .singleMode .adc1,
          .startReadFast .adc0 pin0, .startReadFast .adc1 pin1] } := by
  simp [startingRead, ADC.run, ADC.get, ADC.set, ADC.log]

theorem startingDifferential_eq (D : Driver σ κ) (pin0P pin0N pin1P pin1N : Nat)
    (s : ADC σ κ) :
    startingDifferential D pin0P pin0N pin1P pin1N s =
      { adc0 := D.startDifferentialFast pin0P pin0N (D.singleMode s.adc0)
        adc1 := D.startDifferentialFast pin1P pin1N (D.singleMode s.adc1)
        trace := s.trace ++ [.singleMode .adc0, .singleMode .adc1,
          .startDifferentialFast .adc0 pin0P pin0N,
          .startDifferentialFast .adc1 pin1P pin1N] } := by
  simp [startingDifferential, ADC.run, ADC.get, ADC.set, ADC.log]

theorem loopEntryRead_eq (D : Driver σ κ) (pin0 pin1 : Nat) (s : ADC σ κ) :
    loopEntryRead D pin0 pin1 s =
      { adc0 := D.startReadFast pin0 (D.singleMode (preemptedModule D (D.checkPin pin0 s.adc0).2))
        adc1 := D.startReadFast pin1 (D.singleMode (preemptedModule D (D.checkPin pin1 s.adc1).2))
        trace := s.trace ++ [.checkPin .adc0 pin0, .checkPin .adc1 pin1]
          ++ preemptEvents D .adc0 (D.checkPin pin0 s.adc0).2
          ++ preemptEvents D .adc1 (D.checkPin pin1 s.adc1).2
          ++ [.singleMode .adc0, .singleMode .adc1,
              .startReadFast .adc0 pin0, .startReadFast .adc1 pin1] } := by
  simp [loopEntryRead, checkedRead, preempt_adc0, preempt_adc1, startingRead_eq, ADC.invoke,
    ADC.get, ADC.set, ADC.log]

theorem loopEntryDifferential_eq (D : Driver σ κ) (pin0P pin0N pin1P pin1N : Nat)
    (s : ADC σ κ) :
    loopEntryDifferential D pin0P pin0N pin1P pin1N s =
      { adc0 := D.startDifferentialFast pin0P pin0N (D.singleMode (preemptedModule D
          (D.getResolution (D.checkDifferentialPins pin0P pin0N s.adc0).2).2))
        adc1 := D.startDifferentialFast pin1P pin1N (D.singleMode (preemptedModule D
          (D.getResolution (D.checkDifferentialPins pin1P pin1N s.adc1).2).2))
        trace := s.trace ++ [.checkDifferentialPins .adc0 pin0P pin0N,
            .checkDifferentialPins .adc1 pin1P pin1N,
            .getResolution .adc0, .getResolution .adc1]
          ++ preemptEvents D .adc0
              (D.getResolution (D.checkDifferentialPins pin0P pin0N s.adc0).2).2
          ++ preemptEvents D .adc1
              (D.getResolution (D.checkDifferentialPins pin1P pin1N s.adc1).2).2
          ++ [.singleMode .adc0, .singleMode .adc1,
              .startDifferentialFast .adc0 pin0P pin0N,
              .startDifferentialFast .adc1 pin1P pin1N] } := by
  simp [loopEntryDifferential, checkedDifferential, preempt_adc0, preempt_adc1,
    startingDifferential_eq, ADC.invoke, ADC.get, ADC.set, ADC.log]

theorem finishOne_adc0 (D : Driver σ κ) (K : Build) (res : Sync_result) (s : ADC σ κ) :
    finishOne D K .adc0 res s =
      (⟨if (D.isComplete s.adc0).1 then (D.readSingle (D.isComplete s.adc0).2).1
          else res.result_adc0, res.result_adc1⟩,
        { adc0 := finishedModule D K s.adc0
          adc1 := s.adc1
          trace := s.trace ++ finishedEvents D .adc0 s.adc0 }) := by
  cases h : (D.isComplete s.adc0).1 <;>
    simp [finishOne, finishedModule, finishedEvents, Sync_result.setField, ADC.invoke,
      ADC.get, ADC.set, ADC.log, ADC.orFail, h]

theorem finishOne_adc1 (D : Driver σ κ) (K : Build) (res : Sync_result) (s : ADC σ κ) :
    finishOne D K .adc1 res s =
      (⟨res.result_adc0, if (D.isComplete s.adc1).1 then (D.readSingle (D.isComplete s.adc1).2).1
          else res.result_adc1⟩,
        { adc0 := s.adc0
          adc1 := finishedModule D K s.adc1
          trace := s.trace ++ finishedEvents D .adc1 s.adc1 }) := by
  cases h : (D.isComplete s.adc1).1 <;>
    simp [finishOne, finishedModule, finishedEvents, Sync_result.setField, ADC.invoke,
      ADC.get, ADC.set, ADC.log, ADC.orFail, h]

theorem finishing_eq (D : Driver σ κ) (K : Build) (sp : ADC σ κ) :
    finishing D K ⟨K.ADC_ERROR_VALUE, K.ADC_ERROR_VALUE⟩ sp =
      (⟨finishedField D K sp.adc0, finishedField D K sp.adc1⟩,
        { adc0 := finishedModule D K sp.adc0
          adc1 := finishedModule D K sp.adc1
          trace := sp.trace ++ [.disable_irq] ++ finishedEvents D .adc0 sp.adc0
            ++ finishedEvents D .adc1 sp.adc1 ++ [.enable_irq] }) := by
  simp [finishing, finishOne_adc0, finishOne_adc1, finishedField, ADC.log]

theorem finishOneDifferential_adc0 (D : Driver σ κ) (K : Build) (resolution : Nat)
    (res : Sync_result) (s : ADC σ κ) :
    finishOneDifferential D K .adc0 resolution res s =
      (⟨if (D.isComplete s.adc0).1 then
            (if resolution = 16 then wrap_int32 ((D.readSingle (D.isComplete s.adc0).2).1 * 2)
              else (D.readSingle (D.isComplete s.adc0).2).1)
          else res.result_adc0, res.result_adc1⟩,
        { adc0 := finishedModule D K s.adc0
          adc1 := s.adc1
          trace := s.trace ++ finishedEvents D .adc0 s.adc0 }) := by
  cases h : (D.isComplete s.adc0).1 <;> by_cases hr : resolution = 16 <;>
    simp [finishOneDifferential, finishedModule, finishedEvents, Sync_result.setField,
      Sync_result.field, ADC.invoke, ADC.get, ADC.set, ADC.log, ADC.orFail, h, hr]

theorem finishOneDifferential_adc1 (D : Driver σ κ) (K : Build) (resolution : Nat)
    (res : Sync_result) (s : ADC σ κ) :
    finishOneDifferential D K .adc1 resolution res s =
      (⟨res.result_adc0, if (D.isComplete s.adc1).1 then
            (if resolution = 16 then wrap_int32 ((D.readSingle (D.isComplete s.adc1).2).1 * 2)
              else (D.readSingle (D.isComplete s.adc1).2).1)
          else res.result_adc1⟩,
        { adc0 := s.adc0
          adc1 := finishedModule D K s.adc1
          trace := s.trace ++ finishedEvents D .adc1 s.adc1 }) := by
  cases h : (D.isComplete s.adc1).1 <;> by_cases hr : resolution = 16 <;>
    simp [finishOneDifferential, finishedModule, finishedEvents, Sync_result.setField,
      Sync_result.field, ADC.invoke, ADC.get, ADC.set, ADC.log, ADC.orFail, h, hr]

theorem finishingDifferential_eq (D : Driver σ κ) (K : Build) (resolution0 resolution1 : Nat)
    (sp : ADC σ κ) :
    finishingDifferential D K resolution0 resolution1
        ⟨K.ADC_ERROR_VALUE, K.ADC_ERROR_VALUE⟩ sp =
      (⟨finishedFieldDifferential D K resolution0 sp.adc0,
          finishedFieldDifferential D K resolution1 sp.adc1⟩,
        { adc0 := finishedModule D K sp.adc0
          adc1 := finishedModule D K sp.adc1
          trace := sp.trace ++ [.disable_irq] ++ finishedEvents D .adc0 sp.adc0
            ++ finishedEvents D .adc1 sp.adc1 ++ [.enable_irq] }) := by
  simp [finishingDifferential, finishOneDifferential_adc0, finishOneDifferential_adc1,
    finishedFieldDifferential, ADC.log]

theorem restore_adc0 (D : Driver σ κ) (entry : ADC_Module σ κ) (s : ADC σ κ) :
    restore D .adc0 (wasInUse D entry)
        (if wasInUse D entry then snapshot D entry else D.zeroConfig) s =
      { adc0 := restoredModule D entry s.adc0
        adc1 := s.adc1
        trace := s.trace ++ restoreEvents D .adc0 entry } := by
  cases h : wasInUse D entry <;>
    simp [restore, restoredModule, restoreEvents, ADC.run, ADC.get, ADC.set, ADC.log, h]

theorem restore_adc1 (D : Driver σ κ) (entry : ADC_Module σ κ) (s : ADC σ κ) :
    restore D .adc1 (wasInUse D entry)
        (if wasInUse D entry then snapshot D entry else D.zeroConfig) s =
      { adc0 := s.adc0
        adc1 := restoredModule D entry s.adc1
        trace := s.trace ++ restoreEvents D .adc1 entry } := by
  cases h : wasInUse D entry <;>
    simp [restore, restoredModule, restoreEvents, ADC.run, ADC.get, ADC.set, ADC.log, h]

theorem analogSynchronizedRead_valid (D : Driver σ κ) (K : Build) (fuel pin0 pin1 : Nat)
    (s sp : ADC σ κ)
    (h0 : (D.checkPin pin0 s.adc0).1 = true) (h1 : (D.checkPin pin1 s.adc1).1 = true)
    (hw : waitBoth D fuel (loopEntryRead D pin0 pin1 s) = some sp) :
    analogSynchronizedRead D K fuel pin0 pin1 s =
      some (⟨finishedField D K sp.adc0, finishedField D K sp.adc1⟩,
        { adc0 := restoredModule D (D.checkPin pin0 s.adc0).2 (finishedModule D K sp.adc0)
          adc1 := restoredModule D (D.checkPin pin1 s.adc1).2 (finishedModule D K sp.adc1)
          trace := sp.trace ++ [.disable_irq] ++ finishedEvents D .adc0 sp.adc0
            ++ finishedEvents D .adc1 sp.adc1 ++ [.enable_irq]
            ++ restoreEvents D .adc0 (D.checkPin pin0 s.adc0).2
            ++ restoreEvents D .adc1 (D.checkPin pin1 s.adc1).2 }) := by
  have e : analogSynchronizedRead D K fuel pin0 pin1 s =
      match waitBoth D fuel (loopEntryRead D pin0 pin1 s) with
      | none => none
      | some sp =>
        some ((finishing D K ⟨K.ADC_ERROR_VALUE, K.ADC_ERROR_VALUE⟩ sp).1,
          restore D .adc1 (preempt D .adc1 (preempt D .adc0 (checkedRead D pin0 pin1 s)).2).1.1
            (preempt D .adc1 (preempt D .adc0 (checkedRead D pin0 pin1 s)).2).1.2
            (restore D .adc0 (preempt D .adc0 (checkedRead D pin0 pin1 s)).1.1
              (preempt D .adc0 (checkedRead D pin0 pin1 s)).1.2
              (finishing D K ⟨K.ADC_ERROR_VALUE, K.ADC_ERROR_VALUE⟩ sp).2)) := by
    have h0' : (s.invoke .adc0 (D.checkPin pin0) (.checkPin .adc0 pin0)).1 = true := h0
    have h1' : ((s.invoke .adc0 (D.checkPin pin0) (.checkPin .adc0 pin0)).2.invoke .adc1
        (D.checkPin pin1) (.checkPin .adc1 pin1)).1 = true := h1
    simp only [analogSynchronizedRead, h0', h1', loopEntryRead, checkedRead]
    rfl
  rw [e, hw]
  simp [checkedRead, preempt_adc0, preempt_adc1, finishing_eq, restore_adc0, restore_adc1,
    ADC.invoke, ADC.get, ADC.set, ADC.log]

theorem analogSynchronizedReadDifferential_valid (D : Driver σ κ) (K : Build)
    (fuel pin0P pin0N pin1P pin1N : Nat) (s sp : ADC σ κ)
    (h0 : (D.checkDifferentialPins pin0P pin0N s.adc0).1 = true)
    (h1 : (D.checkDifferentialPins pin1P pin1N s.adc1).1 = true)
    (hw : waitBoth D fuel (loopEntryDifferential D pin0P pin0N pin1P pin1N s) = some sp) :
    analogSynchronizedReadDifferential D K fuel pin0P pin0N pin1P pin1N s =
      some (⟨finishedFieldDifferential D K
            (D.getResolution (D.checkDifferentialPins pin0P pin0N s.adc0).2).1 sp.adc0,
          finishedFieldDifferential D K
            (D.getResolution (D.checkDifferentialPins pin1P pin1N s.adc1).2).1 sp.adc1⟩,
        { adc0 := restoredModule D
            (D.getResolution (D.checkDifferentialPins pin0P pin0N s.adc0).2).2
            (finishedModule D K sp.adc0)
          adc1 := restoredModule D
            (D.getResolution (D.checkDifferentialPins pin1P pin1N s.adc1).2).2
            (finishedModule D K sp.adc1)
          trace := sp.trace ++ [.disable_irq] ++ finishedEvents D .adc0 sp.adc0
            ++ finishedEvents D .adc1 sp.adc1 ++ [.enable_irq]
            ++ restoreEvents D .adc0
                (D.getResolution (D.checkDifferentialPins pin0P pin0N s.adc0).2).2
            ++ restoreEvents D .adc1
                (D.getResolution (D.checkDifferentialPins pin1P pin1N s.adc1).2).2 }) := by
  have e : analogSynchronizedReadDifferential D K fuel pin0P pin0N pin1P pin1N s =
      match waitBoth D fuel (loopEntryDifferential D pin0P pin0N pin1P pin1N s) with
      | none => none
      | some sp =>
        some ((finishingDifferential D K
            (D.getResolution (D.checkDifferentialPins pin0P pin0N s.adc0).2).1
            (D.getResolution (D.checkDifferentialPins pin1P pin1N s.adc1).2).1
            ⟨K.ADC_ERROR_VALUE, K.ADC_ERROR_VALUE⟩ sp).1,
          restore D .adc1
            (preempt D .adc1 (preempt D .adc0
              (checkedDifferential D pin0P pin0N pin1P pin1N s)).2).1.1
            (preempt D .adc1 (preempt D .adc0
              (checkedDifferential D pin0P pin0N pin1P pin1N s)).2).1.2
            (restore D .adc0
              (preempt D .adc0 (checkedDifferential D pin0P pin0N pin1P pin1N s)).1.1
              (preempt D .adc0 (checkedDifferential D pin0P pin0N pin1P pin1N s)).1.2
              (finishingDifferential D K
                (D.getResolution (D.checkDifferentialPins pin0P pin0N s.adc0).2).1
                (D.getResolution (D.checkDifferentialPins pin1P pin1N s.adc1).2).1
                ⟨K.ADC_ERROR_VALUE, K.ADC_ERROR_VALUE⟩ sp).2)) := by
    have h0' : (s.invoke .adc0 (D.checkDifferentialPins pin0P pin0N)
        (.checkDifferentialPins .adc0 pin0P pin0N)).1 = true := h0
    have h1' : ((s.invoke .adc0 (D.checkDifferentialPins pin0P pin0N)
        (.checkDifferentialPins .adc0 pin0P pin0N)).2.invoke .adc1
        (D.checkDifferentialPins pin1P pin1N)
        (.checkDifferentialPins .adc1 pin1P pin1N)).1 = true := h1
    simp only [analogSynchronizedReadDifferential, h0', h1', loopEntryDifferential,
      checkedDifferential]
    rfl
  rw [e, hw]
  simp [checkedDifferential, preempt_adc0, preempt_adc1, finishingDifferential_eq,
    restore_adc0, restore_adc1, ADC.invoke, ADC.get, ADC.set, ADC.log]

theorem waitBoth_trace (D : Driver σ κ) (fuel : Nat) :
    ∀ s sp : ADC σ κ, waitBoth D fuel s = some sp →
      ∃ evs, sp.trace = s.trace ++ evs ∧ ∀ e ∈ evs, Event.isPoll e = true := by
  induction fuel with
  | zero => intro s sp h; simp [waitBoth] at h
  | succ n ih =>
    intro s sp h
    simp only [waitBoth] at h
    split at h
    · obtain ⟨evs, he, hp⟩ := ih _ _ h
      refine ⟨[.isConverting .adc0, .yield] ++ evs, ?_, ?_⟩
      · simp [he, ADC.invoke, ADC.log, ADC.set]
      · intro e hmem
        simp only [List.mem_append, List.mem_cons, List.mem_singleton] at hmem
        rcases hmem with (rfl | rfl | hmem) | hmem
        · rfl
        · rfl
        · simp at hmem
        · exact hp e hmem
    · split at h
      · obtain ⟨evs, he, hp⟩ := ih _ _ h
        refine ⟨[.isConverting .adc0, .isConverting .adc1, .yield] ++ evs, ?_, ?_⟩
        · simp [he, ADC.invoke, ADC.log, ADC.set]
        · intro e hmem
          simp only [List.mem_append, List.mem_cons, List.mem_singleton] at hmem
          rcases hmem with (rfl | rfl | rfl | hmem) | hmem
          · rfl
          · rfl
          · rfl
          · simp at hmem
          · exact hp e hmem
      · refine ⟨[.isConverting .adc0, .isConverting .adc1], ?_, ?_⟩
        · simp only [Option.some.injEq] at h
          subst h
          simp [ADC.invoke, ADC.log, ADC.set]
        · intro e hmem
          simp only [List.mem_cons, List.mem_singleton] at hmem
          rcases hmem with rfl | rfl | hmem
          · rfl
          · rfl
          · simp at hmem

/-- More fuel does not change the outcome of a wait loop that ends. -/
theorem waitBoth_fuel_mono (D : Driver σ κ) (fuel extra : Nat) :
    ∀ s sp : ADC σ κ, waitBoth D fuel s = some sp → waitBoth D (fuel + extra) s = some sp := by
  induction fuel with
  | zero => intro s sp h; simp [waitBoth] at h
  | succ n ih =>
    intro s sp h
    have e : n + 1 + extra = (n + extra) + 1 := by omega
    rw [e]
    simp only [waitBoth] at h ⊢
    split at h
    · rename_i hc
      simp only [hc, if_true]
      exact ih _ _ h
    · rename_i hc
      simp only [hc]
      split at h
      · rename_i hc1
        simp only [hc1, if_true]
        exact ih _ _ h
      · rename_i hc1
        simp only [hc1]
        exact h

theorem savedSnapshots_append (w : Which) (a b : List (Event κ)) :
    savedSnapshots w (a ++ b) = savedSnapshots w a ++ savedSnapshots w b := by
  simp [savedSnapshots, List.filterMap_append]

theorem loadedSnapshots_append (w : Which) (a b : List (Event κ)) :
    loadedSnapshots w (a ++ b) = loadedSnapshots w a ++ loadedSnapshots w b := by
  simp [loadedSnapshots, List.filterMap_append]

theorem savedSnapshots_poll (w : Which) (evs : List (Event κ))
    (h : ∀ e ∈ evs, Event.isPoll e = true) : savedSnapshots w evs = [] := by
  simp only [savedSnapshots, List.filterMap_eq_nil_iff]
  intro e he
  have := h e he
  cases e <;> simp_all [Event.isPoll, Event.saved]

theorem loadedSnapshots_poll (w : Which) (evs : List (Event κ))
    (h : ∀ e ∈ evs, Event.isPoll e = true) : loadedSnapshots w evs = [] := by
  simp only [loadedSnapshots, List.filterMap_eq_nil_iff]
  intro e he
  have := h e he
  cases e <;> simp_all [Event.isPoll, Event.loaded]

theorem savedSnapshots_preemptEvents (D : Driver σ κ) (w w1 : Which) (m : ADC_Module σ κ) :
    savedSnapshots w (preemptEvents D w1 m) =
      if w1 = w ∧ wasInUse D m = true then [snapshot D m] else [] := by
  cases h : wasInUse D m <;> by_cases hw : w1 = w <;>
    simp [savedSnapshots, preemptEvents, Event.saved, h, hw]

theorem loadedSnapshots_preemptEvents (D : Driver σ κ) (w w1 : Which) (m : ADC_Module σ κ) :
    loadedSnapshots w (preemptEvents D w1 m) = [] := by
  cases h : wasInUse D m <;> simp [loadedSnapshots, preemptEvents, Event.loaded, h]

theorem savedSnapshots_finishedEvents (D : Driver σ κ) (w w1 : Which) (m : ADC_Module σ κ) :
    savedSnapshots w (finishedEvents D w1 m) = [] := by
  cases h : (D.isComplete m).1 <;> simp [savedSnapshots, finishedEvents, Event.saved, h]

theorem loadedSnapshots_finishedEvents (D : Driver σ κ) (w w1 : Which) (m : ADC_Module σ κ) :
    loadedSnapshots w (finishedEvents D w1 m) = [] := by
  cases h : (D.isComplete m).1 <;> simp [loadedSnapshots, finishedEvents, Event.loaded, h]

theorem savedSnapshots_restoreEvents (D : Driver σ κ) (w w1 : Which) (m : ADC_Module σ κ) :
    savedSnapshots w (restoreEvents D w1 m) = [] := by
  cases h : wasInUse D m <;> simp [savedSnapshots, restoreEvents, Event.saved, h]

theorem loadedSnapshots_restoreEvents (D : Driver σ κ) (w w1 : Which) (m : ADC_Module σ κ) :
    loadedSnapshots w (restoreEvents D w1 m) =
      if w1 = w ∧ wasInUse D m = true then [snapshot D m] else [] := by
  cases h : wasInUse D m <;> by_cases hw : w1 = w <;>
    simp [loadedSnapshots, restoreEvents, Event.loaded, h, hw]

theorem wrap_int32_double (x : Int) (h : -1073741824 ≤ x ∧ x < 1073741824) :
    wrap_int32 (x * 2) = 2 * x := by
  unfold wrap_int32
  omega

theorem restoredOnce_intro (D : Driver σ κ) (w : Which) (entry afterFinish : ADC_Module σ κ)
    (evs : List (Event κ))
    (hs : savedSnapshots w evs = if wasInUse D entry = true then [snapshot D entry] else [])
    (hl : loadedSnapshots w evs = if wasInUse D entry = true then [snapshot D entry] else []) :
    RestoredOnce D w entry afterFinish (restoredModule D entry afterFinish) evs := by
  constructor
  · intro h
    simp only [h, if_true] at hs hl
    refine ⟨hs, hl, by simp [restoredModule, h], ?_⟩
    intro β obs law
    simp only [restoredModule, h, if_true, snapshot]
    exact law _ _ _
  · intro h
    simp [h] at hs hl
    exact ⟨hs, hl, by simp [restoredModule, h]⟩

/-- The snapshots saved and loaded over a whole blocking read, whose steps are:
the checks `a`, the two preemptions, the starts `b`, the polls, the finishing
step and the two restorings. -/
theorem snapshots_of_run (D : Driver σ κ) (m0 m1 f0 f1 : ADC_Module σ κ)
    (a b pollEvs : List (Event κ))
    (ha : ∀ w, savedSnapshots w a = [] ∧ loadedSnapshots w a = [])
    (hb : ∀ w, savedSnapshots w b = [] ∧ loadedSnapshots w b = [])
    (hpoll : ∀ e ∈ pollEvs, Event.isPoll e = true) (evs : List (Event κ))
    (hevs : evs = a ++ preemptEvents D .adc0 m0 ++ preemptEvents D .adc1 m1 ++ b ++ pollEvs
        ++ [.disable_irq] ++ finishedEvents D .adc0 f0 ++ finishedEvents D .adc1 f1
        ++ [.enable_irq] ++ restoreEvents D .adc0 m0 ++ restoreEvents D .adc1 m1) :
    (savedSnapshots .adc0 evs = if wasInUse D m0 = true then [snapshot D m0] else [])
    ∧ (loadedSnapshots .adc0 evs = if wasInUse D m0 = true then [snapshot D m0] else [])
    ∧ (savedSnapshots .adc1 evs = if wasInUse D m1 = true then [snapshot D m1] else [])
    ∧ (loadedSnapshots .adc1 evs = if wasInUse D m1 = true then [snapshot D m1] else []) := by
  have d1 : ∀ w (l : List (Event κ)),
      savedSnapshots w (.disable_irq :: l) = savedSnapshots w l := fun _ _ => rfl
  have d2 : ∀ w (l : List (Event κ)),
      loadedSnapshots w (.disable_irq :: l) = loadedSnapshots w l := fun _ _ => rfl
  have e1 : ∀ w (l : List (Event κ)),
      savedSnapshots w (.enable_irq :: l) = savedSnapshots w l := fun _ _ => rfl
  have e2 : ∀ w (l : List (Event κ)),
      loadedSnapshots w (.enable_irq :: l) = loadedSnapshots w l := fun _ _ => rfl
  subst hevs
  refine ⟨?_, ?_, ?_, ?_⟩ <;>
    simp [savedSnapshots_append, savedSnapshots_preemptEvents, savedSnapshots_finishedEvents,
      savedSnapshots_restoreEvents, savedSnapshots_poll _ _ hpoll,
      loadedSnapshots_append, loadedSnapshots_preemptEvents,
      loadedSnapshots_finishedEvents, loadedSnapshots_restoreEvents,
      loadedSnapshots_poll _ _ hpoll, ha, hb, d1, d2, e1, e2]

theorem preemptStored_adc0 (D : Driver σ κ) (s : ADC σ κ) :
    preemptStored D .adc0 s =
      { adc0 := preemptedStoredModule D s.adc0
        adc1 := s.adc1
        trace := s.trace ++ preemptStoredEvents D .adc0 s.adc0 } := by
  cases h : (D.isConverting s.adc0).1 <;>
    simp [preemptStored, wasInUse, storedSnapshot, storedEntry, preemptedStoredModule,
      preemptStoredEvents, ADC.invoke, ADC.get, ADC.set, ADC.log, h]

theorem preemptStored_adc1 (D : Driver σ κ) (s : ADC σ κ) :
    preemptStored D .adc1 s =
      { adc0 := s.adc0
        adc1 := preemptedStoredModule D s.adc1
        trace := s.trace ++ preemptStoredEvents D .adc1 s.adc1 } := by
  cases h : (D.isConverting s.adc1).1 <;>
    simp [preemptStored, wasInUse, storedSnapshot, storedEntry, preemptedStoredModule,
      preemptStoredEvents, ADC.invoke, ADC.get, ADC.set, ADC.log, h]

theorem alignContinuous_eq (s : ADC σ κ) :
    alignContinuous s =
      { adc0 := s.adc0
        adc1 := s.adc1
        trace := s.trace ++ alignEvents s.adc0.SC1A s.adc1.SC1A } := by
  simp [alignContinuous, alignEvents, ADC.readSC1A, ADC.writeSC1A, ADC.get, ADC.set, ADC.log]

theorem startSynchronizedSingleRead_valid (D : Driver σ κ) (K : Build) (pin0 pin1 : Nat)
    (s : ADC σ κ)
    (h0 : (D.checkPin pin0 s.adc0).1 = true) (h1 : (D.checkPin pin1 s.adc1).1 = true) :
    startSynchronizedSingleRead D K pin0 pin1 s =
      (true,
        { adc0 := D.startReadFast pin0
            (D.singleMode (preemptedStoredModule D (D.checkPin pin0 s.adc0).2))
          adc1 := D.startReadFast pin1
            (D.singleMode (preemptedStoredModule D (D.checkPin pin1 s.adc1).2))
          trace := s.trace ++ [.checkPin .adc0 pin0, .checkPin .adc1 pin1]
            ++ preemptStoredEvents D .adc0 (D.checkPin pin0 s.adc0).2
            ++ preemptStoredEvents D .adc1 (D.checkPin pin1 s.adc1).2
            ++ [.singleMode .adc0, .singleMode .adc1,
                .startReadFast .adc0 pin0, .startReadFast .adc1 pin1] }) := by
  simp [startSynchronizedSingleRead, preemptStored_adc0, preemptStored_adc1, startingRead_eq,
    ADC.invoke, ADC.get, ADC.set, ADC.log, h0, h1]

theorem startSynchronizedSingleDifferential_valid (D : Driver σ κ) (K : Build)
    (pin0P pin0N pin1P pin1N : Nat) (s : ADC σ κ)
    (h0 : (D.checkDifferentialPins pin0P pin0N s.adc0).1 = true)
    (h1 : (D.checkDifferentialPins pin1P pin1N s.adc1).1 = true) :
    startSynchronizedSingleDifferential D K pin0P pin0N pin1P pin1N s =
      (true,
        { adc0 := D.startDifferentialFast pin0P pin0N (D.singleMode
            (preemptedStoredModule D (D.checkDifferentialPins pin0P pin0N s.adc0).2))
          adc1 := D.startDifferentialFast pin1P pin1N (D.singleMode
            (preemptedStoredModule D (D.checkDifferentialPins pin1P pin1N s.adc1).2))
          trace := s.trace ++ [.checkDifferentialPins .adc0 pin0P pin0N,
              .checkDifferentialPins .adc1 pin1P pin1N]
            ++ preemptStoredEvents D .adc0 (D.checkDifferentialPins pin0P pin0N s.adc0).2
            ++ preemptStoredEvents D .adc1 (D.checkDifferentialPins pin1P pin1N s.adc1).2
            ++ [.singleMode .adc0, .singleMode .adc1,
                .startDifferentialFast .adc0 pin0P pin0N,
                .startDifferentialFast .adc1 pin1P pin1N] }) := by
  simp [startSynchronizedSingleDifferential, preemptStored_adc0, preemptStored_adc1,
    startingDifferential_eq, ADC.invoke, ADC.get, ADC.set, ADC.log, h0, h1]

theorem startSynchronizedContinuous_valid (D : Driver σ κ) (K : Build) (pin0 pin1 : Nat)
    (s : ADC σ κ)
    (h0 : (D.checkPin pin0 s.adc0).1 = true) (h1 : (D.checkPin pin1 s.adc1).1 = true) :
    startSynchronizedContinuous D K pin0 pin1 s =
      (true,
        { adc0 := (D.startContinuous pin0 (D.checkPin pin0 s.adc0).2).2
          adc1 := (D.startContinuous pin1 (D.checkPin pin1 s.adc1).2).2
          trace := s.trace ++ [.checkPin .adc0 pin0, .checkPin .adc1 pin1,
              .startContinuous .adc0 pin0, .startContinuous .adc1 pin1]
            ++ alignEvents (D.startContinuous pin0 (D.checkPin pin0 s.adc0).2).2.SC1A
                (D.startContinuous pin1 (D.checkPin pin1 s.adc1).2).2.SC1A }) := by
  simp [startSynchronizedContinuous, alignContinuous_eq, ADC.invoke, ADC.get, ADC.set,
    ADC.log, h0, h1]

theorem startSynchronizedContinuousDifferential_valid (D : Driver σ κ) (K : Build)
    (pin0P pin0N pin1P pin1N : Nat) (s : ADC σ κ)
    (h0 : (D.checkDifferentialPins pin0P pin0N s.adc0).1 = true)
    (h1 : (D.checkDifferentialPins pin1P pin1N s.adc1).1 = true) :
    startSynchronizedContinuousDifferential D K pin0P pin0N pin1P pin1N s =
      (true,
        { adc0 := (D.startContinuousDifferential pin0P pin0N
            (D.checkDifferentialPins pin0P pin0N s.adc0).2).2
          adc1 := (D.startContinuousDifferential pin1P pin1N
            (D.checkDifferentialPins pin1P pin1N s.adc1).2).2
          trace := s.trace ++ [.checkDifferentialPins .adc0 pin0P pin0N,
              .checkDifferentialPins .adc1 pin1P pin1N,
              .startContinuousDifferential .adc0 pin0P pin0N,
              .startContinuousDifferential .adc1 pin1P pin1N]
            ++ alignEvents
                (D.startContinuousDifferential pin0P pin0N
                  (D.checkDifferentialPins pin0P pin0N s.adc0).2).2.SC1A
                (D.startContinuousDifferential pin1P pin1N
                  (D.checkDifferentialPins pin1P pin1N s.adc1).2).2.SC1A }) := by
  simp [startSynchronizedContinuousDifferential, alignContinuous_eq, ADC.invoke, ADC.get,
    ADC.set, ADC.log, h0, h1]

theorem readSynchronizedSingle_eq (D : Driver σ κ) (s : ADC σ κ) :
    readSynchronizedSingle D s =
      (⟨(D.readSingle s.adc0).1, (D.readSingle s.adc1).1⟩,
        { adc0 := (D.readSingle s.adc0).2
          adc1 := (D.readSingle s.adc1).2
          trace := s.trace ++ [.readSingle .adc0, .readSingle .adc1] }) := by
  simp [readSynchronizedSingle, ADC.invoke, ADC.get, ADC.set, ADC.log]

theorem savedSnapshots_preemptStoredEvents (D : Driver σ κ) (w w1 : Which)
    (m : ADC_Module σ κ) :
    savedSnapshots w (preemptStoredEvents D w1 m) =
      if w1 = w ∧ wasInUse D m = true then [storedSnapshot D m] else [] := by
  cases h : wasInUse D m <;> by_cases hw : w1 = w <;>
    simp [savedSnapshots, preemptStoredEvents, Event.saved, h, hw]

theorem loadedSnapshots_preemptStoredEvents (D : Driver σ κ) (w w1 : Which)
    (m : ADC_Module σ κ) :
    loadedSnapshots w (preemptStoredEvents D w1 m) = [] := by
  cases h : wasInUse D m <;> simp [loadedSnapshots, preemptStoredEvents, Event.loaded, h]

end Phases

/-! ## Blocking synchronized reads: the wrong-pin exits -/

section WrongPin

variable {σ κ : Type}

/-- C5: in `analogSynchronizedRead` and in `analogSynchronizedReadDifferential`,
when the check of module 0 fails, then whatever the pins of module 1 and
whatever the fuel, the call returns `(ADC_ERROR_VALUE, ADC_ERROR_VALUE)`;
`ADC_ERROR_WRONG_PIN` is or-ed into `adc0->fail_flag` (the bit is set
afterwards), `adc1` is untouched, and the only step made is that one check: no
`saveConfig`, `singleMode`, start, `readSingle`, `loadConfig`, interrupt
masking or register access enters the trace. -/
theorem syncRead_wrong_pin0 (D : Driver σ κ) (K : Build) (fuel : Nat) (s : ADC σ κ) :
    (∀ pin0 pin1 : Nat, (D.checkPin pin0 s.adc0).1 = false →
      analogSynchronizedRead D K fuel pin0 pin1 s =
          some (⟨K.ADC_ERROR_VALUE, K.ADC_ERROR_VALUE⟩,
            { adc0 := { (D.checkPin pin0 s.adc0).2 with
                        fail_flag := (D.checkPin pin0 s.adc0).2.fail_flag
                          ||| K.ADC_ERROR_WRONG_PIN }
              adc1 := s.adc1
              trace := s.trace ++ [.checkPin .adc0 pin0] })
      ∧ ((D.checkPin pin0 s.adc0).2.fail_flag ||| K.ADC_ERROR_WRONG_PIN)
          &&& K.ADC_ERROR_WRONG_PIN = K.ADC_ERROR_WRONG_PIN)
    ∧ (∀ pin0P pin0N pin1P pin1N : Nat,
      (D.checkDifferentialPins pin0P pin0N s.adc0).1 = false →
      analogSynchronizedReadDifferential D K fuel pin0P pin0N pin1P pin1N s =
          some (⟨K.ADC_ERROR_VALUE, K.ADC_ERROR_VALUE⟩,
            { adc0 := { (D.checkDifferentialPins pin0P pin0N s.adc0).2 with
                        fail_flag := (D.checkDifferentialPins pin0P pin0N s.adc0).2.fail_flag
                          ||| K.ADC_ERROR_WRONG_PIN }
              adc1 := s.adc1
              trace := s.trace ++ [.checkDifferentialPins .adc0 pin0P pin0N] })
      ∧ ((D.checkDifferentialPins pin0P pin0N s.adc0).2.fail_flag ||| K.ADC_ERROR_WRONG_PIN)
          &&& K.ADC_ERROR_WRONG_PIN = K.ADC_ERROR_WRONG_PIN) := by
  refine ⟨?_, ?_⟩
  · intro pin0 pin1 h
    refine ⟨?_, lor_and_self_right _ _⟩
    simp [analogSynchronizedRead, ADC.invoke, ADC.get, ADC.set, ADC.log, ADC.orFail, h]
  · intro pin0P pin0N pin1P pin1N h
    refine ⟨?_, lor_and_self_right _ _⟩
    simp [analogSynchronizedReadDifferential, ADC.invoke, ADC.get, ADC.set, ADC.log,
      ADC.orFail, h]

/-- C6: in `analogSynchronizedRead` and in `analogSynchronizedReadDifferential`,
when the check of module 0 passes and the check of module 1 fails, the call
returns `(ADC_ERROR_VALUE, ADC_ERROR_VALUE)` whatever the fuel;
`ADC_ERROR_WRONG_PIN` is or-ed into `adc1->fail_flag` only, `adc0` is as its
own check left it, and the trace gains the two checks and nothing else: no
preemption, start, poll, finishing or restoring step is made. -/
theorem syncRead_wrong_pin1 (D : Driver σ κ) (K : Build) (fuel : Nat) (s : ADC σ κ) :
    (∀ pin0 pin1 : Nat, (D.checkPin pin0 s.adc0).1 = true →
      (D.checkPin pin1 s.adc1).1 = false →
      analogSynchronizedRead D K fuel pin0 pin1 s =
          some (⟨K.ADC_ERROR_VALUE, K.ADC_ERROR_VALUE⟩,
            { adc0 := (D.checkPin pin0 s.adc0).2
              adc1 := { (D.checkPin pin1 s.adc1).2 with
                        fail_flag := (D.checkPin pin1 s.adc1).2.fail_flag
                          ||| K.ADC_ERROR_WRONG_PIN }
              trace := s.trace ++ [.checkPin .adc0 pin0, .checkPin .adc1 pin1] })
      ∧ ((D.checkPin pin1 s.adc1).2.fail_flag ||| K.ADC_ERROR_WRONG_PIN)
          &&& K.ADC_ERROR_WRONG_PIN = K.ADC_ERROR_WRONG_PIN)
    ∧ (∀ pin0P pin0N pin1P pin1N : Nat,
      (D.checkDifferentialPins pin0P pin0N s.adc0).1 = true →
      (D.checkDifferentialPins pin1P pin1N s.adc1).1 = false →
      analogSynchronizedReadDifferential D K fuel pin0P pin0N pin1P pin1N s =
          some (⟨K.ADC_ERROR_VALUE, K.ADC_ERROR_VALUE⟩,
            { adc0 := (D.checkDifferentialPins pin0P pin0N s.adc0).2
              adc1 := { (D.checkDifferentialPins pin1P pin1N s.adc1).2 with
                        fail_flag := (D.checkDifferentialPins pin1P pin1N s.adc1).2.fail_flag
                          ||| K.ADC_ERROR_WRONG_PIN }
              trace := s.trace ++ [.checkDifferentialPins .adc0 pin0P pin0N,
                .checkDifferentialPins .adc1 pin1P pin1N] })
      ∧ ((D.checkDifferentialPins pin1P pin1N s.adc1).2.fail_flag ||| K.ADC_ERROR_WRONG_PIN)
          &&& K.ADC_ERROR_WRONG_PIN = K.ADC_ERROR_WRONG_PIN) := by
  refine ⟨?_, ?_⟩
  · intro pin0 pin1 h0 h1
    refine ⟨?_, lor_and_self_right _ _⟩
    simp [analogSynchronizedRead, ADC.invoke, ADC.get, ADC.set, ADC.log, ADC.orFail, h0, h1]
  · intro pin0P pin0N pin1P pin1N h0 h1
    refine ⟨?_, lor_and_self_right _ _⟩
    simp [analogSynchronizedReadDifferential, ADC.invoke, ADC.get, ADC.set, ADC.log,
      ADC.orFail, h0, h1]

/-- C5 at a concrete input: `adc0` reads neither pin 26 nor the pair (26, 27),
`adc1` reads both; with no fuel at all the reads return the error pair after
the single check on `adc0`. -/
theorem syncRead_wrong_pin0_witness :
    (demoDriver.checkPin 26 (demoADC 0 true true 10 10).adc0).1 = false
    ∧ (demoDriver.checkPin 26 (demoADC 0 true true 10 10).adc1).1 = true
    ∧ analogSynchronizedRead demoDriver demoBuild 0 26 26 (demoADC 0 true true 10 10)
      = some (⟨-70000, -70000⟩,
          { adc0 := { demoModule [14] 0 0 true 100 10 with fail_flag := 4 }
            adc1 := demoModule [26] 5 0 true 300 10
            trace := [.checkPin .adc0 26] })
    ∧ (demoDriver.checkDifferentialPins 26 27 (demoADC 0 true true 10 10).adc0).1 = false
    ∧ analogSynchronizedReadDifferential demoDriver demoBuild 0 26 27 26 27
        (demoADC 0 true true 10 10)
      = some (⟨-70000, -70000⟩,
          { adc0 := { demoModule [14] 0 0 true 100 10 with fail_flag := 4 }
            adc1 := demoModule [26] 5 0 true 300 10
            trace := [.checkDifferentialPins .adc0 26 27] }) :=
  ⟨by decide, by decide,
    ((syncRead_wrong_pin0 demoDriver demoBuild 0 (demoADC 0 true true 10 10)).1 26 26
      (by decide)).1.trans (by decide),
    by decide,
    ((syncRead_wrong_pin0 demoDriver demoBuild 0 (demoADC 0 true true 10 10)).2 26 27 26 27
      (by decide)).1.trans (by decide)⟩

/-- C6 at a concrete input: `adc0` reads pin 14 and the pair (14, 15), `adc1`
reads neither pin 14 nor the pair (14, 15). -/
theorem syncRead_wrong_pin1_witness :
    (demoDriver.checkPin 14 (demoADC 0 true true 10 10).adc0).1 = true
    ∧ (demoDriver.checkPin 14 (demoADC 0 true true 10 10).adc1).1 = false
    ∧ analogSynchronizedRead demoDriver demoBuild 0 14 14 (demoADC 0 true true 10 10)
      = some (⟨-70000, -70000⟩,
          { adc0 := demoModule [14] 0 0 true 100 10
            adc1 := { demoModule [26] 5 0 true 300 10 with fail_flag := 4 }
            trace := [.checkPin .adc0 14, .checkPin .adc1 14] })
    ∧ (demoDriver.checkDifferentialPins 14 15 (demoADC 0 true true 10 10).adc0).1 = true
    ∧ (demoDriver.checkDifferentialPins 14 15 (demoADC 0 true true 10 10).adc1).1 = false
    ∧ analogSynchronizedReadDifferential demoDriver demoBuild 0 14 15 14 15
        (demoADC 0 true true 10 10)
      = some (⟨-70000, -70000⟩,
          { adc0 := demoModule [14] 0 0 true 100 10
            adc1 := { demoModule [26] 5 0 true 300 10 with fail_flag := 4 }
            trace := [.checkDifferentialPins .adc0 14 15,
              .checkDifferentialPins .adc1 14 15] }) :=
  ⟨by decide, by decide,
    ((syncRead_wrong_pin1 demoDriver demoBuild 0 (demoADC 0 true true 10 10)).1 14 14
      (by decide) (by decide)).1.trans (by decide),
    by decide, by decide,
    ((syncRead_wrong_pin1 demoDriver demoBuild 0 (demoADC 0 true true 10 10)).2 14 15 14 15
      (by decide) (by decide)).1.trans (by decide)⟩

end WrongPin

/-! ## Blocking synchronized reads: finishing and restoring -/

section Finishing

variable {σ κ : Type}

/-- C7: in `analogSynchronizedRead` with both pins valid, once the wait loop
has ended in state `sp`, the call returns the pair of `finishedField` of
`adc0` and of `adc1`, and leaves each module as the restore of
`finishedModule` of itself: each field and each module at return is decided by
that module alone.  For a module on which `isComplete` holds the field is the
value of `readSingle` and the class writes no flag; for a module on which it
does not the field is `ADC_ERROR_VALUE` and `ADC_ERROR_COMPARISON` is or-ed
into that module's `fail_flag`, where, with a driver that clears no flag, it
is still set when the call returns.  Neither function looks at the other
module. -/
theorem syncRead_fields_independent (D : Driver σ κ) (K : Build) (fuel pin0 pin1 : Nat)
    (s sp : ADC σ κ)
    (h0 : (D.checkPin pin0 s.adc0).1 = true) (h1 : (D.checkPin pin1 s.adc1).1 = true)
    (hw : waitBoth D fuel (loopEntryRead D pin0 pin1 s) = some sp) :
    analogSynchronizedRead D K fuel pin0 pin1 s =
        some (⟨finishedField D K sp.adc0, finishedField D K sp.adc1⟩,
          { adc0 := restoredModule D (D.checkPin pin0 s.adc0).2 (finishedModule D K sp.adc0)
            adc1 := restoredModule D (D.checkPin pin1 s.adc1).2 (finishedModule D K sp.adc1)
            trace := sp.trace ++ [.disable_irq] ++ finishedEvents D .adc0 sp.adc0
              ++ finishedEvents D .adc1 sp.adc1 ++ [.enable_irq]
              ++ restoreEvents D .adc0 (D.checkPin pin0 s.adc0).2
              ++ restoreEvents D .adc1 (D.checkPin pin1 s.adc1).2 })
    ∧ finishing D K ⟨K.ADC_ERROR_VALUE, K.ADC_ERROR_VALUE⟩ sp =
        (⟨finishedField D K sp.adc0, finishedField D K sp.adc1⟩,
          { adc0 := finishedModule D K sp.adc0
            adc1 := finishedModule D K sp.adc1
            trace := sp.trace ++ [.disable_irq] ++ finishedEvents D .adc0 sp.adc0
              ++ finishedEvents D .adc1 sp.adc1 ++ [.enable_irq] })
    ∧ (∀ m : ADC_Module σ κ, (D.isComplete m).1 = true →
        finishedField D K m = (D.readSingle (D.isComplete m).2).1
        ∧ finishedModule D K m = (D.readSingle (D.isComplete m).2).2)
    ∧ (∀ m : ADC_Module σ κ, (D.isComplete m).1 = false →
        finishedField D K m = K.ADC_ERROR_VALUE
        ∧ finishedModule D K m = { (D.isComplete m).2 with
            fail_flag := (D.isComplete m).2.fail_flag ||| K.ADC_ERROR_COMPARISON }
        ∧ (finishedModule D K m).fail_flag &&& K.ADC_ERROR_COMPARISON
            = K.ADC_ERROR_COMPARISON)
    ∧ (D.KeepsFlags → ∀ r, analogSynchronizedRead D K fuel pin0 pin1 s = some r →
        ((D.isComplete sp.adc0).1 = false →
          r.1.result_adc0 = K.ADC_ERROR_VALUE
          ∧ r.2.adc0.fail_flag &&& K.ADC_ERROR_COMPARISON = K.ADC_ERROR_COMPARISON)
        ∧ ((D.isComplete sp.adc1).1 = false →
          r.1.result_adc1 = K.ADC_ERROR_VALUE
          ∧ r.2.adc1.fail_flag &&& K.ADC_ERROR_COMPARISON = K.ADC_ERROR_COMPARISON)
        ∧ ((D.isComplete sp.adc0).1 = true →
          r.1.result_adc0 = (D.readSingle (D.isComplete sp.adc0).2).1
          ∧ r.2.adc0 = restoredModule D (D.checkPin pin0 s.adc0).2
              (D.readSingle (D.isComplete sp.adc0).2).2)
        ∧ ((D.isComplete sp.adc1).1 = true →
          r.1.result_adc1 = (D.readSingle (D.isComplete sp.adc1).2).1
          ∧ r.2.adc1 = restoredModule D (D.checkPin pin1 s.adc1).2
              (D.readSingle (D.isComplete sp.adc1).2).2)) := by
  have hv := analogSynchronizedRead_valid D K fuel pin0 pin1 s sp h0 h1 hw
  have hfalse : ∀ m : ADC_Module σ κ, (D.isComplete m).1 = false →
      finishedField D K m = K.ADC_ERROR_VALUE
      ∧ finishedModule D K m = { (D.isComplete m).2 with
          fail_flag := (D.isComplete m).2.fail_flag ||| K.ADC_ERROR_COMPARISON }
      ∧ (finishedModule D K m).fail_flag &&& K.ADC_ERROR_COMPARISON
          = K.ADC_ERROR_COMPARISON := by
    intro m hm
    simp [finishedField, finishedModule, hm, lor_and_self_right]
  have htrue : ∀ m : ADC_Module σ κ, (D.isComplete m).1 = true →
      finishedField D K m = (D.readSingle (D.isComplete m).2).1
      ∧ finishedModule D K m = (D.readSingle (D.isComplete m).2).2 := by
    intro m hm
    simp [finishedField, finishedModule, hm]
  refine ⟨hv, finishing_eq D K sp, htrue, hfalse, ?_⟩
  intro hD r hr
  rw [hv] at hr
  simp only [Option.some.injEq] at hr
  subst hr
  refine ⟨fun hc => ⟨(hfalse _ hc).1, ?_⟩, fun hc => ⟨(hfalse _ hc).1, ?_⟩,
    fun hc => ⟨(htrue _ hc).1, ?_⟩, fun hc => ⟨(htrue _ hc).1, ?_⟩⟩
  · exact keepsBits_land (keepsBits_restoredModule D hD _ _) _ (hfalse _ hc).2.2
  · exact keepsBits_land (keepsBits_restoredModule D hD _ _) _ (hfalse _ hc).2.2
  · show restoredModule D _ (finishedModule D K sp.adc0) = _
    rw [(htrue _ hc).2]
  · show restoredModule D _ (finishedModule D K sp.adc1) = _
    rw [(htrue _ hc).2]

/-- C7 at a concrete input: the comparison fails on `adc0` and succeeds on
`adc1`; the result is the error value for `adc0` and the reading 300 of
`adc1`, and at return `ADC_ERROR_COMPARISON` (16) is set in the `fail_flag` of
`adc0` and not in that of `adc1`. -/
theorem syncRead_fields_independent_witness :
    (demoDriver.checkPin 14 (demoADC 0 false true 10 10).adc0).1 = true
    ∧ (demoDriver.checkPin 26 (demoADC 0 false true 10 10).adc1).1 = true
    ∧ waitBoth demoDriver 3 (loopEntryRead demoDriver 14 26 (demoADC 0 false true 10 10))
        = some (demoWaited false true 10 10 15 27
            ([.checkPin .adc0 14, .checkPin .adc1 26, .isConverting .adc0,
              .isConverting .adc1, .singleMode .adc0, .singleMode .adc1,
              .startReadFast .adc0 14, .startReadFast .adc1 26] ++ demoPolls))
    ∧ (analogSynchronizedRead demoDriver demoBuild 3 14 26
        (demoADC 0 false true 10 10)).map
          (fun r => (r.1, r.2.adc0.fail_flag, r.2.adc1.fail_flag))
        = some (⟨-70000, 300⟩, 16, 0) := by
  have h := (syncRead_fields_independent demoDriver demoBuild 3 14 26
      (demoADC 0 false true 10 10)
      (demoWaited false true 10 10 15 27
        ([.checkPin .adc0 14, .checkPin .adc1 26, .isConverting .adc0,
          .isConverting .adc1, .singleMode .adc0, .singleMode .adc1,
          .startReadFast .adc0 14, .startReadFast .adc1 26] ++ demoPolls))
      (by decide) (by decide) (by decide)).1
  refine ⟨by decide, by decide, by decide, ?_⟩
  rw [h]
  decide

/-- C8, the code at a failing input: the comparison succeeds on `adc0`
(sample 100) and fails on `adc1`.  Both blocking reads return the reading of
`adc0` in `result_adc0`, not `ADC_ERROR_VALUE`; only `result_adc1` is
`ADC_ERROR_VALUE`, and only `adc1` gets `ADC_ERROR_COMPARISON` (16). -/
theorem syncRead_comparison_failure_one_field :
    (analogSynchronizedRead demoDriver demoBuild 3 14 26 (demoADC 0 true false 10 10)).map
        (fun r => (r.1, r.2.adc0.fail_flag, r.2.adc1.fail_flag))
      = some (⟨100, -70000⟩, 0, 16)
    ∧ (analogSynchronizedReadDifferential demoDriver demoBuild 3 14 15 26 27
        (demoADC 0 true false 10 10)).map
        (fun r => (r.1, r.2.adc0.fail_flag, r.2.adc1.fail_flag))
      = some (⟨100, -70000⟩, 0, 16) := by
  constructor <;> decide

/-- C9: in `analogSynchronizedReadDifferential` with both pairs valid, once the
wait loop has ended in state `sp`, the call returns a result in which, for each
module on which `isComplete` holds: if the resolution read from that module at
entry is 16, the field is twice the value of `readSingle` (for a value whose
double fits in `int32_t`, as every 16-bit reading does), and at any other
resolution the field is that value unchanged.  The two modules are treated
separately, each with its own resolution. -/
theorem syncReadDifferential_scaling (D : Driver σ κ) (K : Build)
    (fuel pin0P pin0N pin1P pin1N : Nat) (s sp : ADC σ κ)
    (h0 : (D.checkDifferentialPins pin0P pin0N s.adc0).1 = true)
    (h1 : (D.checkDifferentialPins pin1P pin1N s.adc1).1 = true)
    (hw : waitBoth D fuel (loopEntryDifferential D pin0P pin0N pin1P pin1N s) = some sp) :
    ∃ res final,
      analogSynchronizedReadDifferential D K fuel pin0P pin0N pin1P pin1N s = some (res, final)
      ∧ ((D.isComplete sp.adc0).1 = true →
          ((D.getResolution (D.checkDifferentialPins pin0P pin0N s.adc0).2).1 = 16 →
            -1073741824 ≤ (D.readSingle (D.isComplete sp.adc0).2).1
              ∧ (D.readSingle (D.isComplete sp.adc0).2).1 < 1073741824 →
            res.result_adc0 = 2 * (D.readSingle (D.isComplete sp.adc0).2).1)
          ∧ ((D.getResolution (D.checkDifferentialPins pin0P pin0N s.adc0).2).1 ≠ 16 →
            res.result_adc0 = (D.readSingle (D.isComplete sp.adc0).2).1))
      ∧ ((D.isComplete sp.adc1).1 = true →
          ((D.getResolution (D.checkDifferentialPins pin1P pin1N s.adc1).2).1 = 16 →
            -1073741824 ≤ (D.readSingle (D.isComplete sp.adc1).2).1
              ∧ (D.readSingle (D.isComplete sp.adc1).2).1 < 1073741824 →
            res.result_adc1 = 2 * (D.readSingle (D.isComplete sp.adc1).2).1)
          ∧ ((D.getResolution (D.checkDifferentialPins pin1P pin1N s.adc1).2).1 ≠ 16 →
            res.result_adc1 = (D.readSingle (D.isComplete sp.adc1).2).1)) := by
  refine ⟨_, _, analogSynchronizedReadDifferential_valid D K fuel pin0P pin0N pin1P pin1N
    s sp h0 h1 hw, ?_, ?_⟩
  · intro hc
    refine ⟨fun hr hb => ?_, fun hr => ?_⟩
    · simp [finishedFieldDifferential, hc, hr, wrap_int32_double _ hb]
    · simp [finishedFieldDifferential, hc, hr]
  · intro hc
    refine ⟨fun hr hb => ?_, fun hr => ?_⟩
    · simp [finishedFieldDifferential, hc, hr, wrap_int32_double _ hb]
    · simp [finishedFieldDifferential, hc, hr]

/-- C9 at a concrete input: `adc0` is at 16 bits and reads 100, `adc1` is at
13 bits and reads 300; the result is (200, 300). -/
theorem syncReadDifferential_scaling_witness :
    (demoDriver.checkDifferentialPins 14 15 (demoADC 0 true true 16 13).adc0).1 = true
    ∧ (demoDriver.checkDifferentialPins 26 27 (demoADC 0 true true 16 13).adc1).1 = true
    ∧ waitBoth demoDriver 3
        (loopEntryDifferential demoDriver 14 15 26 27 (demoADC 0 true true 16 13))
        = some (demoWaited true true 16 13 1415 2627
            ([.checkDifferentialPins .adc0 14 15, .checkDifferentialPins .adc1 26 27,
              .getResolution .adc0, .getResolution .adc1, .isConverting .adc0,
              .isConverting .adc1, .singleMode .adc0, .singleMode .adc1,
              .startDifferentialFast .adc0 14 15, .startDifferentialFast .adc1 26 27]
              ++ demoPolls))
    ∧ ∃ res final, analogSynchronizedReadDifferential demoDriver demoBuild 3 14 15 26 27
          (demoADC 0 true true 16 13) = some (res, final)
        ∧ res.result_adc0 = 200 ∧ res.result_adc1 = 300 := by
  refine ⟨by decide, by decide, by decide, ?_⟩
  obtain ⟨res, final, he, d0, d1⟩ :=
    syncReadDifferential_scaling demoDriver demoBuild 3 14 15 26 27 (demoADC 0 true true 16 13)
      (demoWaited true true 16 13 1415 2627
        ([.checkDifferentialPins .adc0 14 15, .checkDifferentialPins .adc1 26 27,
          .getResolution .adc0, .getResolution .adc1, .isConverting .adc0,
          .isConverting .adc1, .singleMode .adc0, .singleMode .adc1,
          .startDifferentialFast .adc0 14 15, .startDifferentialFast .adc1 26 27]
          ++ demoPolls))
      (by decide) (by decide) (by decide)
  exact ⟨res, final, he, (d0 (by decide)).1 (by decide) (by decide),
    (d1 (by decide)).2 (by decide)⟩

/-- C10: in both blocking reads with valid pins, once the wait loop has ended in
state `sp`, the call returns, its last steps (after the finishing step) are
the restoring of `adc0` and then of `adc1`, and for each module `RestoredOnce`
holds: a module that was converting at the preemption check has `saveConfig`
run on it exactly once and `loadConfig` exactly once, with the snapshot that
`saveConfig` took, so that under any reading of the module that `loadConfig`
of a saved snapshot reinstates the module reads at return as it did when the
snapshot was taken; on a module that was not converting neither `saveConfig`
nor `loadConfig` runs. -/
theorem syncRead_restores (D : Driver σ κ) (K : Build) (fuel : Nat) (s : ADC σ κ) :
    (∀ (pin0 pin1 : Nat) (sp : ADC σ κ),
      (D.checkPin pin0 s.adc0).1 = true → (D.checkPin pin1 s.adc1).1 = true →
      waitBoth D fuel (loopEntryRead D pin0 pin1 s) = some sp →
      ∃ r evs, analogSynchronizedRead D K fuel pin0 pin1 s = some r
        ∧ r.2.trace = s.trace ++ evs
        ∧ r.2.trace = (finishing D K ⟨K.ADC_ERROR_VALUE, K.ADC_ERROR_VALUE⟩ sp).2.trace
            ++ restoreEvents D .adc0 (D.checkPin pin0 s.adc0).2
            ++ restoreEvents D .adc1 (D.checkPin pin1 s.adc1).2
        ∧ RestoredOnce D .adc0 (D.checkPin pin0 s.adc0).2 (finishedModule D K sp.adc0)
            r.2.adc0 evs
        ∧ RestoredOnce D .adc1 (D.checkPin pin1 s.adc1).2 (finishedModule D K sp.adc1)
            r.2.adc1 evs)
    ∧ (∀ (pin0P pin0N pin1P pin1N : Nat) (sp : ADC σ κ),
      (D.checkDifferentialPins pin0P pin0N s.adc0).1 = true →
      (D.checkDifferentialPins pin1P pin1N s.adc1).1 = true →
      waitBoth D fuel (loopEntryDifferential D pin0P pin0N pin1P pin1N s) = some sp →
      ∃ r evs, analogSynchronizedReadDifferential D K fuel pin0P pin0N pin1P pin1N s = some r
        ∧ r.2.trace = s.trace ++ evs
        ∧ r.2.trace = (finishingDifferential D K
              (D.getResolution (D.checkDifferentialPins pin0P pin0N s.adc0).2).1
              (D.getResolution (D.checkDifferentialPins pin1P pin1N s.adc1).2).1
              ⟨K.ADC_ERROR_VALUE, K.ADC_ERROR_VALUE⟩ sp).2.trace
            ++ restoreEvents D .adc0
                (D.getResolution (D.checkDifferentialPins pin0P pin0N s.adc0).2).2
            ++ restoreEvents D .adc1
                (D.getResolution (D.checkDifferentialPins pin1P pin1N s.adc1).2).2
        ∧ RestoredOnce D .adc0
            (D.getResolution (D.checkDifferentialPins pin0P pin0N s.adc0).2).2
            (finishedModule D K sp.adc0) r.2.adc0 evs
        ∧ RestoredOnce D .adc1
            (D.getResolution (D.checkDifferentialPins pin1P pin1N s.adc1).2).2
            (finishedModule D K sp.adc1) r.2.adc1 evs) := by
  constructor
  · intro pin0 pin1 sp h0 h1 hw
    obtain ⟨pollEvs, hpe, hpoll⟩ := waitBoth_trace D fuel _ _ hw
    rw [loopEntryRead_eq] at hpe
    simp only at hpe
    obtain ⟨hs0, hl0, hs1, hl1⟩ := snapshots_of_run D (D.checkPin pin0 s.adc0).2
      (D.checkPin pin1 s.adc1).2 sp.adc0 sp.adc1
      [.checkPin .adc0 pin0, .checkPin .adc1 pin1]
      [.singleMode .adc0, .singleMode .adc1, .startReadFast .adc0 pin0,
        .startReadFast .adc1 pin1]
      pollEvs (fun _ => ⟨rfl, rfl⟩) (fun _ => ⟨rfl, rfl⟩) hpoll _ rfl
    exact ⟨_, _, analogSynchronizedRead_valid D K fuel pin0 pin1 s sp h0 h1 hw,
      by simp [hpe, List.append_assoc], by simp [finishing_eq, List.append_assoc],
      restoredOnce_intro D _ _ _ _ hs0 hl0, restoredOnce_intro D _ _ _ _ hs1 hl1⟩
  · intro pin0P pin0N pin1P pin1N sp h0 h1 hw
    obtain ⟨pollEvs, hpe, hpoll⟩ := waitBoth_trace D fuel _ _ hw
    rw [loopEntryDifferential_eq] at hpe
    simp only at hpe
    obtain ⟨hs0, hl0, hs1, hl1⟩ := snapshots_of_run D
      (D.getResolution (D.checkDifferentialPins pin0P pin0N s.adc0).2).2
      (D.getResolution (D.checkDifferentialPins pin1P pin1N s.adc1).2).2 sp.adc0 sp.adc1
      [.checkDifferentialPins .adc0 pin0P pin0N, .checkDifferentialPins .adc1 pin1P pin1N,
        .getResolution .adc0, .getResolution .adc1]
      [.singleMode .adc0, .singleMode .adc1, .startDifferentialFast .adc0 pin0P pin0N,
        .startDifferentialFast .adc1 pin1P pin1N]
      pollEvs (fun _ => ⟨rfl, rfl⟩) (fun _ => ⟨rfl, rfl⟩) hpoll _ rfl
    exact ⟨_, _, analogSynchronizedReadDifferential_valid D K fuel pin0P pin0N pin1P pin1N
        s sp h0 h1 hw,
      by simp [hpe, List.append_assoc],
      by simp [finishingDifferential_eq, List.append_assoc],
      restoredOnce_intro D _ _ _ _ hs0 hl0, restoredOnce_intro D _ _ _ _ hs1 hl1⟩

/-- C10 at a concrete input: `adc0` is converting in mode 7 when the read of
pins 14 and 26 is issued, `adc1` is idle.  The snapshot (7, 2) is saved once
and loaded once on `adc0`, nothing is saved or loaded on `adc1`, and at return
`adc0` is in mode 7 with its conversion running as when it was preempted.  The
same holds for the differential read of the pairs (14, 15) and (26, 27). -/
theorem syncRead_restores_witness :
    (demoDriver.checkPin 14 (demoADC 3 true true 10 10).adc0).1 = true
    ∧ (demoDriver.checkPin 26 (demoADC 3 true true 10 10).adc1).1 = true
    ∧ waitBoth demoDriver 3 (loopEntryRead demoDriver 14 26 (demoADC 3 true true 10 10))
        = some (demoWaited true true 10 10 15 27
            ([.checkPin .adc0 14, .checkPin .adc1 26, .isConverting .adc0, .disable_irq,
              .saveConfig .adc0 (7, 2), .enable_irq, .isConverting .adc1,
              .singleMode .adc0, .singleMode .adc1,
              .startReadFast .adc0 14, .startReadFast .adc1 26] ++ demoPolls))
    ∧ (∃ r, analogSynchronizedRead demoDriver demoBuild 3 14 26 (demoADC 3 true true 10 10)
          = some r
        ∧ savedSnapshots .adc0 r.2.trace = [(7, 2)]
        ∧ loadedSnapshots .adc0 r.2.trace = [(7, 2)]
        ∧ savedSnapshots .adc1 r.2.trace = []
        ∧ loadedSnapshots .adc1 r.2.trace = []
        ∧ (r.2.adc0.hw.mode, (demoDriver.isConverting r.2.adc0).1) = (7, true))
    ∧ (demoDriver.checkDifferentialPins 14 15 (demoADC 3 true true 10 10).adc0).1 = true
    ∧ (demoDriver.checkDifferentialPins 26 27 (demoADC 3 true true 10 10).adc1).1 = true
    ∧ waitBoth demoDriver 3
        (loopEntryDifferential demoDriver 14 15 26 27 (demoADC 3 true true 10 10))
        = some (demoWaited true true 10 10 1415 2627
            ([.checkDifferentialPins .adc0 14 15, .checkDifferentialPins .adc1 26 27,
              .getResolution .adc0, .getResolution .adc1, .isConverting .adc0, .disable_irq,
              .saveConfig .adc0 (7, 2), .enable_irq, .isConverting .adc1,
              .singleMode .adc0, .singleMode .adc1,
              .startDifferentialFast .adc0 14 15, .startDifferentialFast .adc1 26 27]
              ++ demoPolls))
    ∧ (∃ r, analogSynchronizedReadDifferential demoDriver demoBuild 3 14 15 26 27
          (demoADC 3 true true 10 10) = some r
        ∧ savedSnapshots .adc0 r.2.trace = [(7, 2)]
        ∧ loadedSnapshots .adc0 r.2.trace = [(7, 2)]
        ∧ savedSnapshots .adc1 r.2.trace = []
        ∧ loadedSnapshots .adc1 r.2.trace = []
        ∧ (r.2.adc0.hw.mode, (demoDriver.isConverting r.2.adc0).1) = (7, true)) := by
  refine ⟨by decide, by decide, by decide, ?_, by decide, by decide, by decide, ?_⟩
  · obtain ⟨r, evs, he, ht, _, R0, R1⟩ :=
      (syncRead_restores demoDriver demoBuild 3 (demoADC 3 true true 10 10)).1 14 26
        (demoWaited true true 10 10 15 27
          ([.checkPin .adc0 14, .checkPin .adc1 26, .isConverting .adc0, .disable_irq,
            .saveConfig .adc0 (7, 2), .enable_irq, .isConverting .adc1,
            .singleMode .adc0, .singleMode .adc1,
            .startReadFast .adc0 14, .startReadFast .adc1 26] ++ demoPolls))
        (by decide) (by decide) (by decide)
    have ht1 : r.2.trace = evs := by rw [ht]; rfl
    obtain ⟨s0, l0, _, o0⟩ := R0.1 (by decide)
    obtain ⟨s1, l1, _⟩ := R1.2 (by decide)
    refine ⟨r, he, ?_, ?_, ?_, ?_, ?_⟩
    · rw [ht1, s0]; rfl
    · rw [ht1, l0]; rfl
    · rw [ht1, s1]
    · rw [ht1, l1]
    · exact o0 _ (fun m => (m.hw.mode, (demoDriver.isConverting m).1)) (fun _ _ _ => rfl)
  · obtain ⟨r, evs, he, ht, _, R0, R1⟩ :=
      (syncRead_restores demoDriver demoBuild 3 (demoADC 3 true true 10 10)).2 14 15 26 27
        (demoWaited true true 10 10 1415 2627
          ([.checkDifferentialPins .adc0 14 15, .checkDifferentialPins .adc1 26 27,
            .getResolution .adc0, .getResolution .adc1, .isConverting .adc0, .disable_irq,
            .saveConfig .adc0 (7, 2), .enable_irq, .isConverting .adc1,
            .singleMode .adc0, .singleMode .adc1,
            .startDifferentialFast .adc0 14 15, .startDifferentialFast .adc1 26 27]
            ++ demoPolls))
        (by decide) (by decide) (by decide)
    have ht1 : r.2.trace = evs := by rw [ht]; rfl
    obtain ⟨s0, l0, _, o0⟩ := R0.1 (by decide)
    obtain ⟨s1, l1, _⟩ := R1.2 (by decide)
    refine ⟨r, he, ?_, ?_, ?_, ?_, ?_⟩
    · rw [ht1, s0]; rfl
    · rw [ht1, l0]; rfl
    · rw [ht1, s1]
    · rw [ht1, l1]
    · exact o0 _ (fun m => (m.hw.mode, (demoDriver.isConverting m).1)) (fun _ _ _ => rfl)

end Finishing

/-! ## Dispatch policy -/

section Dispatch

variable {σ κ α ρ : Type}

/-- C1: in a two-module build, a request with `adc_num == ANY` for which
`check_fun` holds on both modules runs `check_fun` on `adc0` and on `adc1` and
then `conversion_fun` exactly once: on `adc1` when (at the comparison)
`adc0->num_measurements > adc1->num_measurements`, on `adc0` otherwise, ties
included.  The value returned is the value of that call, and the other module
is left as its check left it. -/
theorem workload_dispatch_both_eligible (K : Build) (ofInt : Int → ρ)
    (check_fun : α → ADC_Module σ κ → Bool × ADC_Module σ κ)
    (conversion_fun : α → ADC_Module σ κ → ρ × ADC_Module σ κ)
    (args : α) (s : ADC σ κ)
    (hK : K.ADC_NUM_ADCS = 2)
    (h0 : (check_fun args s.adc0).1 = true)
    (h1 : (check_fun args s.adc1).1 = true) :
    workload_dispatch_policy K ofInt check_fun conversion_fun .ANY args s =
      if (check_fun args s.adc0).2.num_measurements
          > (check_fun args s.adc1).2.num_measurements then
        ((conversion_fun args (check_fun args s.adc1).2).1,
          { adc0 := (check_fun args s.adc0).2
            adc1 := (conversion_fun args (check_fun args s.adc1).2).2
            trace := s.trace ++
              [.check_fun .adc0, .check_fun .adc1, .conversion_fun .adc1] })
      else
        ((conversion_fun args (check_fun args s.adc0).2).1,
          { adc0 := (conversion_fun args (check_fun args s.adc0).2).2
            adc1 := (check_fun args s.adc1).2
            trace := s.trace ++
              [.check_fun .adc0, .check_fun .adc1, .conversion_fun .adc0] }) := by
  have hne : ¬ K.ADC_NUM_ADCS = 1 := by omega
  simp [workload_dispatch_policy, hne, ADC.invoke, ADC.get, ADC.set, ADC.log, h0, h1]

/-- C1 at a concrete input: both modules read pin 14, `adc0` has three
measurements under way and `adc1` one, so the conversion runs on `adc1`. -/
theorem workload_dispatch_both_eligible_witness :
    demoBuild.ADC_NUM_ADCS = 2
    ∧ (demoDriver.checkPin 14 (demoModule [14] 3 0 true 100 10)).1 = true
    ∧ (demoDriver.checkPin 14 (demoModule [14] 1 0 true 200 10)).1 = true
    ∧ workload_dispatch_policy demoBuild id demoDriver.checkPin demoDriver.analogRead .ANY 14
        ⟨demoModule [14] 3 0 true 100 10, demoModule [14] 1 0 true 200 10, []⟩
      = (214, ⟨demoModule [14] 3 0 true 100 10, demoModule [14] 1 0 true 200 10,
          [.check_fun .adc0, .check_fun .adc1, .conversion_fun .adc1]⟩) :=
  ⟨rfl, by decide, by decide,
    (workload_dispatch_both_eligible demoBuild id demoDriver.checkPin demoDriver.analogRead 14
      ⟨demoModule [14] 3 0 true 100 10, demoModule [14] 1 0 true 200 10, []⟩
      rfl (by decide) (by decide)).trans (by decide)⟩

/-- C2: in a two-module build, a request with `adc_num == ANY` for which
`check_fun` holds on exactly one module runs `check_fun` on `adc0` and on
`adc1` and then `conversion_fun` exactly once, on the module whose check held,
and returns the value of that call; the workload counters play no part. -/
theorem workload_dispatch_one_eligible (K : Build) (ofInt : Int → ρ)
    (check_fun : α → ADC_Module σ κ → Bool × ADC_Module σ κ)
    (conversion_fun : α → ADC_Module σ κ → ρ × ADC_Module σ κ)
    (args : α) (s : ADC σ κ)
    (hK : K.ADC_NUM_ADCS = 2)
    (h : (check_fun args s.adc0).1 ≠ (check_fun args s.adc1).1) :
    workload_dispatch_policy K ofInt check_fun conversion_fun .ANY args s =
      if (check_fun args s.adc0).1 = true then
        ((conversion_fun args (check_fun args s.adc0).2).1,
          { adc0 := (conversion_fun args (check_fun args s.adc0).2).2
            adc1 := (check_fun args s.adc1).2
            trace := s.trace ++
              [.check_fun .adc0, .check_fun .adc1, .conversion_fun .adc0] })
      else
        ((conversion_fun args (check_fun args s.adc1).2).1,
          { adc0 := (check_fun args s.adc0).2
            adc1 := (conversion_fun args (check_fun args s.adc1).2).2
            trace := s.trace ++
              [.check_fun .adc0, .check_fun .adc1, .conversion_fun .adc1] }) := by
  have hne : ¬ K.ADC_NUM_ADCS = 1 := by omega
  cases h0 : (check_fun args s.adc0).1 <;> cases h1 : (check_fun args s.adc1).1 <;>
    simp [h0, h1] at h <;>
    simp [workload_dispatch_policy, hne, ADC.invoke, ADC.get, ADC.set, ADC.log, h0, h1]

/-- C2 at a concrete input: only `adc1` reads pin 26; it is used although its
workload is the larger one. -/
theorem workload_dispatch_one_eligible_witness :
    demoBuild.ADC_NUM_ADCS = 2
    ∧ (demoDriver.checkPin 26 (demoModule [14] 0 0 true 100 10)).1
        ≠ (demoDriver.checkPin 26 (demoModule [26] 5 0 true 200 10)).1
    ∧ workload_dispatch_policy demoBuild id demoDriver.checkPin demoDriver.analogRead .ANY 26
        ⟨demoModule [14] 0 0 true 100 10, demoModule [26] 5 0 true 200 10, []⟩
      = (226, ⟨demoModule [14] 0 0 true 100 10, demoModule [26] 5 0 true 200 10,
          [.check_fun .adc0, .check_fun .adc1, .conversion_fun .adc1]⟩) :=
  ⟨rfl, by decide,
    (workload_dispatch_one_eligible demoBuild id demoDriver.checkPin demoDriver.analogRead 26
      ⟨demoModule [14] 0 0 true 100 10, demoModule [26] 5 0 true 200 10, []⟩
      rfl (by decide)).trans (by decide)⟩

/-- The rejecting path of the workload policy: in a two-module build, a request
with `adc_num == ANY` for which `check_fun` fails on both modules runs the two
checks and nothing else: the trace gains no `conversion_fun`,
`ADC_ERROR_WRONG_PIN` is or-ed into the `fail_flag` of `adc0` and of `adc1` (so
the bit is set in both afterwards), and the value returned is
`ADC_ERROR_VALUE` converted to `ret_type`; for `analogRead`, whose `ret_type`
is `int`, it is `ADC_ERROR_VALUE` itself. -/
theorem workload_dispatch_none_eligible (K : Build) (ofInt : Int → ρ)
    (check_fun : α → ADC_Module σ κ → Bool × ADC_Module σ κ)
    (conversion_fun : α → ADC_Module σ κ → ρ × ADC_Module σ κ)
    (args : α) (s : ADC σ κ)
    (hK : K.ADC_NUM_ADCS = 2)
    (h0 : (check_fun args s.adc0).1 = false)
    (h1 : (check_fun args s.adc1).1 = false) :
    workload_dispatch_policy K ofInt check_fun conversion_fun .ANY args s =
        (ofInt K.ADC_ERROR_VALUE,
          { adc0 := { (check_fun args s.adc0).2 with
                      fail_flag := (check_fun args s.adc0).2.fail_flag ||| K.ADC_ERROR_WRONG_PIN }
            adc1 := { (check_fun args s.adc1).2 with
                      fail_flag := (check_fun args s.adc1).2.fail_flag ||| K.ADC_ERROR_WRONG_PIN }
            trace := s.trace ++ [.check_fun .adc0, .check_fun .adc1] })
    ∧ (workload_dispatch_policy K ofInt check_fun conversion_fun .ANY args s).2.adc0.fail_flag
        &&& K.ADC_ERROR_WRONG_PIN = K.ADC_ERROR_WRONG_PIN
    ∧ (workload_dispatch_policy K ofInt check_fun conversion_fun .ANY args s).2.adc1.fail_flag
        &&& K.ADC_ERROR_WRONG_PIN = K.ADC_ERROR_WRONG_PIN
    ∧ (∀ (D : Driver σ κ) (pin : Nat),
        (D.checkPin pin s.adc0).1 = false → (D.checkPin pin s.adc1).1 = false →
        (analogRead D K pin .ANY s).1 = K.ADC_ERROR_VALUE) := by
  have hne : ¬ K.ADC_NUM_ADCS = 1 := by omega
  have key : workload_dispatch_policy K ofInt check_fun conversion_fun .ANY args s =
        (ofInt K.ADC_ERROR_VALUE,
          { adc0 := { (check_fun args s.adc0).2 with
                      fail_flag := (check_fun args s.adc0).2.fail_flag ||| K.ADC_ERROR_WRONG_PIN }
            adc1 := { (check_fun args s.adc1).2 with
                      fail_flag := (check_fun args s.adc1).2.fail_flag ||| K.ADC_ERROR_WRONG_PIN }
            trace := s.trace ++ [.check_fun .adc0, .check_fun .adc1] }) := by
    simp [workload_dispatch_policy, hne, ADC.invoke, ADC.get, ADC.set, ADC.log, ADC.orFail,
      h0, h1]
  refine ⟨key, ?_, ?_, ?_⟩
  · rw [key]; exact lor_and_self_right _ _
  · rw [key]; exact lor_and_self_right _ _
  · intro D pin c0 c1
    simp [analogRead, dispatch_policy, workload_dispatch_policy, hne, ADC.invoke, ADC.get,
      ADC.set, ADC.log, ADC.orFail, c0, c1]

/-- C3, the code at the failing input: in a two-module build in which no
module reads pin 50 (nor the pair 50, 51), the four requests whose `ret_type`
is `bool` (`startSingleRead`, `startSingleDifferential`, `startContinuous`,
`startContinuousDifferential`), issued with `adc_num == ANY`, run the two
checks and no conversion and or `ADC_ERROR_WRONG_PIN` (4) into both
`fail_flag`s, but what they return is `ADC_ERROR_VALUE` converted to `bool`:
`true`, the answer their doc comments give for valid pins.  `analogRead` and
`analogReadDifferential`, whose `ret_type` is `int`, return `ADC_ERROR_VALUE`
itself.  The four `bool` requests answer `true` on this path for every driver
and every two-module build whose `ADC_ERROR_VALUE` is not zero. -/
theorem dispatch_rejection_answers_true :
    startSingleRead demoDriver demoBuild 50 .ANY
        ⟨demoModule [14] 0 0 true 100 10, demoModule [26] 5 0 true 200 10, []⟩
      = (true, ⟨{ demoModule [14] 0 0 true 100 10 with fail_flag := 4 },
          { demoModule [26] 5 0 true 200 10 with fail_flag := 4 },
          [.check_fun .adc0, .check_fun .adc1]⟩)
    ∧ startSingleDifferential demoDriver demoBuild 50 51 .ANY
        ⟨demoModule [14] 0 0 true 100 10, demoModule [26] 5 0 true 200 10, []⟩
      = (true, ⟨{ demoModule [14] 0 0 true 100 10 with fail_flag := 4 },
          { demoModule [26] 5 0 true 200 10 with fail_flag := 4 },
          [.check_fun .adc0, .check_fun .adc1]⟩)
    ∧ startContinuous demoDriver demoBuild 50 .ANY
        ⟨demoModule [14] 0 0 true 100 10, demoModule [26] 5 0 true 200 10, []⟩
      = (true, ⟨{ demoModule [14] 0 0 true 100 10 with fail_flag := 4 },
          { demoModule [26] 5 0 true 200 10 with fail_flag := 4 },
          [.check_fun .adc0, .check_fun .adc1]⟩)
    ∧ startContinuousDifferential demoDriver demoBuild 50 51 .ANY
        ⟨demoModule [14] 0 0 true 100 10, demoModule [26] 5 0 true 200 10, []⟩
      = (true, ⟨{ demoModule [14] 0 0 true 100 10 with fail_flag := 4 },
          { demoModule [26] 5 0 true 200 10 with fail_flag := 4 },
          [.check_fun .adc0, .check_fun .adc1]⟩)
    ∧ analogRead demoDriver demoBuild 50 .ANY
        ⟨demoModule [14] 0 0 true 100 10, demoModule [26] 5 0 true 200 10, []⟩
      = (demoBuild.ADC_ERROR_VALUE, ⟨{ demoModule [14] 0 0 true 100 10 with fail_flag := 4 },
          { demoModule [26] 5 0 true 200 10 with fail_flag := 4 },
          [.check_fun .adc0, .check_fun .adc1]⟩)
    ∧ analogReadDifferential demoDriver demoBuild 50 51 .ANY
        ⟨demoModule [14] 0 0 true 100 10, demoModule [26] 5 0 true 200 10, []⟩
      = (demoBuild.ADC_ERROR_VALUE, ⟨{ demoModule [14] 0 0 true 100 10 with fail_flag := 4 },
          { demoModule [26] 5 0 true 200 10 with fail_flag := 4 },
          [.check_fun .adc0, .check_fun .adc1]⟩)
    ∧ (∀ (σ1 κ1 : Type) (D : Driver σ1 κ1) (K : Build) (s : ADC σ1 κ1),
        K.ADC_NUM_ADCS = 2 → K.ADC_ERROR_VALUE ≠ 0 →
        (∀ pin : Nat,
          (D.checkPin pin s.adc0).1 = false → (D.checkPin pin s.adc1).1 = false →
          (startSingleRead D K pin .ANY s).1 = true
          ∧ (startContinuous D K pin .ANY s).1 = true)
        ∧ (∀ pinP pinN : Nat,
          (D.checkDifferentialPins pinP pinN s.adc0).1 = false →
          (D.checkDifferentialPins pinP pinN s.adc1).1 = false →
          (startSingleDifferential D K pinP pinN .ANY s).1 = true
          ∧ (startContinuousDifferential D K pinP pinN .ANY s).1 = true)) := by
  refine ⟨by decide, by decide, by decide, by decide, by decide, by decide, ?_⟩
  intro σ1 κ1 D K s hK hz
  have hne : ¬ K.ADC_NUM_ADCS = 1 := by omega
  refine ⟨fun pin c0 c1 => ⟨?_, ?_⟩, fun pinP pinN c0 c1 => ⟨?_, ?_⟩⟩
  · have h := (workload_dispatch_none_eligible K bool_of_int D.checkPin D.startSingleRead
      pin s hK c0 c1).1
    simp [startSingleRead, dispatch_policy, hne, h, bool_of_int, hz]
  · have h := (workload_dispatch_none_eligible K bool_of_int D.checkPin D.startContinuous
      pin s hK c0 c1).1
    simp [startContinuous, dispatch_policy, hne, h, bool_of_int, hz]
  · have h := (workload_dispatch_none_eligible K bool_of_int
      (fun a : Nat × Nat => D.checkDifferentialPins a.1 a.2)
      (fun a : Nat × Nat => D.startSingleDifferential a.1 a.2) (pinP, pinN) s hK c0 c1).1
    simp [startSingleDifferential, dispatch_policy, hne, h, bool_of_int, hz]
  · have h := (workload_dispatch_none_eligible K bool_of_int
      (fun a : Nat × Nat => D.checkDifferentialPins a.1 a.2)
      (fun a : Nat × Nat => D.startContinuousDifferential a.1 a.2) (pinP, pinN) s hK c0 c1).1
    simp [startContinuousDifferential, dispatch_policy, hne, h, bool_of_int, hz]

/-- C4: in a two-module build, a request that names a concrete module
(`ADC_0` or `ADC_1`) runs `conversion_fun` on that module and nothing else, and
returns its value: the trace gains that single call and no `check_fun`,
whatever `check_fun` would answer. -/
theorem workload_dispatch_concrete (K : Build) (ofInt : Int → ρ)
    (check_fun : α → ADC_Module σ κ → Bool × ADC_Module σ κ)
    (conversion_fun : α → ADC_Module σ κ → ρ × ADC_Module σ κ)
    (args : α) (s : ADC σ κ)
    (hK : K.ADC_NUM_ADCS = 2) :
    workload_dispatch_policy K ofInt check_fun conversion_fun .ADC_0 args s =
        ((conversion_fun args s.adc0).1,
          { adc0 := (conversion_fun args s.adc0).2
            adc1 := s.adc1
            trace := s.trace ++ [.conversion_fun .adc0] })
    ∧ workload_dispatch_policy K ofInt check_fun conversion_fun .ADC_1 args s =
        ((conversion_fun args s.adc1).1,
          { adc0 := s.adc0
            adc1 := (conversion_fun args s.adc1).2
            trace := s.trace ++ [.conversion_fun .adc1] }) := by
  have hne : ¬ K.ADC_NUM_ADCS = 1 := by omega
  constructor <;>
    simp [workload_dispatch_policy, hne, ADC.invoke, ADC.get, ADC.set, ADC.log]

/-- C4 at a concrete input: `adc1` is named for pin 14, which it does not
read; the conversion runs on it all the same and no check is made. -/
theorem workload_dispatch_concrete_witness :
    demoBuild.ADC_NUM_ADCS = 2
    ∧ (demoDriver.checkPin 14 (demoModule [26] 5 0 true 200 10)).1 = false
    ∧ workload_dispatch_policy demoBuild id demoDriver.checkPin demoDriver.analogRead .ADC_1 14
        ⟨demoModule [14] 0 0 true 100 10, demoModule [26] 5 0 true 200 10, []⟩
      = (214, ⟨demoModule [14] 0 0 true 100 10, demoModule [26] 5 0 true 200 10,
          [.conversion_fun .adc1]⟩) :=
  ⟨rfl, by decide,
    (workload_dispatch_concrete demoBuild id demoDriver.checkPin demoDriver.analogRead 14
      ⟨demoModule [14] 0 0 true 100 10, demoModule [26] 5 0 true 200 10, []⟩
      rfl).2.trans (by decide)⟩

/-- C16: on every path of `workload_dispatch_policy` that does not reject (a
concrete module is named, or one of the two checks holds) there is one module
`w` such that the dispatch is the checks followed by the one call of
`conversion_fun` on `w` and nothing else: module `w` is what `conversion_fun`
makes of it and the other module is as the checks left it, so the dispatch
layer writes no `fail_flag` and no `num_measurements`.  With a check that
leaves the module as it found it, the module not chosen is exactly as before
the call and the chosen one differs by the effect of `conversion_fun` alone. -/
theorem workload_dispatch_frame (K : Build) (ofInt : Int → ρ)
    (check_fun : α → ADC_Module σ κ → Bool × ADC_Module σ κ)
    (conversion_fun : α → ADC_Module σ κ → ρ × ADC_Module σ κ)
    (adc_num : ADC_NUM) (args : α) (s : ADC σ κ)
    (h : adc_num ≠ .ANY ∨ (check_fun args s.adc0).1 = true
      ∨ (check_fun args s.adc1).1 = true) :
    ∃ w : Which,
      workload_dispatch_policy K ofInt check_fun conversion_fun adc_num args s
        = (checkedState K check_fun adc_num args s).invoke w (conversion_fun args)
            (.conversion_fun w)
      ∧ (workload_dispatch_policy K ofInt check_fun conversion_fun adc_num args s).2.get w
        = (conversion_fun args ((checkedState K check_fun adc_num args s).get w)).2
      ∧ (workload_dispatch_policy K ofInt check_fun conversion_fun adc_num args s).2.get w.other
        = (checkedState K check_fun adc_num args s).get w.other
      ∧ ((∀ m, (check_fun args m).2 = m) →
          (workload_dispatch_policy K ofInt check_fun conversion_fun adc_num args s).2.get w
            = (conversion_fun args (s.get w)).2
          ∧ (workload_dispatch_policy K ofInt check_fun conversion_fun adc_num args s).2.get
              w.other = s.get w.other) := by
  have hcs : (∀ m, (check_fun args m).2 = m) →
      ∀ w, (checkedState K check_fun adc_num args s).get w = s.get w := by
    intro hp w
    unfold checkedState
    split
    · rfl
    · cases adc_num <;> cases w <;> simp [ADC.invoke, ADC.get, ADC.set, ADC.log, hp]
  have main : ∃ w : Which,
      workload_dispatch_policy K ofInt check_fun conversion_fun adc_num args s
        = (checkedState K check_fun adc_num args s).invoke w (conversion_fun args)
            (.conversion_fun w)
      ∧ (workload_dispatch_policy K ofInt check_fun conversion_fun adc_num args s).2.get w
        = (conversion_fun args ((checkedState K check_fun adc_num args s).get w)).2
      ∧ (workload_dispatch_policy K ofInt check_fun conversion_fun adc_num args s).2.get w.other
        = (checkedState K check_fun adc_num args s).get w.other := by
    by_cases hK : K.ADC_NUM_ADCS = 1
    · refine ⟨.adc0, ?_, ?_, ?_⟩ <;>
        simp [workload_dispatch_policy, checkedState, hK, ADC.invoke, ADC.get, ADC.set,
          ADC.log, Which.other]
    · cases adc_num with
      | ADC_0 =>
        refine ⟨.adc0, ?_, ?_, ?_⟩ <;>
          simp [workload_dispatch_policy, checkedState, hK, ADC.invoke, ADC.get, ADC.set,
            ADC.log, Which.other]
      | ADC_1 =>
        refine ⟨.adc1, ?_, ?_, ?_⟩ <;>
          simp [workload_dispatch_policy, checkedState, hK, ADC.invoke, ADC.get, ADC.set,
            ADC.log, Which.other]
      | ANY =>
        simp only [ne_eq, not_true_eq_false, false_or] at h
        cases h0 : (check_fun args s.adc0).1 <;> cases h1 : (check_fun args s.adc1).1
        · simp [h0, h1] at h
        · refine ⟨.adc1, ?_, ?_, ?_⟩ <;>
            simp [workload_dispatch_policy, checkedState, ADC.invoke, ADC.get, ADC.set,
              ADC.log, Which.other, hK, h0, h1]
        · refine ⟨.adc0, ?_, ?_, ?_⟩ <;>
            simp [workload_dispatch_policy, checkedState, ADC.invoke, ADC.get, ADC.set,
              ADC.log, Which.other, hK, h0, h1]
        · by_cases hl : (check_fun args s.adc1).2.num_measurements
              < (check_fun args s.adc0).2.num_measurements
          · refine ⟨.adc1, ?_, ?_, ?_⟩ <;>
              simp [workload_dispatch_policy, checkedState, ADC.invoke, ADC.get, ADC.set,
                ADC.log, Which.other, hK, h0, h1, hl]
          · refine ⟨.adc0, ?_, ?_, ?_⟩ <;>
              simp [workload_dispatch_policy, checkedState, ADC.invoke, ADC.get, ADC.set,
                ADC.log, Which.other, hK, h0, h1, hl]
  obtain ⟨w, a, b, c⟩ := main
  exact ⟨w, a, b, c, fun hp => ⟨by rw [b, hcs hp], by rw [c, hcs hp]⟩⟩

/-- C16 at a concrete input: only `adc1` reads pin 26; the module not chosen,
`adc0`, is after the dispatch exactly what it was before. -/
theorem workload_dispatch_frame_witness :
    ((ADC_NUM.ANY ≠ ADC_NUM.ANY)
      ∨ (demoDriver.checkPin 26 (demoADC 0 true true 10 10).adc0).1 = true
      ∨ (demoDriver.checkPin 26 (demoADC 0 true true 10 10).adc1).1 = true)
    ∧ ∃ w : Which,
        (workload_dispatch_policy demoBuild id demoDriver.checkPin demoDriver.analogRead
            .ANY 26 (demoADC 0 true true 10 10)).2.get w
          = (demoDriver.analogRead 26 ((demoADC 0 true true 10 10).get w)).2
        ∧ (workload_dispatch_policy demoBuild id demoDriver.checkPin demoDriver.analogRead
            .ANY 26 (demoADC 0 true true 10 10)).2.get w.other
          = (demoADC 0 true true 10 10).get w.other := by
  refine ⟨by decide, ?_⟩
  obtain ⟨w, _, _, _, d⟩ :=
    workload_dispatch_frame demoBuild id demoDriver.checkPin demoDriver.analogRead
      .ANY 26 (demoADC 0 true true 10 10) (by decide)
  exact ⟨w, d (fun _ => rfl)⟩

end Dispatch

/-! ## The synchronized starts: acceptance -/

section Starts

variable {σ κ : Type}

/-- C12: each of the four synchronized starts returns true exactly when the
check of module 0 and the check of module 1 both pass.  When the check of
module 0 fails the start returns false after that one check, with
`ADC_ERROR_WRONG_PIN` or-ed into `adc0->fail_flag`; when it passes and the
check of module 1 fails the start returns false after the two checks, with
`ADC_ERROR_WRONG_PIN` or-ed into `adc1->fail_flag`.  In both cases the trace
gains the checks only: no `singleMode`, no start, no access to an `SC1A`
register. -/
theorem syncStart_accepts_iff (D : Driver σ κ) (K : Build) (s : ADC σ κ) :
    (∀ pin0 pin1 : Nat,
      (startSynchronizedSingleRead D K pin0 pin1 s).1
          = ((D.checkPin pin0 s.adc0).1 && (D.checkPin pin1 s.adc1).1)
      ∧ (startSynchronizedContinuous D K pin0 pin1 s).1
          = ((D.checkPin pin0 s.adc0).1 && (D.checkPin pin1 s.adc1).1)
      ∧ ((D.checkPin pin0 s.adc0).1 = false →
          startSynchronizedSingleRead D K pin0 pin1 s =
            (false,
              { adc0 := { (D.checkPin pin0 s.adc0).2 with
                          fail_flag := (D.checkPin pin0 s.adc0).2.fail_flag
                            ||| K.ADC_ERROR_WRONG_PIN }
                adc1 := s.adc1
                trace := s.trace ++ [.checkPin .adc0 pin0] })
          ∧ startSynchronizedContinuous D K pin0 pin1 s
              = startSynchronizedSingleRead D K pin0 pin1 s)
      ∧ ((D.checkPin pin0 s.adc0).1 = true → (D.checkPin pin1 s.adc1).1 = false →
          startSynchronizedSingleRead D K pin0 pin1 s =
            (false,
              { adc0 := (D.checkPin pin0 s.adc0).2
                adc1 := { (D.checkPin pin1 s.adc1).2 with
                          fail_flag := (D.checkPin pin1 s.adc1).2.fail_flag
                            ||| K.ADC_ERROR_WRONG_PIN }
                trace := s.trace ++ [.checkPin .adc0 pin0, .checkPin .adc1 pin1] })
          ∧ startSynchronizedContinuous D K pin0 pin1 s
              = startSynchronizedSingleRead D K pin0 pin1 s))
    ∧ (∀ pin0P pin0N pin1P pin1N : Nat,
      (startSynchronizedSingleDifferential D K pin0P pin0N pin1P pin1N s).1
          = ((D.checkDifferentialPins pin0P pin0N s.adc0).1
              && (D.checkDifferentialPins pin1P pin1N s.adc1).1)
      ∧ (startSynchronizedContinuousDifferential D K pin0P pin0N pin1P pin1N s).1
          = ((D.checkDifferentialPins pin0P pin0N s.adc0).1
              && (D.checkDifferentialPins pin1P pin1N s.adc1).1)
      ∧ ((D.checkDifferentialPins pin0P pin0N s.adc0).1 = false →
          startSynchronizedSingleDifferential D K pin0P pin0N pin1P pin1N s =
            (false,
              { adc0 := { (D.checkDifferentialPins pin0P pin0N s.adc0).2 with
                          fail_flag := (D.checkDifferentialPins pin0P pin0N s.adc0).2.fail_flag
                            ||| K.ADC_ERROR_WRONG_PIN }
                adc1 := s.adc1
                trace := s.trace ++ [.checkDifferentialPins .adc0 pin0P pin0N] })
          ∧ startSynchronizedContinuousDifferential D K pin0P pin0N pin1P pin1N s
              = startSynchronizedSingleDifferential D K pin0P pin0N pin1P pin1N s)
      ∧ ((D.checkDifferentialPins pin0P pin0N s.adc0).1 = true →
          (D.checkDifferentialPins pin1P pin1N s.adc1).1 = false →
          startSynchronizedSingleDifferential D K pin0P pin0N pin1P pin1N s =
            (false,
              { adc0 := (D.checkDifferentialPins pin0P pin0N s.adc0).2
                adc1 := { (D.checkDifferentialPins pin1P pin1N s.adc1).2 with
                          fail_flag := (D.checkDifferentialPins pin1P pin1N s.adc1).2.fail_flag
                            ||| K.ADC_ERROR_WRONG_PIN }
                trace := s.trace ++ [.checkDifferentialPins .adc0 pin0P pin0N,
                  .checkDifferentialPins .adc1 pin1P pin1N] })
          ∧ startSynchronizedContinuousDifferential D K pin0P pin0N pin1P pin1N s
              = startSynchronizedSingleDifferential D K pin0P pin0N pin1P pin1N s)) := by
  refine ⟨fun pin0 pin1 => ?_, fun pin0P pin0N pin1P pin1N => ?_⟩
  · cases h0 : (D.checkPin pin0 s.adc0).1 <;> cases h1 : (D.checkPin pin1 s.adc1).1 <;>
      simp [startSynchronizedSingleRead, startSynchronizedContinuous, ADC.invoke, ADC.get,
        ADC.set, ADC.log, ADC.orFail, h0, h1]
  · cases h0 : (D.checkDifferentialPins pin0P pin0N s.adc0).1 <;>
      cases h1 : (D.checkDifferentialPins pin1P pin1N s.adc1).1 <;>
      simp [startSynchronizedSingleDifferential, startSynchronizedContinuousDifferential,
        ADC.invoke, ADC.get, ADC.set, ADC.log, ADC.orFail, h0, h1]

/-- C12 at concrete inputs: pins (26, 26) fail on `adc0`, pins (14, 14) fail on
`adc1`, pins (14, 26) pass. -/
theorem syncStart_accepts_iff_witness :
    (demoDriver.checkPin 26 (demoADC 0 true true 10 10).adc0).1 = false
    ∧ startSynchronizedSingleRead demoDriver demoBuild 26 26 (demoADC 0 true true 10 10)
      = (false,
          { adc0 := { demoModule [14] 0 0 true 100 10 with fail_flag := 4 }
            adc1 := demoModule [26] 5 0 true 300 10
            trace := [.checkPin .adc0 26] })
    ∧ (demoDriver.checkPin 14 (demoADC 0 true true 10 10).adc0).1 = true
    ∧ (demoDriver.checkPin 14 (demoADC 0 true true 10 10).adc1).1 = false
    ∧ startSynchronizedSingleRead demoDriver demoBuild 14 14 (demoADC 0 true true 10 10)
      = (false,
          { adc0 := demoModule [14] 0 0 true 100 10
            adc1 := { demoModule [26] 5 0 true 300 10 with fail_flag := 4 }
            trace := [.checkPin .adc0 14, .checkPin .adc1 14] })
    ∧ (startSynchronizedContinuous demoDriver demoBuild 14 26 (demoADC 0 true true 10 10)).1
      = true :=
  ⟨by decide,
    (((syncStart_accepts_iff demoDriver demoBuild (demoADC 0 true true 10 10)).1 26 26).2.2.1
      (by decide)).1.trans (by decide),
    by decide, by decide,
    (((syncStart_accepts_iff demoDriver demoBuild (demoADC 0 true true 10 10)).1 14 14).2.2.2
      (by decide) (by decide)).1.trans (by decide),
    ((syncStart_accepts_iff demoDriver demoBuild (demoADC 0 true true 10 10)).1 14 26).2.1.trans
      (by decide)⟩

/-- C11, the code at a concrete input: `adc0` is converting in mode 7 when
`startSynchronizedSingleRead(14, 26)` is issued.  The start succeeds and stores
the snapshot (7, 2) in `adc0`; the later `readSynchronizedSingle` returns the
readings (100, 300), but no `loadConfig` is in the trace (none, not one), and
`adc0` is still in the mode 15 of the synchronized conversion with its
snapshot pending. -/
theorem readSynchronizedSingle_no_restore :
    (startSynchronizedSingleRead demoDriver demoBuild 14 26 (demoADC 3 true true 10 10)).1 = true
    ∧ savedSnapshots .adc0
        (startSynchronizedSingleRead demoDriver demoBuild 14 26
          (demoADC 3 true true 10 10)).2.trace = [(7, 2)]
    ∧ (readSynchronizedSingle demoDriver
        (startSynchronizedSingleRead demoDriver demoBuild 14 26
          (demoADC 3 true true 10 10)).2).1 = ⟨100, 300⟩
    ∧ loadedSnapshots .adc0 (readSynchronizedSingle demoDriver
        (startSynchronizedSingleRead demoDriver demoBuild 14 26
          (demoADC 3 true true 10 10)).2).2.trace = []
    ∧ (readSynchronizedSingle demoDriver
        (startSynchronizedSingleRead demoDriver demoBuild 14 26
          (demoADC 3 true true 10 10)).2).2.adc0
      = { demoModule [14] 0 0 true 100 10 with
          adcWasInUse := true, adc_config := (7, 2), hw := ⟨[14], 1, 15, true, 100, 10⟩ } := by
  refine ⟨?_, ?_, ?_, ?_, ?_⟩ <;> decide

/-- C11 as amended: `readSynchronizedSingle` returns the value of `readSingle`
on `adc0` and on `adc1` and makes these two calls only; and after a successful
`startSynchronizedSingleRead` or `startSynchronizedSingleDifferential` the
trace of the start followed by the read holds no `loadConfig` beyond those it
held before: a preempted module's stored snapshot is loaded neither by the
start nor by the read. -/
theorem readSynchronizedSingle_reads_only (D : Driver σ κ) (K : Build) (s : ADC σ κ) :
    readSynchronizedSingle D s =
        (⟨(D.readSingle s.adc0).1, (D.readSingle s.adc1).1⟩,
          { adc0 := (D.readSingle s.adc0).2
            adc1 := (D.readSingle s.adc1).2
            trace := s.trace ++ [.readSingle .adc0, .readSingle .adc1] })
    ∧ (∀ pin0 pin1 : Nat,
        (D.checkPin pin0 s.adc0).1 = true → (D.checkPin pin1 s.adc1).1 = true →
        (startSynchronizedSingleRead D K pin0 pin1 s).1 = true
        ∧ ∀ w, loadedSnapshots w (readSynchronizedSingle D
            (startSynchronizedSingleRead D K pin0 pin1 s).2).2.trace
          = loadedSnapshots w s.trace)
    ∧ (∀ pin0P pin0N pin1P pin1N : Nat,
        (D.checkDifferentialPins pin0P pin0N s.adc0).1 = true →
        (D.checkDifferentialPins pin1P pin1N s.adc1).1 = true →
        (startSynchronizedSingleDifferential D K pin0P pin0N pin1P pin1N s).1 = true
        ∧ ∀ w, loadedSnapshots w (readSynchronizedSingle D
            (startSynchronizedSingleDifferential D K pin0P pin0N pin1P pin1N s).2).2.trace
          = loadedSnapshots w s.trace) := by
  refine ⟨readSynchronizedSingle_eq D s, ?_, ?_⟩
  · intro pin0 pin1 h0 h1
    rw [startSynchronizedSingleRead_valid D K pin0 pin1 s h0 h1]
    refine ⟨rfl, fun w => ?_⟩
    simp only [readSynchronizedSingle_eq, loadedSnapshots_append,
      loadedSnapshots_preemptStoredEvents, List.append_nil]
    have e1 : loadedSnapshots w ([.checkPin .adc0 pin0, .checkPin .adc1 pin1] :
        List (Event κ)) = [] := rfl
    have e2 : loadedSnapshots w ([.singleMode .adc0, .singleMode .adc1,
        .startReadFast .adc0 pin0, .startReadFast .adc1 pin1] : List (Event κ)) = [] := rfl
    have e3 : loadedSnapshots w ([.readSingle .adc0, .readSingle .adc1] :
        List (Event κ)) = [] := rfl
    rw [e1, e2, e3]
    simp
  · intro pin0P pin0N pin1P pin1N h0 h1
    rw [startSynchronizedSingleDifferential_valid D K pin0P pin0N pin1P pin1N s h0 h1]
    refine ⟨rfl, fun w => ?_⟩
    simp only [readSynchronizedSingle_eq, loadedSnapshots_append,
      loadedSnapshots_preemptStoredEvents, List.append_nil]
    have e1 : loadedSnapshots w ([.checkDifferentialPins .adc0 pin0P pin0N,
        .checkDifferentialPins .adc1 pin1P pin1N] : List (Event κ)) = [] := rfl
    have e2 : loadedSnapshots w ([.singleMode .adc0, .singleMode .adc1,
        .startDifferentialFast .adc0 pin0P pin0N,
        .startDifferentialFast .adc1 pin1P pin1N] : List (Event κ)) = [] := rfl
    have e3 : loadedSnapshots w ([.readSingle .adc0, .readSingle .adc1] :
        List (Event κ)) = [] := rfl
    rw [e1, e2, e3]
    simp

/-- C11 as amended, at a concrete input: the start of pins 14 and 26 on a
converting `adc0` succeeds, and the read that follows returns (100, 300) and
leaves the trace without any `loadConfig`. -/
theorem readSynchronizedSingle_reads_only_witness :
    (demoDriver.checkPin 14 (demoADC 3 true true 10 10).adc0).1 = true
    ∧ (demoDriver.checkPin 26 (demoADC 3 true true 10 10).adc1).1 = true
    ∧ (startSynchronizedSingleRead demoDriver demoBuild 14 26
        (demoADC 3 true true 10 10)).1 = true
    ∧ ∀ w, loadedSnapshots w (readSynchronizedSingle demoDriver
        (startSynchronizedSingleRead demoDriver demoBuild 14 26
          (demoADC 3 true true 10 10)).2).2.trace = [] :=
  ⟨by decide, by decide,
    ((readSynchronizedSingle_reads_only demoDriver demoBuild (demoADC 3 true true 10 10)).2.1
      14 26 (by decide) (by decide)).1,
    ((readSynchronizedSingle_reads_only demoDriver demoBuild (demoADC 3 true true 10 10)).2.1
      14 26 (by decide) (by decide)).2⟩

/-- C13: in a successful `startSynchronizedSingleRead` or
`startSynchronizedSingleDifferential`, each module is at return what the start
function and `singleMode` make of the module in which `adcWasInUse` has been
set to the answer of `isConverting` and, if that answer was true, `adc_config`
to the snapshot `saveConfig` took.  So, with a driver whose functions leave
these two fields alone, at return `adcK->adcWasInUse` is the answer of
`isConverting` at entry, and `adcK->adc_config` is the snapshot if the answer
was true and what it was at entry if the answer was false. -/
theorem syncStart_stores_snapshot (D : Driver σ κ) (K : Build) (s : ADC σ κ) :
    (∀ pin0 pin1 : Nat,
      (D.checkPin pin0 s.adc0).1 = true → (D.checkPin pin1 s.adc1).1 = true →
      (startSynchronizedSingleRead D K pin0 pin1 s).1 = true
      ∧ (startSynchronizedSingleRead D K pin0 pin1 s).2.adc0
          = D.startReadFast pin0
              (D.singleMode (preemptedStoredModule D (D.checkPin pin0 s.adc0).2))
      ∧ (startSynchronizedSingleRead D K pin0 pin1 s).2.adc1
          = D.startReadFast pin1
              (D.singleMode (preemptedStoredModule D (D.checkPin pin1 s.adc1).2))
      ∧ (D.KeepsStoredFields →
          (startSynchronizedSingleRead D K pin0 pin1 s).2.adc0.adcWasInUse
            = (D.isConverting (D.checkPin pin0 s.adc0).2).1
          ∧ (startSynchronizedSingleRead D K pin0 pin1 s).2.adc0.adc_config
            = (if (D.isConverting (D.checkPin pin0 s.adc0).2).1 = true
                then storedSnapshot D (D.checkPin pin0 s.adc0).2 else s.adc0.adc_config)
          ∧ (startSynchronizedSingleRead D K pin0 pin1 s).2.adc1.adcWasInUse
            = (D.isConverting (D.checkPin pin1 s.adc1).2).1
          ∧ (startSynchronizedSingleRead D K pin0 pin1 s).2.adc1.adc_config
            = (if (D.isConverting (D.checkPin pin1 s.adc1).2).1 = true
                then storedSnapshot D (D.checkPin pin1 s.adc1).2 else s.adc1.adc_config)))
    ∧ (∀ pin0P pin0N pin1P pin1N : Nat,
      (D.checkDifferentialPins pin0P pin0N s.adc0).1 = true →
      (D.checkDifferentialPins pin1P pin1N s.adc1).1 = true →
      (startSynchronizedSingleDifferential D K pin0P pin0N pin1P pin1N s).1 = true
      ∧ (startSynchronizedSingleDifferential D K pin0P pin0N pin1P pin1N s).2.adc0
          = D.startDifferentialFast pin0P pin0N (D.singleMode
              (preemptedStoredModule D (D.checkDifferentialPins pin0P pin0N s.adc0).2))
      ∧ (startSynchronizedSingleDifferential D K pin0P pin0N pin1P pin1N s).2.adc1
          = D.startDifferentialFast pin1P pin1N (D.singleMode
              (preemptedStoredModule D (D.checkDifferentialPins pin1P pin1N s.adc1).2))
      ∧ (D.KeepsStoredFields →
          (startSynchronizedSingleDifferential D K pin0P pin0N pin1P pin1N s).2.adc0.adcWasInUse
            = (D.isConverting (D.checkDifferentialPins pin0P pin0N s.adc0).2).1
          ∧ (startSynchronizedSingleDifferential D K pin0P pin0N pin1P pin1N s).2.adc0.adc_config
            = (if (D.isConverting (D.checkDifferentialPins pin0P pin0N s.adc0).2).1 = true
                then storedSnapshot D (D.checkDifferentialPins pin0P pin0N s.adc0).2
                else s.adc0.adc_config)
          ∧ (startSynchronizedSingleDifferential D K pin0P pin0N pin1P pin1N s).2.adc1.adcWasInUse
            = (D.isConverting (D.checkDifferentialPins pin1P pin1N s.adc1).2).1
          ∧ (startSynchronizedSingleDifferential D K pin0P pin0N pin1P pin1N s).2.adc1.adc_config
            = (if (D.isConverting (D.checkDifferentialPins pin1P pin1N s.adc1).2).1 = true
                then storedSnapshot D (D.checkDifferentialPins pin1P pin1N s.adc1).2
                else s.adc1.adc_config))) := by
  have key : ∀ (hD : D.KeepsStoredFields) (m : ADC_Module σ κ),
      (preemptedStoredModule D m).adcWasInUse = (D.isConverting m).1
      ∧ (preemptedStoredModule D m).adc_config
          = (if (D.isConverting m).1 = true then storedSnapshot D m else m.adc_config) := by
    intro hD m
    cases h : (D.isConverting m).1 <;>
      simp [preemptedStoredModule, wasInUse, storedEntry, h, hD.saveConfig, hD.isConverting]
  refine ⟨?_, ?_⟩
  · intro pin0 pin1 h0 h1
    rw [startSynchronizedSingleRead_valid D K pin0 pin1 s h0 h1]
    refine ⟨rfl, rfl, rfl, fun hD => ?_⟩
    simp [(hD.startReadFast _ _).1, (hD.startReadFast _ _).2, (hD.singleMode _).1,
      (hD.singleMode _).2, (key hD _).1, (key hD _).2, hD.checkPin]
  · intro pin0P pin0N pin1P pin1N h0 h1
    rw [startSynchronizedSingleDifferential_valid D K pin0P pin0N pin1P pin1N s h0 h1]
    refine ⟨rfl, rfl, rfl, fun hD => ?_⟩
    simp [(hD.startDifferentialFast _ _ _).1, (hD.startDifferentialFast _ _ _).2,
      (hD.singleMode _).1, (hD.singleMode _).2, (key hD _).1, (key hD _).2,
      hD.checkDifferentialPins]

/-- C13 at a concrete input: `adc0` is converting (mode 7) and `adc1` is idle
when pins 14 and 26 are started; at return `adc0` has `adcWasInUse` set and the
snapshot (7, 2) in `adc_config`, `adc1` has `adcWasInUse` clear and its
`adc_config` as before. -/
theorem syncStart_stores_snapshot_witness :
    (demoDriver.checkPin 14 (demoADC 3 true true 10 10).adc0).1 = true
    ∧ (demoDriver.checkPin 26 (demoADC 3 true true 10 10).adc1).1 = true
    ∧ demoDriver.KeepsStoredFields
    ∧ (startSynchronizedSingleRead demoDriver demoBuild 14 26
        (demoADC 3 true true 10 10)).2.adc0.adcWasInUse = true
    ∧ (startSynchronizedSingleRead demoDriver demoBuild 14 26
        (demoADC 3 true true 10 10)).2.adc0.adc_config = (7, 2)
    ∧ (startSynchronizedSingleRead demoDriver demoBuild 14 26
        (demoADC 3 true true 10 10)).2.adc1.adcWasInUse = false
    ∧ (startSynchronizedSingleRead demoDriver demoBuild 14 26
        (demoADC 3 true true 10 10)).2.adc1.adc_config = (0, 0) := by
  obtain ⟨a, b, c, d⟩ :=
    ((syncStart_stores_snapshot demoDriver demoBuild (demoADC 3 true true 10 10)).1 14 26
      (by decide) (by decide)).2.2.2 demoDriver_keepsStoredFields
  exact ⟨by decide, by decide, demoDriver_keepsStoredFields, a.trans (by decide),
    b.trans (by decide), c.trans (by decide), d.trans (by decide)⟩

end Starts

/-! ## Accumulation of `fail_flag` over the operations -/

section Flags

variable {σ κ : Type}

theorem analogSynchronizedRead_wait_none (D : Driver σ κ) (K : Build) (fuel pin0 pin1 : Nat)
    (s : ADC σ κ)
    (h0 : (D.checkPin pin0 s.adc0).1 = true) (h1 : (D.checkPin pin1 s.adc1).1 = true)
    (hw : waitBoth D fuel (loopEntryRead D pin0 pin1 s) = none) :
    analogSynchronizedRead D K fuel pin0 pin1 s = none := by
  have h0' : (s.invoke .adc0 (D.checkPin pin0) (.checkPin .adc0 pin0)).1 = true := h0
  have h1' : ((s.invoke .adc0 (D.checkPin pin0) (.checkPin .adc0 pin0)).2.invoke .adc1
      (D.checkPin pin1) (.checkPin .adc1 pin1)).1 = true := h1
  have e : analogSynchronizedRead D K fuel pin0 pin1 s =
      match waitBoth D fuel (loopEntryRead D pin0 pin1 s) with
      | none => none
      | some sp =>
        some ((finishing D K ⟨K.ADC_ERROR_VALUE, K.ADC_ERROR_VALUE⟩ sp).1,
          restore D .adc1 (preempt D .adc1 (preempt D .adc0 (checkedRead D pin0 pin1 s)).2).1.1
            (preempt D .adc1 (preempt D .adc0 (checkedRead D pin0 pin1 s)).2).1.2
            (restore D .adc0 (preempt D .adc0 (checkedRead D pin0 pin1 s)).1.1
              (preempt D .adc0 (checkedRead D pin0 pin1 s)).1.2
              (finishing D K ⟨K.ADC_ERROR_VALUE, K.ADC_ERROR_VALUE⟩ sp).2)) := by
    simp only [analogSynchronizedRead, h0', h1', loopEntryRead, checkedRead]
    rfl
  rw [e, hw]

theorem analogSynchronizedRead_keepsBits (D : Driver σ κ) (K : Build) (hD : D.KeepsFlags)
    (fuel pin0 pin1 : Nat) (s : ADC σ κ) (r : Sync_result × ADC σ κ)
    (h : analogSynchronizedRead D K fuel pin0 pin1 s = some r) : StateKeepsBits s r.2 := by
  cases h0 : (D.checkPin pin0 s.adc0).1
  · simp [analogSynchronizedRead, ADC.invoke, ADC.get, ADC.set, ADC.log, ADC.orFail, h0] at h
    subst h
    exact ⟨(hD.checkPin _ _).andThen (keepsBits_orFail _ _), KeepsBits.self _⟩
  · cases h1 : (D.checkPin pin1 s.adc1).1
    · simp [analogSynchronizedRead, ADC.invoke, ADC.get, ADC.set, ADC.log, ADC.orFail, h0, h1]
        at h
      subst h
      exact ⟨hD.checkPin _ _, (hD.checkPin _ _).andThen (keepsBits_orFail _ _)⟩
    · cases hw : waitBoth D fuel (loopEntryRead D pin0 pin1 s) with
      | none =>
        rw [analogSynchronizedRead_wait_none D K fuel pin0 pin1 s h0 h1 hw] at h
        simp at h
      | some sp =>
        rw [analogSynchronizedRead_valid D K fuel pin0 pin1 s sp h0 h1 hw] at h
        simp only [Option.some.injEq] at h
        subst h
        have hsp := waitBoth_keepsBits D hD fuel _ _ hw
        rw [loopEntryRead_eq] at hsp
        exact ⟨((((hD.checkPin _ _).andThen (keepsBits_preemptedModule D hD _)).andThen
            ((hD.singleMode _).andThen (hD.startReadFast _ _))).andThen hsp.1).andThen
            ((keepsBits_finishedModule D K hD _).andThen (keepsBits_restoredModule D hD _ _)),
          ((((hD.checkPin _ _).andThen (keepsBits_preemptedModule D hD _)).andThen
            ((hD.singleMode _).andThen (hD.startReadFast _ _))).andThen hsp.2).andThen
            ((keepsBits_finishedModule D K hD _).andThen (keepsBits_restoredModule D hD _ _))⟩

theorem dispatch_keepsBits {α ρ : Type} (K : Build) (ofInt : Int → ρ)
    (check_fun : α → ADC_Module σ κ → Bool × ADC_Module σ κ)
    (conversion_fun : α → ADC_Module σ κ → ρ × ADC_Module σ κ)
    (hc : ∀ a m, KeepsBits m (check_fun a m).2)
    (hv : ∀ a m, KeepsBits m (conversion_fun a m).2)
    (adc_num : ADC_NUM) (args : α) (s : ADC σ κ) :
    StateKeepsBits s (workload_dispatch_policy K ofInt check_fun conversion_fun adc_num args s).2
    ∧ StateKeepsBits s
        (simple_dispatch_policy K ofInt check_fun conversion_fun adc_num args s).2 := by
  have close : ∀ m : ADC_Module σ κ,
      KeepsBits m m ∧ KeepsBits m (check_fun args m).2 ∧ KeepsBits m (conversion_fun args m).2
      ∧ KeepsBits m (conversion_fun args (check_fun args m).2).2
      ∧ (∀ b, KeepsBits m { (check_fun args m).2 with
            fail_flag := (check_fun args m).2.fail_flag ||| b }) :=
    fun m => ⟨KeepsBits.self _, hc _ _, hv _ _, (hc _ _).andThen (hv _ _),
      fun _ => (hc _ _).andThen (keepsBits_orFail _ _)⟩
  constructor
  · unfold workload_dispatch_policy
    split
    · exact ⟨(close _).2.2.1, (close _).1⟩
    · cases adc_num with
      | ADC_0 => exact ⟨(close _).2.2.1, (close _).1⟩
      | ADC_1 => exact ⟨(close _).1, (close _).2.2.1⟩
      | ANY =>
        simp only [ADC.invoke, ADC.get, ADC.set, ADC.log, ADC.orFail]
        split
        · split
          · exact ⟨(close _).2.1, (close _).2.2.2.1⟩
          · exact ⟨(close _).2.2.2.1, (close _).2.1⟩
        · split
          · exact ⟨(close _).2.2.2.1, (close _).2.1⟩
          · split
            · exact ⟨(close _).2.1, (close _).2.2.2.1⟩
            · exact ⟨(close _).2.2.2.2 _, (close _).2.2.2.2 _⟩
  · unfold simple_dispatch_policy
    split
    · exact ⟨(close _).2.2.1, (close _).1⟩
    · cases adc_num with
      | ADC_0 => exact ⟨(close _).2.2.1, (close _).1⟩
      | ADC_1 => exact ⟨(close _).1, (close _).2.2.1⟩
      | ANY =>
        simp only [ADC.invoke, ADC.get, ADC.set, ADC.log, ADC.orFail]
        split
        · exact ⟨(close _).2.2.2.1, (close _).1⟩
        · split
          · exact ⟨(close _).2.1, (close _).2.2.2.1⟩
          · exact ⟨(close _).2.2.2.2 _, (close _).2.2.2.2 _⟩

theorem analogSynchronizedReadDifferential_wait_none (D : Driver σ κ) (K : Build)
    (fuel pin0P pin0N pin1P pin1N : Nat) (s : ADC σ κ)
    (h0 : (D.checkDifferentialPins pin0P pin0N s.adc0).1 = true)
    (h1 : (D.checkDifferentialPins pin1P pin1N s.adc1).1 = true)
    (hw : waitBoth D fuel (loopEntryDifferential D pin0P pin0N pin1P pin1N s) = none) :
    analogSynchronizedReadDifferential D K fuel pin0P pin0N pin1P pin1N s = none := by
  have h0' : (s.invoke .adc0 (D.checkDifferentialPins pin0P pin0N)
      (.checkDifferentialPins .adc0 pin0P pin0N)).1 = true := h0
  have h1' : ((s.invoke .adc0 (D.checkDifferentialPins pin0P pin0N)
      (.checkDifferentialPins .adc0 pin0P pin0N)).2.invoke .adc1
      (D.checkDifferentialPins pin1P pin1N)
      (.checkDifferentialPins .adc1 pin1P pin1N)).1 = true := h1
  have e : analogSynchronizedReadDifferential D K fuel pin0P pin0N pin1P pin1N s =
      match waitBoth D fuel (loopEntryDifferential D pin0P pin0N pin1P pin1N s) with
      | none => none
      | some sp =>
        some ((finishingDifferential D K
            (D.getResolution (D.checkDifferentialPins pin0P pin0N s.adc0).2).1
            (D.getResolution (D.checkDifferentialPins pin1P pin1N s.adc1).2).1
            ⟨K.ADC_ERROR_VALUE, K.ADC_ERROR_VALUE⟩ sp).1,
          restore D .adc1
            (preempt D .adc1 (preempt D .adc0
              (checkedDifferential D pin0P pin0N pin1P pin1N s)).2).1.1
            (preempt D .adc1 (preempt D .adc0
              (checkedDifferential D pin0P pin0N pin1P pin1N s)).2).1.2
            (restore D .adc0
              (preempt D .adc0 (checkedDifferential D pin0P pin0N pin1P pin1N s)).1.1
              (preempt D .adc0 (checkedDifferential D pin0P pin0N pin1P pin1N s)).1.2
              (finishingDifferential D K
                (D.getResolution (D.checkDifferentialPins pin0P pin0N s.adc0).2).1
                (D.getResolution (D.checkDifferentialPins pin1P pin1N s.adc1).2).1
                ⟨K.ADC_ERROR_VALUE, K.ADC_ERROR_VALUE⟩ sp).2)) := by
    simp only [analogSynchronizedReadDifferential, h0', h1', loopEntryDifferential,
      checkedDifferential]
    rfl
  rw [e, hw]

theorem analogSynchronizedReadDifferential_keepsBits (D : Driver σ κ) (K : Build)
    (hD : D.KeepsFlags) (fuel pin0P pin0N pin1P pin1N : Nat) (s : ADC σ κ)
    (r : Sync_result × ADC σ κ)
    (h : analogSynchronizedReadDifferential D K fuel pin0P pin0N pin1P pin1N s = some r) :
    StateKeepsBits s r.2 := by
  cases h0 : (D.checkDifferentialPins pin0P pin0N s.adc0).1
  · simp [analogSynchronizedReadDifferential, ADC.invoke, ADC.get, ADC.set, ADC.log,
      ADC.orFail, h0] at h
    subst h
    exact ⟨(hD.checkDifferentialPins _ _ _).andThen (keepsBits_orFail _ _), KeepsBits.self _⟩
  · cases h1 : (D.checkDifferentialPins pin1P pin1N s.adc1).1
    · simp [analogSynchronizedReadDifferential, ADC.invoke, ADC.get, ADC.set, ADC.log,
        ADC.orFail, h0, h1] at h
      subst h
      exact ⟨hD.checkDifferentialPins _ _ _,
        (hD.checkDifferentialPins _ _ _).andThen (keepsBits_orFail _ _)⟩
    · cases hw : waitBoth D fuel (loopEntryDifferential D pin0P pin0N pin1P pin1N s) with
      | none =>
        rw [analogSynchronizedReadDifferential_wait_none D K fuel pin0P pin0N pin1P pin1N s
          h0 h1 hw] at h
        simp at h
      | some sp =>
        rw [analogSynchronizedReadDifferential_valid D K fuel pin0P pin0N pin1P pin1N s sp
          h0 h1 hw] at h
        simp only [Option.some.injEq] at h
        subst h
        have hsp := waitBoth_keepsBits D hD fuel _ _ hw
        rw [loopEntryDifferential_eq] at hsp
        exact ⟨(((((hD.checkDifferentialPins _ _ _).andThen (hD.getResolution _)).andThen
            (keepsBits_preemptedModule D hD _)).andThen
            ((hD.singleMode _).andThen (hD.startDifferentialFast _ _ _))).andThen hsp.1).andThen
            ((keepsBits_finishedModule D K hD _).andThen (keepsBits_restoredModule D hD _ _)),
          (((((hD.checkDifferentialPins _ _ _).andThen (hD.getResolution _)).andThen
            (keepsBits_preemptedModule D hD _)).andThen
            ((hD.singleMode _).andThen (hD.startDifferentialFast _ _ _))).andThen hsp.2).andThen
            ((keepsBits_finishedModule D K hD _).andThen (keepsBits_restoredModule D hD _ _))⟩

theorem syncStarts_keepsBits (D : Driver σ κ) (K : Build) (hD : D.KeepsFlags)
    (pin0 pin1 : Nat) (s : ADC σ κ) :
    StateKeepsBits s (startSynchronizedSingleRead D K pin0 pin1 s).2
    ∧ StateKeepsBits s (startSynchronizedContinuous D K pin0 pin1 s).2 := by
  cases h0 : (D.checkPin pin0 s.adc0).1
  · constructor <;>
      simp only [startSynchronizedSingleRead, startSynchronizedContinuous, ADC.invoke, ADC.get,
        ADC.set, ADC.log, ADC.orFail, h0, Bool.not_false, if_true] <;>
      exact ⟨(hD.checkPin _ _).andThen (keepsBits_orFail _ _), KeepsBits.self _⟩
  · cases h1 : (D.checkPin pin1 s.adc1).1
    · constructor <;>
        simp only [startSynchronizedSingleRead, startSynchronizedContinuous, ADC.invoke,
          ADC.get, ADC.set, ADC.log, ADC.orFail, h0, h1, Bool.not_false, Bool.not_true,
          if_true, Bool.false_eq_true, if_false] <;>
        exact ⟨hD.checkPin _ _, (hD.checkPin _ _).andThen (keepsBits_orFail _ _)⟩
    · rw [startSynchronizedSingleRead_valid D K pin0 pin1 s h0 h1,
        startSynchronizedContinuous_valid D K pin0 pin1 s h0 h1]
      exact ⟨⟨((hD.checkPin _ _).andThen (keepsBits_preemptedStoredModule D hD _)).andThen
            ((hD.singleMode _).andThen (hD.startReadFast _ _)),
          ((hD.checkPin _ _).andThen (keepsBits_preemptedStoredModule D hD _)).andThen
            ((hD.singleMode _).andThen (hD.startReadFast _ _))⟩,
        ⟨(hD.checkPin _ _).andThen (hD.startContinuous _ _),
          (hD.checkPin _ _).andThen (hD.startContinuous _ _)⟩⟩

theorem syncStartsDifferential_keepsBits (D : Driver σ κ) (K : Build) (hD : D.KeepsFlags)
    (pin0P pin0N pin1P pin1N : Nat) (s : ADC σ κ) :
    StateKeepsBits s (startSynchronizedSingleDifferential D K pin0P pin0N pin1P pin1N s).2
    ∧ StateKeepsBits s
        (startSynchronizedContinuousDifferential D K pin0P pin0N pin1P pin1N s).2 := by
  cases h0 : (D.checkDifferentialPins pin0P pin0N s.adc0).1
  · constructor <;>
      simp only [startSynchronizedSingleDifferential, startSynchronizedContinuousDifferential,
        ADC.invoke, ADC.get, ADC.set, ADC.log, ADC.orFail, h0, Bool.not_false, if_true] <;>
      exact ⟨(hD.checkDifferentialPins _ _ _).andThen (keepsBits_orFail _ _), KeepsBits.self _⟩
  · cases h1 : (D.checkDifferentialPins pin1P pin1N s.adc1).1
    · constructor <;>
        simp only [startSynchronizedSingleDifferential,
          startSynchronizedContinuousDifferential, ADC.invoke,
          ADC.get, ADC.set, ADC.log, ADC.orFail, h0, h1, Bool.not_false, Bool.not_true,
          if_true, Bool.false_eq_true, if_false] <;>
        exact ⟨hD.checkDifferentialPins _ _ _,
          (hD.checkDifferentialPins _ _ _).andThen (keepsBits_orFail _ _)⟩
    · rw [startSynchronizedSingleDifferential_valid D K pin0P pin0N pin1P pin1N s h0 h1,
        startSynchronizedContinuousDifferential_valid D K pin0P pin0N pin1P pin1N s h0 h1]
      exact ⟨⟨((hD.checkDifferentialPins _ _ _).andThen
              (keepsBits_preemptedStoredModule D hD _)).andThen
            ((hD.singleMode _).andThen (hD.startDifferentialFast _ _ _)),
          ((hD.checkDifferentialPins _ _ _).andThen
              (keepsBits_preemptedStoredModule D hD _)).andThen
            ((hD.singleMode _).andThen (hD.startDifferentialFast _ _ _))⟩,
        ⟨(hD.checkDifferentialPins _ _ _).andThen (hD.startContinuousDifferential _ _ _),
          (hD.checkDifferentialPins _ _ _).andThen (hD.startContinuousDifferential _ _ _)⟩⟩

theorem resetError_two (D : Driver σ κ) (K : Build) (s : ADC σ κ) (hK : K.ADC_NUM_ADCS = 2) :
    resetError D K s =
      { adc0 := D.resetError s.adc0
        adc1 := D.resetError s.adc1
        trace := s.trace ++ [.resetError .adc0, .resetError .adc1] } := by
  simp [resetError, hK, List.range_succ, adcAt, ADC.run, ADC.get, ADC.set, ADC.log]

theorem resetError_one (D : Driver σ κ) (K : Build) (s : ADC σ κ) (hK : K.ADC_NUM_ADCS = 1) :
    resetError D K s =
      { adc0 := D.resetError s.adc0
        adc1 := s.adc1
        trace := s.trace ++ [.resetError .adc0] } := by
  simp [resetError, hK, List.range_succ, adcAt, ADC.run, ADC.get, ADC.set, ADC.log]

/-- C17: with a driver none of whose functions clears a bit of `fail_flag`, no
dispatch or synchronized operation clears one: for either dispatch policy
(with any check and conversion functions that clear none), for the blocking
reads whenever they return, for the four synchronized starts and for
`readSynchronizedSingle`, every bit set in `adc0->fail_flag` or
`adc1->fail_flag` before the call is set after it.  `resetError` is the call of
the driver's `resetError` on every module of the build, `adc0` and `adc1` with
two modules and `adc0` with one. -/
theorem fail_flag_accumulates (D : Driver σ κ) (K : Build) (hD : D.KeepsFlags) :
    (∀ (α ρ : Type) (ofInt : Int → ρ)
        (check_fun : α → ADC_Module σ κ → Bool × ADC_Module σ κ)
        (conversion_fun : α → ADC_Module σ κ → ρ × ADC_Module σ κ),
        (∀ a m, KeepsBits m (check_fun a m).2) →
        (∀ a m, KeepsBits m (conversion_fun a m).2) →
        ∀ (adc_num : ADC_NUM) (args : α) (s : ADC σ κ),
          StateKeepsBits s
            (workload_dispatch_policy K ofInt check_fun conversion_fun adc_num args s).2
          ∧ StateKeepsBits s
            (simple_dispatch_policy K ofInt check_fun conversion_fun adc_num args s).2)
    ∧ (∀ (fuel pin0 pin1 : Nat) (s : ADC σ κ) (r : Sync_result × ADC σ κ),
        analogSynchronizedRead D K fuel pin0 pin1 s = some r → StateKeepsBits s r.2)
    ∧ (∀ (fuel pin0P pin0N pin1P pin1N : Nat) (s : ADC σ κ) (r : Sync_result × ADC σ κ),
        analogSynchronizedReadDifferential D K fuel pin0P pin0N pin1P pin1N s = some r →
        StateKeepsBits s r.2)
    ∧ (∀ (pin0 pin1 : Nat) (s : ADC σ κ),
        StateKeepsBits s (startSynchronizedSingleRead D K pin0 pin1 s).2
        ∧ StateKeepsBits s (startSynchronizedContinuous D K pin0 pin1 s).2)
    ∧ (∀ (pin0P pin0N pin1P pin1N : Nat) (s : ADC σ κ),
        StateKeepsBits s (startSynchronizedSingleDifferential D K pin0P pin0N pin1P pin1N s).2
        ∧ StateKeepsBits s
            (startSynchronizedContinuousDifferential D K pin0P pin0N pin1P pin1N s).2)
    ∧ (∀ s : ADC σ κ, StateKeepsBits s (readSynchronizedSingle D s).2)
    ∧ (∀ s : ADC σ κ, K.ADC_NUM_ADCS = 2 →
        resetError D K s =
          { adc0 := D.resetError s.adc0
            adc1 := D.resetError s.adc1
            trace := s.trace ++ [.resetError .adc0, .resetError .adc1] })
    ∧ (∀ s : ADC σ κ, K.ADC_NUM_ADCS = 1 →
        resetError D K s =
          { adc0 := D.resetError s.adc0
            adc1 := s.adc1
            trace := s.trace ++ [.resetError .adc0] }) := by
  refine ⟨?_, ?_, ?_, ?_, ?_, ?_, ?_, ?_⟩
  · intro α ρ ofInt check_fun conversion_fun hc hv adc_num args s
    exact dispatch_keepsBits K ofInt check_fun conversion_fun hc hv adc_num args s
  · intro fuel pin0 pin1 s r h
    exact analogSynchronizedRead_keepsBits D K hD fuel pin0 pin1 s r h
  · intro fuel pin0P pin0N pin1P pin1N s r h
    exact analogSynchronizedReadDifferential_keepsBits D K hD fuel pin0P pin0N pin1P pin1N s r h
  · intro pin0 pin1 s
    exact syncStarts_keepsBits D K hD pin0 pin1 s
  · intro pin0P pin0N pin1P pin1N s
    exact syncStartsDifferential_keepsBits D K hD pin0P pin0N pin1P pin1N s
  · intro s
    rw [readSynchronizedSingle_eq]
    exact ⟨hD.readSingle _, hD.readSingle _⟩
  · intro s hK
    exact resetError_two D K s hK
  · intro s hK
    exact resetError_one D K s hK

/-- C17 at a concrete input: `adc0->fail_flag` holds `ADC_ERROR_COMPARISON` (16)
when pins (26, 26) are started, which `adc0` rejects; the flag becomes 20, the
old bit still set, and only `resetError` brings both flags back to 0. -/
theorem fail_flag_accumulates_witness :
    demoDriver.KeepsFlags
    ∧ StateKeepsBits demoFlagged
        (startSynchronizedSingleRead demoDriver demoBuild 26 26 demoFlagged).2
    ∧ (startSynchronizedSingleRead demoDriver demoBuild 26 26 demoFlagged).2.adc0.fail_flag = 20
    ∧ (resetError demoDriver demoBuild
        (startSynchronizedSingleRead demoDriver demoBuild 26 26 demoFlagged).2).adc0.fail_flag
      = 0 :=
  ⟨demoDriver_keepsFlags,
    ((fail_flag_accumulates demoDriver demoBuild demoDriver_keepsFlags).2.2.2.1 26 26
      demoFlagged).1,
    by decide, by decide⟩

end Flags

/-! ## The order of the steps of the synchronized operations -/

section Order

variable {σ κ : Type}

/-- The steps of a whole `analogSynchronizedRead` with valid pins, in order. -/
theorem analogSynchronizedRead_trace (D : Driver σ κ) (K : Build) (fuel pin0 pin1 : Nat)
    (s sp : ADC σ κ)
    (h0 : (D.checkPin pin0 s.adc0).1 = true) (h1 : (D.checkPin pin1 s.adc1).1 = true)
    (hw : waitBoth D fuel (loopEntryRead D pin0 pin1 s) = some sp) :
    ∃ r pollEvs, analogSynchronizedRead D K fuel pin0 pin1 s = some r
      ∧ (∀ e ∈ pollEvs, Event.isPoll e = true)
      ∧ r.2.trace = s.trace ++ ([.checkPin .adc0 pin0, .checkPin .adc1 pin1]
          ++ preemptEvents D .adc0 (D.checkPin pin0 s.adc0).2
          ++ preemptEvents D .adc1 (D.checkPin pin1 s.adc1).2
          ++ [.singleMode .adc0, .singleMode .adc1,
              .startReadFast .adc0 pin0, .startReadFast .adc1 pin1]
          ++ pollEvs ++ [.disable_irq] ++ finishedEvents D .adc0 sp.adc0
          ++ finishedEvents D .adc1 sp.adc1 ++ [.enable_irq]
          ++ restoreEvents D .adc0 (D.checkPin pin0 s.adc0).2
          ++ restoreEvents D .adc1 (D.checkPin pin1 s.adc1).2) := by
  obtain ⟨pollEvs, hpe, hpoll⟩ := waitBoth_trace D fuel _ _ hw
  rw [loopEntryRead_eq] at hpe
  simp only at hpe
  exact ⟨_, pollEvs, analogSynchronizedRead_valid D K fuel pin0 pin1 s sp h0 h1 hw, hpoll,
    by simp [hpe, List.append_assoc]⟩

/-- The steps of a whole `analogSynchronizedReadDifferential` with valid pins,
in order. -/
theorem analogSynchronizedReadDifferential_trace (D : Driver σ κ) (K : Build)
    (fuel pin0P pin0N pin1P pin1N : Nat) (s sp : ADC σ κ)
    (h0 : (D.checkDifferentialPins pin0P pin0N s.adc0).1 = true)
    (h1 : (D.checkDifferentialPins pin1P pin1N s.adc1).1 = true)
    (hw : waitBoth D fuel (loopEntryDifferential D pin0P pin0N pin1P pin1N s) = some sp) :
    ∃ r pollEvs, analogSynchronizedReadDifferential D K fuel pin0P pin0N pin1P pin1N s = some r
      ∧ (∀ e ∈ pollEvs, Event.isPoll e = true)
      ∧ r.2.trace = s.trace ++ ([.checkDifferentialPins .adc0 pin0P pin0N,
              .checkDifferentialPins .adc1 pin1P pin1N,
              .getResolution .adc0, .getResolution .adc1]
          ++ preemptEvents D .adc0
              (D.getResolution (D.checkDifferentialPins pin0P pin0N s.adc0).2).2
          ++ preemptEvents D .adc1
              (D.getResolution (D.checkDifferentialPins pin1P pin1N s.adc1).2).2
          ++ [.singleMode .adc0, .singleMode .adc1,
              .startDifferentialFast .adc0 pin0P pin0N,
              .startDifferentialFast .adc1 pin1P pin1N]
          ++ pollEvs ++ [.disable_irq] ++ finishedEvents D .adc0 sp.adc0
          ++ finishedEvents D .adc1 sp.adc1 ++ [.enable_irq]
          ++ restoreEvents D .adc0
              (D.getResolution (D.checkDifferentialPins pin0P pin0N s.adc0).2).2
          ++ restoreEvents D .adc1
              (D.getResolution (D.checkDifferentialPins pin1P pin1N s.adc1).2).2) := by
  obtain ⟨pollEvs, hpe, hpoll⟩ := waitBoth_trace D fuel _ _ hw
  rw [loopEntryDifferential_eq] at hpe
  simp only at hpe
  exact ⟨_, pollEvs,
    analogSynchronizedReadDifferential_valid D K fuel pin0P pin0N pin1P pin1N s sp h0 h1 hw,
    hpoll, by simp [hpe, List.append_assoc]⟩

/-- C19, the code at a concrete input: `adc0` is converting when the operations
are issued.  `startSynchronizedContinuous(14, 26)` makes no preempt and no
restore (no `isConverting`, `saveConfig` or `loadConfig` is among its steps),
and `startSynchronizedSingleRead(14, 26)` makes the two preempts but ends with
the two starts, with no restore. -/
theorem sync_bracketing_fails :
    (demoDriver.isConverting (demoADC 3 true true 10 10).adc0).1 = true
    ∧ (startSynchronizedContinuous demoDriver demoBuild 14 26 (demoADC 3 true true 10 10)).2.trace
      = [.checkPin .adc0 14, .checkPin .adc1 26, .startContinuous .adc0 14,
          .startContinuous .adc1 26, .readSC1A .adc0, .writeSC1A .adc0 31, .readSC1A .adc1,
          .writeSC1A .adc1 31, .disable_irq, .writeSC1A .adc0 14, .writeSC1A .adc1 26,
          .enable_irq]
    ∧ (startSynchronizedSingleRead demoDriver demoBuild 14 26 (demoADC 3 true true 10 10)).2.trace
      = [.checkPin .adc0 14, .checkPin .adc1 26, .isConverting .adc0, .disable_irq,
          .saveConfig .adc0 (7, 2), .enable_irq, .isConverting .adc1, .singleMode .adc0,
          .singleMode .adc1, .startReadFast .adc0 14, .startReadFast .adc1 26] := by
  refine ⟨?_, ?_, ?_⟩ <;> decide

/-- C19 as amended: the blocking synchronized reads are bracketed by the
preemption protocol: after the pin checks come the preempt of `adc0` and the
preempt of `adc1`, then the two `singleMode` and the two starts, the polls and
the finishing step, and last the restore of `adc0` and then the restore of
`adc1`.  The non-blocking single starts make the same two preempts (with the
snapshot kept in the module) before the two `singleMode` and the two starts,
and end there, without a restore.  The continuous starts make neither: after
the pin checks they call the driver's continuous start on `adc0` and on `adc1`
and rewrite the two `SC1A` registers. -/
theorem sync_bracketing (D : Driver σ κ) (K : Build) (s : ADC σ κ) :
    (∀ (fuel pin0 pin1 : Nat) (sp : ADC σ κ),
      (D.checkPin pin0 s.adc0).1 = true → (D.checkPin pin1 s.adc1).1 = true →
      waitBoth D fuel (loopEntryRead D pin0 pin1 s) = some sp →
      ∃ r pollEvs, analogSynchronizedRead D K fuel pin0 pin1 s = some r
        ∧ (∀ e ∈ pollEvs, Event.isPoll e = true)
        ∧ r.2.trace = s.trace ++ ([.checkPin .adc0 pin0, .checkPin .adc1 pin1]
            ++ preemptEvents D .adc0 (D.checkPin pin0 s.adc0).2
            ++ preemptEvents D .adc1 (D.checkPin pin1 s.adc1).2
            ++ [.singleMode .adc0, .singleMode .adc1,
                .startReadFast .adc0 pin0, .startReadFast .adc1 pin1]
            ++ pollEvs ++ [.disable_irq] ++ finishedEvents D .adc0 sp.adc0
            ++ finishedEvents D .adc1 sp.adc1 ++ [.enable_irq]
            ++ restoreEvents D .adc0 (D.checkPin pin0 s.adc0).2
            ++ restoreEvents D .adc1 (D.checkPin pin1 s.adc1).2))
    ∧ (∀ (fuel pin0P pin0N pin1P pin1N : Nat) (sp : ADC σ κ),
      (D.checkDifferentialPins pin0P pin0N s.adc0).1 = true →
      (D.checkDifferentialPins pin1P pin1N s.adc1).1 = true →
      waitBoth D fuel (loopEntryDifferential D pin0P pin0N pin1P pin1N s) = some sp →
      ∃ r pollEvs,
        analogSynchronizedReadDifferential D K fuel pin0P pin0N pin1P pin1N s = some r
        ∧ (∀ e ∈ pollEvs, Event.isPoll e = true)
        ∧ r.2.trace = s.trace ++ ([.checkDifferentialPins .adc0 pin0P pin0N,
                .checkDifferentialPins .adc1 pin1P pin1N,
                .getResolution .adc0, .getResolution .adc1]
            ++ preemptEvents D .adc0
                (D.getResolution (D.checkDifferentialPins pin0P pin0N s.adc0).2).2
            ++ preemptEvents D .adc1
                (D.getResolution (D.checkDifferentialPins pin1P pin1N s.adc1).2).2
            ++ [.singleMode .adc0, .singleMode .adc1,
                .startDifferentialFast .adc0 pin0P pin0N,
                .startDifferentialFast .adc1 pin1P pin1N]
            ++ pollEvs ++ [.disable_irq] ++ finishedEvents D .adc0 sp.adc0
            ++ finishedEvents D .adc1 sp.adc1 ++ [.enable_irq]
            ++ restoreEvents D .adc0
                (D.getResolution (D.checkDifferentialPins pin0P pin0N s.adc0).2).2
            ++ restoreEvents D .adc1
                (D.getResolution (D.checkDifferentialPins pin1P pin1N s.adc1).2).2))
    ∧ (∀ pin0 pin1 : Nat,
      (D.checkPin pin0 s.adc0).1 = true → (D.checkPin pin1 s.adc1).1 = true →
      (startSynchronizedSingleRead D K pin0 pin1 s).2.trace
        = s.trace ++ [.checkPin .adc0 pin0, .checkPin .adc1 pin1]
          ++ preemptStoredEvents D .adc0 (D.checkPin pin0 s.adc0).2
          ++ preemptStoredEvents D .adc1 (D.checkPin pin1 s.adc1).2
          ++ [.singleMode .adc0, .singleMode .adc1,
              .startReadFast .adc0 pin0, .startReadFast .adc1 pin1]
      ∧ (startSynchronizedContinuous D K pin0 pin1 s).2.trace
        = s.trace ++ [.checkPin .adc0 pin0, .checkPin .adc1 pin1,
            .startContinuous .adc0 pin0, .startContinuous .adc1 pin1]
          ++ alignEvents (D.startContinuous pin0 (D.checkPin pin0 s.adc0).2).2.SC1A
              (D.startContinuous pin1 (D.checkPin pin1 s.adc1).2).2.SC1A)
    ∧ (∀ pin0P pin0N pin1P pin1N : Nat,
      (D.checkDifferentialPins pin0P pin0N s.adc0).1 = true →
      (D.checkDifferentialPins pin1P pin1N s.adc1).1 = true →
      (startSynchronizedSingleDifferential D K pin0P pin0N pin1P pin1N s).2.trace
        = s.trace ++ [.checkDifferentialPins .adc0 pin0P pin0N,
            .checkDifferentialPins .adc1 pin1P pin1N]
          ++ preemptStoredEvents D .adc0 (D.checkDifferentialPins pin0P pin0N s.adc0).2
          ++ preemptStoredEvents D .adc1 (D.checkDifferentialPins pin1P pin1N s.adc1).2
          ++ [.singleMode .adc0, .singleMode .adc1,
              .startDifferentialFast .adc0 pin0P pin0N,
              .startDifferentialFast .adc1 pin1P pin1N]
      ∧ (startSynchronizedContinuousDifferential D K pin0P pin0N pin1P pin1N s).2.trace
        = s.trace ++ [.checkDifferentialPins .adc0 pin0P pin0N,
            .checkDifferentialPins .adc1 pin1P pin1N,
            .startContinuousDifferential .adc0 pin0P pin0N,
            .startContinuousDifferential .adc1 pin1P pin1N]
          ++ alignEvents
              (D.startContinuousDifferential pin0P pin0N
                (D.checkDifferentialPins pin0P pin0N s.adc0).2).2.SC1A
              (D.startContinuousDifferential pin1P pin1N
                (D.checkDifferentialPins pin1P pin1N s.adc1).2).2.SC1A)
    ∧ (∀ (w : Which) (m : ADC_Module σ κ),
      ((D.isConverting m).1 = true →
        preemptEvents D w m
          = [.isConverting w, .disable_irq, .saveConfig w (snapshot D m), .enable_irq]
        ∧ preemptStoredEvents D w m
          = [.isConverting w, .disable_irq, .saveConfig w (storedSnapshot D m), .enable_irq]
        ∧ restoreEvents D w m = [.loadConfig w (snapshot D m)])
      ∧ ((D.isConverting m).1 = false →
        preemptEvents D w m = [.isConverting w]
        ∧ preemptStoredEvents D w m = [.isConverting w]
        ∧ restoreEvents D w m = []))
    ∧ (∀ v0 v1 : Nat, (alignEvents v0 v1 : List (Event κ))
        = [.readSC1A .adc0, .writeSC1A .adc0 31, .readSC1A .adc1, .writeSC1A .adc1 31,
            .disable_irq, .writeSC1A .adc0 v0, .writeSC1A .adc1 v1, .enable_irq]) := by
  refine ⟨?_, ?_, ?_, ?_, ?_, fun _ _ => rfl⟩
  · intro fuel pin0 pin1 sp h0 h1 hw
    exact analogSynchronizedRead_trace D K fuel pin0 pin1 s sp h0 h1 hw
  · intro fuel pin0P pin0N pin1P pin1N sp h0 h1 hw
    exact analogSynchronizedReadDifferential_trace D K fuel pin0P pin0N pin1P pin1N s sp
      h0 h1 hw
  · intro pin0 pin1 h0 h1
    rw [startSynchronizedSingleRead_valid D K pin0 pin1 s h0 h1,
      startSynchronizedContinuous_valid D K pin0 pin1 s h0 h1]
    exact ⟨rfl, rfl⟩
  · intro pin0P pin0N pin1P pin1N h0 h1
    rw [startSynchronizedSingleDifferential_valid D K pin0P pin0N pin1P pin1N s h0 h1,
      startSynchronizedContinuousDifferential_valid D K pin0P pin0N pin1P pin1N s h0 h1]
    exact ⟨rfl, rfl⟩
  · intro w m
    constructor <;> intro h <;>
      simp [preemptEvents, preemptStoredEvents, restoreEvents, wasInUse, h]

/-- C19 as amended, at a concrete input: `adc0` is converting (mode 7) when
`analogSynchronizedRead(14, 26)` is issued; its steps are the checks, the
preempt of `adc0` (with `saveConfig`) and of `adc1` (without), the two
`singleMode`, the two starts, the polls, the finishing step and the restore of
`adc0`. -/
theorem sync_bracketing_witness :
    (demoDriver.checkPin 14 (demoADC 3 true true 10 10).adc0).1 = true
    ∧ (demoDriver.checkPin 26 (demoADC 3 true true 10 10).adc1).1 = true
    ∧ waitBoth demoDriver 3 (loopEntryRead demoDriver 14 26 (demoADC 3 true true 10 10))
        = some (demoWaited true true 10 10 15 27
            ([.checkPin .adc0 14, .checkPin .adc1 26, .isConverting .adc0, .disable_irq,
              .saveConfig .adc0 (7, 2), .enable_irq, .isConverting .adc1,
              .singleMode .adc0, .singleMode .adc1,
              .startReadFast .adc0 14, .startReadFast .adc1 26] ++ demoPolls))
    ∧ ∃ r pollEvs, analogSynchronizedRead demoDriver demoBuild 3 14 26
          (demoADC 3 true true 10 10) = some r
        ∧ (∀ e ∈ pollEvs, Event.isPoll e = true)
        ∧ r.2.trace = [.checkPin .adc0 14, .checkPin .adc1 26]
            ++ [.isConverting .adc0, .disable_irq, .saveConfig .adc0 (7, 2), .enable_irq]
            ++ [.isConverting .adc1]
            ++ [.singleMode .adc0, .singleMode .adc1,
                .startReadFast .adc0 14, .startReadFast .adc1 26]
            ++ pollEvs ++ [.disable_irq] ++ [.isComplete .adc0, .readSingle .adc0]
            ++ [.isComplete .adc1, .readSingle .adc1] ++ [.enable_irq]
            ++ [.loadConfig .adc0 (7, 2)] ++ [] :=
  ⟨by decide, by decide, by decide,
    (sync_bracketing demoDriver demoBuild (demoADC 3 true true 10 10)).1 3 14 26
      (demoWaited true true 10 10 15 27
        ([.checkPin .adc0 14, .checkPin .adc1 26, .isConverting .adc0, .disable_irq,
          .saveConfig .adc0 (7, 2), .enable_irq, .isConverting .adc1,
          .singleMode .adc0, .singleMode .adc1,
          .startReadFast .adc0 14, .startReadFast .adc1 26] ++ demoPolls))
      (by decide) (by decide) (by decide)⟩

/-- C20: in the blocking reads and in the non-blocking single starts with valid
pins, the steps after the pin checks begin with the preempt of `adc0` and the
preempt of `adc1`.  The preempt of a module on which `isConverting` answered
true is `isConverting`, `__disable_irq`, `saveConfig`, `__enable_irq`, the
`saveConfig` alone between the two; the preempt of a module on which it
answered false is the `isConverting` alone, with no `saveConfig` and no
masking.  No other step of the call is a `saveConfig`, so over the call
`saveConfig` runs on a module once if `isConverting` answered true on it and
not at all otherwise. -/
theorem preempt_step (D : Driver σ κ) (K : Build) (s : ADC σ κ) :
    (∀ (w : Which) (m : ADC_Module σ κ),
      ((D.isConverting m).1 = true →
        preemptEvents D w m
          = [.isConverting w, .disable_irq, .saveConfig w (snapshot D m), .enable_irq]
        ∧ preemptStoredEvents D w m
          = [.isConverting w, .disable_irq, .saveConfig w (storedSnapshot D m), .enable_irq])
      ∧ ((D.isConverting m).1 = false →
        preemptEvents D w m = [.isConverting w]
        ∧ preemptStoredEvents D w m = [.isConverting w]))
    ∧ (∀ (fuel pin0 pin1 : Nat) (sp : ADC σ κ),
      (D.checkPin pin0 s.adc0).1 = true → (D.checkPin pin1 s.adc1).1 = true →
      waitBoth D fuel (loopEntryRead D pin0 pin1 s) = some sp →
      ∃ r evs rest, analogSynchronizedRead D K fuel pin0 pin1 s = some r
        ∧ r.2.trace = s.trace ++ evs
        ∧ evs = [.checkPin .adc0 pin0, .checkPin .adc1 pin1]
            ++ preemptEvents D .adc0 (D.checkPin pin0 s.adc0).2
            ++ preemptEvents D .adc1 (D.checkPin pin1 s.adc1).2 ++ rest
        ∧ (∀ w, savedSnapshots w rest = [])
        ∧ savedSnapshots .adc0 evs
            = (if (D.isConverting (D.checkPin pin0 s.adc0).2).1 = true
                then [snapshot D (D.checkPin pin0 s.adc0).2] else [])
        ∧ savedSnapshots .adc1 evs
            = (if (D.isConverting (D.checkPin pin1 s.adc1).2).1 = true
                then [snapshot D (D.checkPin pin1 s.adc1).2] else []))
    ∧ (∀ (fuel pin0P pin0N pin1P pin1N : Nat) (sp : ADC σ κ),
      (D.checkDifferentialPins pin0P pin0N s.adc0).1 = true →
      (D.checkDifferentialPins pin1P pin1N s.adc1).1 = true →
      waitBoth D fuel (loopEntryDifferential D pin0P pin0N pin1P pin1N s) = some sp →
      ∃ r evs rest,
        analogSynchronizedReadDifferential D K fuel pin0P pin0N pin1P pin1N s = some r
        ∧ r.2.trace = s.trace ++ evs
        ∧ evs = [.checkDifferentialPins .adc0 pin0P pin0N,
                .checkDifferentialPins .adc1 pin1P pin1N,
                .getResolution .adc0, .getResolution .adc1]
            ++ preemptEvents D .adc0
                (D.getResolution (D.checkDifferentialPins pin0P pin0N s.adc0).2).2
            ++ preemptEvents D .adc1
                (D.getResolution (D.checkDifferentialPins pin1P pin1N s.adc1).2).2 ++ rest
        ∧ (∀ w, savedSnapshots w rest = [])
        ∧ savedSnapshots .adc0 evs
            = (if (D.isConverting
                  (D.getResolution (D.checkDifferentialPins pin0P pin0N s.adc0).2).2).1 = true
                then [snapshot D
                  (D.getResolution (D.checkDifferentialPins pin0P pin0N s.adc0).2).2] else [])
        ∧ savedSnapshots .adc1 evs
            = (if (D.isConverting
                  (D.getResolution (D.checkDifferentialPins pin1P pin1N s.adc1).2).2).1 = true
                then [snapshot D
                  (D.getResolution (D.checkDifferentialPins pin1P pin1N s.adc1).2).2] else []))
    ∧ (∀ pin0 pin1 : Nat,
      (D.checkPin pin0 s.adc0).1 = true → (D.checkPin pin1 s.adc1).1 = true →
      ∃ evs rest, (startSynchronizedSingleRead D K pin0 pin1 s).2.trace = s.trace ++ evs
        ∧ evs = [.checkPin .adc0 pin0, .checkPin .adc1 pin1]
            ++ preemptStoredEvents D .adc0 (D.checkPin pin0 s.adc0).2
            ++ preemptStoredEvents D .adc1 (D.checkPin pin1 s.adc1).2 ++ rest
        ∧ (∀ w, savedSnapshots w rest = [])
        ∧ savedSnapshots .adc0 evs
            = (if (D.isConverting (D.checkPin pin0 s.adc0).2).1 = true
                then [storedSnapshot D (D.checkPin pin0 s.adc0).2] else [])
        ∧ savedSnapshots .adc1 evs
            = (if (D.isConverting (D.checkPin pin1 s.adc1).2).1 = true
                then [storedSnapshot D (D.checkPin pin1 s.adc1).2] else []))
    ∧ (∀ pin0P pin0N pin1P pin1N : Nat,
      (D.checkDifferentialPins pin0P pin0N s.adc0).1 = true →
      (D.checkDifferentialPins pin1P pin1N s.adc1).1 = true →
      ∃ evs rest,
        (startSynchronizedSingleDifferential D K pin0P pin0N pin1P pin1N s).2.trace
          = s.trace ++ evs
        ∧ evs = [.checkDifferentialPins .adc0 pin0P pin0N,
                .checkDifferentialPins .adc1 pin1P pin1N]
            ++ preemptStoredEvents D .adc0 (D.checkDifferentialPins pin0P pin0N s.adc0).2
            ++ preemptStoredEvents D .adc1 (D.checkDifferentialPins pin1P pin1N s.adc1).2
            ++ rest
        ∧ (∀ w, savedSnapshots w rest = [])
        ∧ savedSnapshots .adc0 evs
            = (if (D.isConverting (D.checkDifferentialPins pin0P pin0N s.adc0).2).1 = true
                then [storedSnapshot D (D.checkDifferentialPins pin0P pin0N s.adc0).2]
                else [])
        ∧ savedSnapshots .adc1 evs
            = (if (D.isConverting (D.checkDifferentialPins pin1P pin1N s.adc1).2).1 = true
                then [storedSnapshot D (D.checkDifferentialPins pin1P pin1N s.adc1).2]
                else [])) := by
  have d1 : ∀ w (l : List (Event κ)),
      savedSnapshots w (.disable_irq :: l) = savedSnapshots w l := fun _ _ => rfl
  have e1 : ∀ w (l : List (Event κ)),
      savedSnapshots w (.enable_irq :: l) = savedSnapshots w l := fun _ _ => rfl
  have c1 : ∀ w x (l : List (Event κ)),
      savedSnapshots w (.singleMode x :: l) = savedSnapshots w l := fun _ _ _ => rfl
  have c2 : ∀ w x p (l : List (Event κ)),
      savedSnapshots w (.startReadFast x p :: l) = savedSnapshots w l := fun _ _ _ _ => rfl
  have c3 : ∀ w x p n (l : List (Event κ)),
      savedSnapshots w (.startDifferentialFast x p n :: l) = savedSnapshots w l :=
    fun _ _ _ _ _ => rfl
  refine ⟨?_, ?_, ?_, ?_, ?_⟩
  · intro w m
    constructor <;> intro h <;> simp [preemptEvents, preemptStoredEvents, wasInUse, h]
  · intro fuel pin0 pin1 sp h0 h1 hw
    obtain ⟨r, pollEvs, he, hpoll, ht⟩ :=
      analogSynchronizedRead_trace D K fuel pin0 pin1 s sp h0 h1 hw
    obtain ⟨hs0, _, hs1, _⟩ := snapshots_of_run D (D.checkPin pin0 s.adc0).2
      (D.checkPin pin1 s.adc1).2 sp.adc0 sp.adc1
      [.checkPin .adc0 pin0, .checkPin .adc1 pin1]
      [.singleMode .adc0, .singleMode .adc1, .startReadFast .adc0 pin0,
        .startReadFast .adc1 pin1]
      pollEvs (fun _ => ⟨rfl, rfl⟩) (fun _ => ⟨rfl, rfl⟩) hpoll _ rfl
    have b1 : ∀ w, savedSnapshots w ([.singleMode .adc0, .singleMode .adc1,
        .startReadFast .adc0 pin0, .startReadFast .adc1 pin1] : List (Event κ)) = [] :=
      fun _ => rfl
    refine ⟨r, _, [.singleMode .adc0, .singleMode .adc1, .startReadFast .adc0 pin0,
        .startReadFast .adc1 pin1] ++ pollEvs ++ [.disable_irq]
        ++ finishedEvents D .adc0 sp.adc0 ++ finishedEvents D .adc1 sp.adc1 ++ [.enable_irq]
        ++ restoreEvents D .adc0 (D.checkPin pin0 s.adc0).2
        ++ restoreEvents D .adc1 (D.checkPin pin1 s.adc1).2, he, ht, ?_, ?_, hs0, hs1⟩
    · simp [List.append_assoc]
    · intro w
      simp [savedSnapshots_append, savedSnapshots_finishedEvents,
        savedSnapshots_restoreEvents, savedSnapshots_poll _ _ hpoll, b1, d1, e1, c1, c2, c3]
  · intro fuel pin0P pin0N pin1P pin1N sp h0 h1 hw
    obtain ⟨r, pollEvs, he, hpoll, ht⟩ :=
      analogSynchronizedReadDifferential_trace D K fuel pin0P pin0N pin1P pin1N s sp h0 h1 hw
    obtain ⟨hs0, _, hs1, _⟩ := snapshots_of_run D
      (D.getResolution (D.checkDifferentialPins pin0P pin0N s.adc0).2).2
      (D.getResolution (D.checkDifferentialPins pin1P pin1N s.adc1).2).2 sp.adc0 sp.adc1
      [.checkDifferentialPins .adc0 pin0P pin0N, .checkDifferentialPins .adc1 pin1P pin1N,
        .getResolution .adc0, .getResolution .adc1]
      [.singleMode .adc0, .singleMode .adc1, .startDifferentialFast .adc0 pin0P pin0N,
        .startDifferentialFast .adc1 pin1P pin1N]
      pollEvs (fun _ => ⟨rfl, rfl⟩) (fun _ => ⟨rfl, rfl⟩) hpoll _ rfl
    have b1 : ∀ w, savedSnapshots w ([.singleMode .adc0, .singleMode .adc1,
        .startDifferentialFast .adc0 pin0P pin0N,
        .startDifferentialFast .adc1 pin1P pin1N] : List (Event κ)) = [] :=
      fun _ => rfl
    refine ⟨r, _, [.singleMode .adc0, .singleMode .adc1,
        .startDifferentialFast .adc0 pin0P pin0N, .startDifferentialFast .adc1 pin1P pin1N]
        ++ pollEvs ++ [.disable_irq]
        ++ finishedEvents D .adc0 sp.adc0 ++ finishedEvents D .adc1 sp.adc1 ++ [.enable_irq]
        ++ restoreEvents D .adc0
            (D.getResolution (D.checkDifferentialPins pin0P pin0N s.adc0).2).2
        ++ restoreEvents D .adc1
            (D.getResolution (D.checkDifferentialPins pin1P pin1N s.adc1).2).2,
      he, ht, ?_, ?_, hs0, hs1⟩
    · simp [List.append_assoc]
    · intro w
      simp [savedSnapshots_append, savedSnapshots_finishedEvents,
        savedSnapshots_restoreEvents, savedSnapshots_poll _ _ hpoll, b1, d1, e1, c1, c2, c3]
  · intro pin0 pin1 h0 h1
    rw [startSynchronizedSingleRead_valid D K pin0 pin1 s h0 h1]
    have a1 : ∀ w, savedSnapshots w ([.checkPin .adc0 pin0, .checkPin .adc1 pin1] :
        List (Event κ)) = [] := fun _ => rfl
    have b1 : ∀ w, savedSnapshots w ([.singleMode .adc0, .singleMode .adc1,
        .startReadFast .adc0 pin0, .startReadFast .adc1 pin1] : List (Event κ)) = [] :=
      fun _ => rfl
    refine ⟨_, [.singleMode .adc0, .singleMode .adc1, .startReadFast .adc0 pin0,
        .startReadFast .adc1 pin1], ?_, rfl, b1, ?_, ?_⟩
    · simp [List.append_assoc]
    · simp only [savedSnapshots_append, savedSnapshots_preemptStoredEvents, a1, b1, wasInUse]
      simp
    · simp only [savedSnapshots_append, savedSnapshots_preemptStoredEvents, a1, b1, wasInUse]
      simp
  · intro pin0P pin0N pin1P pin1N h0 h1
    rw [startSynchronizedSingleDifferential_valid D K pin0P pin0N pin1P pin1N s h0 h1]
    have a1 : ∀ w, savedSnapshots w ([.checkDifferentialPins .adc0 pin0P pin0N,
        .checkDifferentialPins .adc1 pin1P pin1N] : List (Event κ)) = [] := fun _ => rfl
    have b1 : ∀ w, savedSnapshots w ([.singleMode .adc0, .singleMode .adc1,
        .startDifferentialFast .adc0 pin0P pin0N,
        .startDifferentialFast .adc1 pin1P pin1N] : List (Event κ)) = [] :=
      fun _ => rfl
    refine ⟨_, [.singleMode .adc0, .singleMode .adc1,
        .startDifferentialFast .adc0 pin0P pin0N,
        .startDifferentialFast .adc1 pin1P pin1N], ?_, rfl, b1, ?_, ?_⟩
    · simp [List.append_assoc]
    · simp only [savedSnapshots_append, savedSnapshots_preemptStoredEvents, a1, b1, wasInUse]
      simp
    · simp only [savedSnapshots_append, savedSnapshots_preemptStoredEvents, a1, b1, wasInUse]
      simp

/-- C20 at a concrete input: `adc0` is converting (mode 7) and `adc1` is idle
when `analogSynchronizedReadDifferential(14, 15, 26, 27)` is issued; the
preempt of `adc0` is `isConverting`, `__disable_irq`, `saveConfig`,
`__enable_irq`, the preempt of `adc1` is `isConverting` alone, and over the
call `saveConfig` runs once on `adc0` and never on `adc1`. -/
theorem preempt_step_witness :
    (demoDriver.checkDifferentialPins 14 15 (demoADC 3 true true 10 10).adc0).1 = true
    ∧ (demoDriver.checkDifferentialPins 26 27 (demoADC 3 true true 10 10).adc1).1 = true
    ∧ waitBoth demoDriver 3
        (loopEntryDifferential demoDriver 14 15 26 27 (demoADC 3 true true 10 10))
        = some (demoWaited true true 10 10 1415 2627
            ([.checkDifferentialPins .adc0 14 15, .checkDifferentialPins .adc1 26 27,
              .getResolution .adc0, .getResolution .adc1, .isConverting .adc0, .disable_irq,
              .saveConfig .adc0 (7, 2), .enable_irq, .isConverting .adc1,
              .singleMode .adc0, .singleMode .adc1,
              .startDifferentialFast .adc0 14 15, .startDifferentialFast .adc1 26 27]
              ++ demoPolls))
    ∧ ∃ r evs rest, analogSynchronizedReadDifferential demoDriver demoBuild 3 14 15 26 27
          (demoADC 3 true true 10 10) = some r
        ∧ r.2.trace = [] ++ evs
        ∧ evs = [.checkDifferentialPins .adc0 14 15, .checkDifferentialPins .adc1 26 27,
                .getResolution .adc0, .getResolution .adc1]
            ++ [.isConverting .adc0, .disable_irq, .saveConfig .adc0 (7, 2), .enable_irq]
            ++ [.isConverting .adc1] ++ rest
        ∧ (∀ w, savedSnapshots w rest = [])
        ∧ savedSnapshots .adc0 evs = [(7, 2)]
        ∧ savedSnapshots .adc1 evs = [] :=
  ⟨by decide, by decide, by decide,
    (preempt_step demoDriver demoBuild (demoADC 3 true true 10 10)).2.2.1 3 14 15 26 27
      (demoWaited true true 10 10 1415 2627
        ([.checkDifferentialPins .adc0 14 15, .checkDifferentialPins .adc1 26 27,
          .getResolution .adc0, .getResolution .adc1, .isConverting .adc0, .disable_irq,
          .saveConfig .adc0 (7, 2), .enable_irq, .isConverting .adc1,
          .singleMode .adc0, .singleMode .adc1,
          .startDifferentialFast .adc0 14 15, .startDifferentialFast .adc1 26 27]
          ++ demoPolls))
      (by decide) (by decide) (by decide)⟩

end Order

/-! ## Single-module builds -/

section SingleBuild

variable {σ κ : Type}

/-- C14: in a build with `ADC_NUM_ADCS == 1`, for every pin and every value of
`adc_num`, each dispatched operation is the one call of the module function
on `adc0`: it returns that call's value, `adc0` is as that call leaves it (no
write to `fail_flag` by the dispatch layer), `adc1` is untouched, and the trace
gains that call and no check. -/
theorem single_build_dispatch (D : Driver σ κ) (K : Build) (adc_num : ADC_NUM)
    (s : ADC σ κ) (hK : K.ADC_NUM_ADCS = 1) :
    (∀ pin : Nat,
      analogRead D K pin adc_num s =
          ((D.analogRead pin s.adc0).1,
            { adc0 := (D.analogRead pin s.adc0).2, adc1 := s.adc1
              trace := s.trace ++ [.conversion_fun .adc0] })
      ∧ startSingleRead D K pin adc_num s =
          ((D.startSingleRead pin s.adc0).1,
            { adc0 := (D.startSingleRead pin s.adc0).2, adc1 := s.adc1
              trace := s.trace ++ [.conversion_fun .adc0] })
      ∧ startContinuous D K pin adc_num s =
          ((D.startContinuous pin s.adc0).1,
            { adc0 := (D.startContinuous pin s.adc0).2, adc1 := s.adc1
              trace := s.trace ++ [.conversion_fun .adc0] }))
    ∧ (∀ pinP pinN : Nat,
      analogReadDifferential D K pinP pinN adc_num s =
          ((D.analogReadDifferential pinP pinN s.adc0).1,
            { adc0 := (D.analogReadDifferential pinP pinN s.adc0).2, adc1 := s.adc1
              trace := s.trace ++ [.conversion_fun .adc0] })
      ∧ startSingleDifferential D K pinP pinN adc_num s =
          ((D.startSingleDifferential pinP pinN s.adc0).1,
            { adc0 := (D.startSingleDifferential pinP pinN s.adc0).2, adc1 := s.adc1
              trace := s.trace ++ [.conversion_fun .adc0] })
      ∧ startContinuousDifferential D K pinP pinN adc_num s =
          ((D.startContinuousDifferential pinP pinN s.adc0).1,
            { adc0 := (D.startContinuousDifferential pinP pinN s.adc0).2, adc1 := s.adc1
              trace := s.trace ++ [.conversion_fun .adc0] }))
    ∧ (∀ (α ρ : Type) (ofInt : Int → ρ)
        (check_fun : α → ADC_Module σ κ → Bool × ADC_Module σ κ)
        (conversion_fun : α → ADC_Module σ κ → ρ × ADC_Module σ κ) (args : α),
      workload_dispatch_policy K ofInt check_fun conversion_fun adc_num args s =
          ((conversion_fun args s.adc0).1,
            { adc0 := (conversion_fun args s.adc0).2, adc1 := s.adc1
              trace := s.trace ++ [.conversion_fun .adc0] })) := by
  refine ⟨fun pin => ⟨?_, ?_, ?_⟩, fun pinP pinN => ⟨?_, ?_, ?_⟩, ?_⟩ <;>
    simp [analogRead, startSingleRead, startContinuous, analogReadDifferential,
      startSingleDifferential, startContinuousDifferential, workload_dispatch_policy, hK,
      ADC.invoke, ADC.get, ADC.set, ADC.log]

/-- C14 at a concrete input: in the single-module build a conversion is started
on pin 26, which `adc0` does not read, with `adc_num == ANY`; it starts on
`adc0`, unchecked. -/
theorem single_build_dispatch_witness :
    demoBuildSingle.ADC_NUM_ADCS = 1
    ∧ (demoDriver.checkPin 26 (demoADC 0 true true 10 10).adc0).1 = false
    ∧ startSingleRead demoDriver demoBuildSingle 26 .ANY (demoADC 0 true true 10 10)
      = (true,
          { adc0 := { demoModule [14] 0 0 true 100 10 with
                      hw := ⟨[14], 1, 27, true, 100, 10⟩ }
            adc1 := demoModule [26] 5 0 true 300 10
            trace := [.conversion_fun .adc0] }) :=
  ⟨rfl, by decide,
    ((single_build_dispatch demoDriver demoBuildSingle .ANY (demoADC 0 true true 10 10)
      rfl).1 26).2.1.trans (by decide)⟩

/-- C15, the code at a failing input: in the single-module build,
`analogRead(14, ADC_NUM::ADC_1)` returns the reading 114 of `adc0`, not
`ADC_ERROR_VALUE` (-70000), and sets no error flag. -/
theorem single_build_analogRead_adc1 :
    analogRead demoDriver demoBuildSingle 14 .ADC_1 (demoADC 0 true true 10 10)
      = (114,
          { adc0 := demoModule [14] 0 0 true 100 10
            adc1 := demoModule [26] 5 0 true 300 10
            trace := [.conversion_fun .adc0] })
    ∧ (114 : Int) ≠ demoBuildSingle.ADC_ERROR_VALUE := by
  constructor <;> decide

end SingleBuild

/-! ## The pin translation tables -/

section Tables

/-- C25, the code at the failing pins: on Teensy 3.0 and on Teensy 3.1 pin 42
(VREFH) has channel 29 and pin 43 (VREFL) has channel 30 in
`channel2sc1aADC0`, while `sc1a2channelADC0[29]` is 43 and
`sc1a2channelADC0[30]` is 0: the last two pins of the third row of the table
stand one place too early.  Every pin from 14 to 41 that `ADC0` reads is sent
back to itself.  The table of the second ADC on Teensy 3.1 has the same two
channels for the pins 42 and 43 and sends both back to their pins. -/
theorem sc1a2channelADC0_vref_shifted :
    (∀ b, b = Board.ADC_TEENSY_3_0 ∨ b = Board.ADC_TEENSY_3_1 →
      sc1aChannel (tableAt (channel2sc1aADC0 b) 42) = 29
      ∧ tableAt (sc1a2channelADC0 b) 29 = 43
      ∧ sc1aChannel (tableAt (channel2sc1aADC0 b) 43) = 30
      ∧ tableAt (sc1a2channelADC0 b) 30 = 0
      ∧ invertsAt b 42 = false ∧ invertsAt b 43 = false
      ∧ ∀ p, 14 ≤ p → p ≤ 41 → invertsAt b p = true)
    ∧ (channel2sc1aADC1 .ADC_TEENSY_3_1).map (fun t => sc1aChannel (tableAt t 42)) = some 29
    ∧ (sc1a2channelADC1 .ADC_TEENSY_3_1).map (fun t => tableAt t 29) = some 42
    ∧ (channel2sc1aADC1 .ADC_TEENSY_3_1).map (fun t => sc1aChannel (tableAt t 43)) = some 30
    ∧ (sc1a2channelADC1 .ADC_TEENSY_3_1).map (fun t => tableAt t 30) = some 43 := by
  refine ⟨?_, by decide, by decide, by decide, by decide⟩
  intro b hb
  rcases hb with rfl | rfl
  · refine ⟨by decide, by decide, by decide, by decide, by decide, by decide, ?_⟩
    intro p h1 h2
    interval_cases p <;> decide
  · refine ⟨by decide, by decide, by decide, by decide, by decide, by decide, ?_⟩
    intro p h1 h2
    interval_cases p <;> decide

/-- C26: the digital pin numbers 0 to 9 are treated as A0 to A9.  For every
board, every `p` from 0 to 9 has the same entry as `p + 14` in
`channel2sc1aADC0`, and in `channel2sc1aADC1` where the board defines it; both
entries lie within the initializer list. -/
theorem digital_pins_as_analog (b : Board) (p : Nat) (hp : p ≤ 9) :
    (p + 14 < (channel2sc1aADC0 b).length
      ∧ tableAt (channel2sc1aADC0 b) p = tableAt (channel2sc1aADC0 b) (p + 14))
    ∧ ∀ t, channel2sc1aADC1 b = some t →
        p + 14 < t.length ∧ tableAt t p = tableAt t (p + 14) := by
  cases b <;> interval_cases p <;> simp [channel2sc1aADC0, channel2sc1aADC1, tableAt]

/-- C26 at pin 3 of Teensy 3.1: the entries at 3 and at 17 are 9 in both
tables. -/
theorem digital_pins_as_analog_witness :
    3 ≤ 9
    ∧ tableAt (channel2sc1aADC0 .ADC_TEENSY_3_1) 3 = 9
    ∧ tableAt (channel2sc1aADC0 .ADC_TEENSY_3_1) 17 = 9
    ∧ channel2sc1aADC1 .ADC_TEENSY_3_1 ≠ none
    ∧ ((3 + 14 < (channel2sc1aADC0 .ADC_TEENSY_3_1).length
        ∧ tableAt (channel2sc1aADC0 .ADC_TEENSY_3_1) 3
          = tableAt (channel2sc1aADC0 .ADC_TEENSY_3_1) (3 + 14))
      ∧ ∀ t, channel2sc1aADC1 .ADC_TEENSY_3_1 = some t →
          3 + 14 < t.length ∧ tableAt t 3 = tableAt t (3 + 14)) :=
  ⟨by decide, by decide, by decide, by decide,
    digital_pins_as_analog .ADC_TEENSY_3_1 3 (by decide)⟩

end Tables

/-! ## The starting step and the register alignment -/

section Starting

variable {σ κ : Type}

theorem isStartStep_of_isPoll (evs : List (Event κ))
    (h : ∀ e ∈ evs, Event.isPoll e = true) : ∀ e ∈ evs, Event.isStartStep e = false := by
  intro e he
  have hp := h e he
  cases e <;> simp_all [Event.isPoll, Event.isStartStep]

theorem isStartStep_preemptEvents (D : Driver σ κ) (w : Which) (m : ADC_Module σ κ) :
    ∀ e ∈ preemptEvents D w m, Event.isStartStep e = false := by
  intro e he
  cases h : wasInUse D m <;> simp [preemptEvents, h] at he <;>
    rcases he with rfl | rfl | rfl | rfl <;> rfl

theorem isStartStep_preemptStoredEvents (D : Driver σ κ) (w : Which) (m : ADC_Module σ κ) :
    ∀ e ∈ preemptStoredEvents D w m, Event.isStartStep e = false := by
  intro e he
  cases h : wasInUse D m <;> simp [preemptStoredEvents, h] at he <;>
    rcases he with rfl | rfl | rfl | rfl <;> rfl

theorem isStartStep_finishedEvents (D : Driver σ κ) (w : Which) (m : ADC_Module σ κ) :
    ∀ e ∈ finishedEvents D w m, Event.isStartStep e = false := by
  intro e he
  cases h : (D.isComplete m).1 <;> simp [finishedEvents, h] at he <;>
    rcases he with rfl | rfl <;> rfl

theorem isStartStep_restoreEvents (D : Driver σ κ) (w : Which) (m : ADC_Module σ κ) :
    ∀ e ∈ restoreEvents D w m, Event.isStartStep e = false := by
  intro e he
  cases h : wasInUse D m <;> simp [restoreEvents, h] at he
  subst he
  rfl

/-- C21: with valid pins, the steps of a blocking read and of a non-blocking
single start are some steps that are neither a `singleMode` nor a start, then
`singleMode` on `adc0`, `singleMode` on `adc1`, the start on `adc0` and the
start on `adc1`, consecutive and in this order, then (in the blocking reads)
steps that again are neither a `singleMode` nor a start.  So both modules are
in single-shot mode before either start, the start on `adc1` follows the start
on `adc0` with no step between, and the order does not depend on the input. -/
theorem starting_order (D : Driver σ κ) (K : Build) (s : ADC σ κ) :
    (∀ (fuel pin0 pin1 : Nat) (sp : ADC σ κ),
      (D.checkPin pin0 s.adc0).1 = true → (D.checkPin pin1 s.adc1).1 = true →
      waitBoth D fuel (loopEntryRead D pin0 pin1 s) = some sp →
      ∃ r before after, analogSynchronizedRead D K fuel pin0 pin1 s = some r
        ∧ r.2.trace = s.trace ++ before
            ++ [.singleMode .adc0, .singleMode .adc1,
                .startReadFast .adc0 pin0, .startReadFast .adc1 pin1]
            ++ after
        ∧ (∀ e ∈ before, Event.isStartStep e = false)
        ∧ (∀ e ∈ after, Event.isStartStep e = false))
    ∧ (∀ (fuel pin0P pin0N pin1P pin1N : Nat) (sp : ADC σ κ),
      (D.checkDifferentialPins pin0P pin0N s.adc0).1 = true →
      (D.checkDifferentialPins pin1P pin1N s.adc1).1 = true →
      waitBoth D fuel (loopEntryDifferential D pin0P pin0N pin1P pin1N s) = some sp →
      ∃ r before after,
        analogSynchronizedReadDifferential D K fuel pin0P pin0N pin1P pin1N s = some r
        ∧ r.2.trace = s.trace ++ before
            ++ [.singleMode .adc0, .singleMode .adc1,
                .startDifferentialFast .adc0 pin0P pin0N,
                .startDifferentialFast .adc1 pin1P pin1N]
            ++ after
        ∧ (∀ e ∈ before, Event.isStartStep e = false)
        ∧ (∀ e ∈ after, Event.isStartStep e = false))
    ∧ (∀ pin0 pin1 : Nat,
      (D.checkPin pin0 s.adc0).1 = true → (D.checkPin pin1 s.adc1).1 = true →
      ∃ before, startSynchronizedSingleRead D K pin0 pin1 s
          = (true, (startSynchronizedSingleRead D K pin0 pin1 s).2)
        ∧ (startSynchronizedSingleRead D K pin0 pin1 s).2.trace = s.trace ++ before
            ++ [.singleMode .adc0, .singleMode .adc1,
                .startReadFast .adc0 pin0, .startReadFast .adc1 pin1]
        ∧ (∀ e ∈ before, Event.isStartStep e = false))
    ∧ (∀ pin0P pin0N pin1P pin1N : Nat,
      (D.checkDifferentialPins pin0P pin0N s.adc0).1 = true →
      (D.checkDifferentialPins pin1P pin1N s.adc1).1 = true →
      ∃ before, startSynchronizedSingleDifferential D K pin0P pin0N pin1P pin1N s
          = (true, (startSynchronizedSingleDifferential D K pin0P pin0N pin1P pin1N s).2)
        ∧ (startSynchronizedSingleDifferential D K pin0P pin0N pin1P pin1N s).2.trace
          = s.trace ++ before
            ++ [.singleMode .adc0, .singleMode .adc1,
                .startDifferentialFast .adc0 pin0P pin0N,
                .startDifferentialFast .adc1 pin1P pin1N]
        ∧ (∀ e ∈ before, Event.isStartStep e = false)) := by
  refine ⟨?_, ?_, ?_, ?_⟩
  · intro fuel pin0 pin1 sp h0 h1 hw
    obtain ⟨r, pollEvs, hr, hpoll, htr⟩ :=
      analogSynchronizedRead_trace D K fuel pin0 pin1 s sp h0 h1 hw
    refine ⟨r, [.checkPin .adc0 pin0, .checkPin .adc1 pin1]
        ++ preemptEvents D .adc0 (D.checkPin pin0 s.adc0).2
        ++ preemptEvents D .adc1 (D.checkPin pin1 s.adc1).2,
      pollEvs ++ [.disable_irq] ++ finishedEvents D .adc0 sp.adc0
        ++ finishedEvents D .adc1 sp.adc1 ++ [.enable_irq]
        ++ restoreEvents D .adc0 (D.checkPin pin0 s.adc0).2
        ++ restoreEvents D .adc1 (D.checkPin pin1 s.adc1).2, hr, ?_, ?_, ?_⟩
    · rw [htr]; simp only [List.append_assoc]
    · intro e he
      simp only [List.mem_append, List.mem_cons, List.mem_singleton, List.not_mem_nil,
        or_false] at he
      rcases he with ((rfl | rfl) | he) | he
      · rfl
      · rfl
      · exact isStartStep_preemptEvents D _ _ e he
      · exact isStartStep_preemptEvents D _ _ e he
    · intro e he
      simp only [List.mem_append, List.mem_cons, List.mem_singleton, List.not_mem_nil,
        or_false] at he
      rcases he with (((((he | rfl) | he) | he) | rfl) | he) | he
      · exact isStartStep_of_isPoll pollEvs hpoll e he
      · rfl
      · exact isStartStep_finishedEvents D _ _ e he
      · exact isStartStep_finishedEvents D _ _ e he
      · rfl
      · exact isStartStep_restoreEvents D _ _ e he
      · exact isStartStep_restoreEvents D _ _ e he
  · intro fuel pin0P pin0N pin1P pin1N sp h0 h1 hw
    obtain ⟨r, pollEvs, hr, hpoll, htr⟩ :=
      analogSynchronizedReadDifferential_trace D K fuel pin0P pin0N pin1P pin1N s sp h0 h1 hw
    refine ⟨r, [.checkDifferentialPins .adc0 pin0P pin0N,
          .checkDifferentialPins .adc1 pin1P pin1N,
          .getResolution .adc0, .getResolution .adc1]
        ++ preemptEvents D .adc0
            (D.getResolution (D.checkDifferentialPins pin0P pin0N s.adc0).2).2
        ++ preemptEvents D .adc1
            (D.getResolution (D.checkDifferentialPins pin1P pin1N s.adc1).2).2,
      pollEvs ++ [.disable_irq] ++ finishedEvents D .adc0 sp.adc0
        ++ finishedEvents D .adc1 sp.adc1 ++ [.enable_irq]
        ++ restoreEvents D .adc0
            (D.getResolution (D.checkDifferentialPins pin0P pin0N s.adc0).2).2
        ++ restoreEvents D .adc1
            (D.getResolution (D.checkDifferentialPins pin1P pin1N s.adc1).2).2, hr, ?_, ?_, ?_⟩
    · rw [htr]; simp only [List.append_assoc]
    · intro e he
      simp only [List.mem_append, List.mem_cons, List.mem_singleton, List.not_mem_nil,
        or_false] at he
      rcases he with ((rfl | rfl | rfl | rfl) | he) | he
      · rfl
      · rfl
      · rfl
      · rfl
      · exact isStartStep_preemptEvents D _ _ e he
      · exact isStartStep_preemptEvents D _ _ e he
    · intro e he
      simp only [List.mem_append, List.mem_cons, List.mem_singleton, List.not_mem_nil,
        or_false] at he
      rcases he with (((((he | rfl) | he) | he) | rfl) | he) | he
      · exact isStartStep_of_isPoll pollEvs hpoll e he
      · rfl
      · exact isStartStep_finishedEvents D _ _ e he
      · exact isStartStep_finishedEvents D _ _ e he
      · rfl
      · exact isStartStep_restoreEvents D _ _ e he
      · exact isStartStep_restoreEvents D _ _ e he
  · intro pin0 pin1 h0 h1
    rw [startSynchronizedSingleRead_valid D K pin0 pin1 s h0 h1]
    refine ⟨[.checkPin .adc0 pin0, .checkPin .adc1 pin1]
        ++ preemptStoredEvents D .adc0 (D.checkPin pin0 s.adc0).2
        ++ preemptStoredEvents D .adc1 (D.checkPin pin1 s.adc1).2, rfl, ?_, ?_⟩
    · simp only [List.append_assoc]
    · intro e he
      simp only [List.mem_append, List.mem_cons, List.mem_singleton, List.not_mem_nil,
        or_false] at he
      rcases he with ((rfl | rfl) | he) | he
      · rfl
      · rfl
      · exact isStartStep_preemptStoredEvents D _ _ e he
      · exact isStartStep_preemptStoredEvents D _ _ e he
  · intro pin0P pin0N pin1P pin1N h0 h1
    rw [startSynchronizedSingleDifferential_valid D K pin0P pin0N pin1P pin1N s h0 h1]
    refine ⟨[.checkDifferentialPins .adc0 pin0P pin0N,
          .checkDifferentialPins .adc1 pin1P pin1N]
        ++ preemptStoredEvents D .adc0 (D.checkDifferentialPins pin0P pin0N s.adc0).2
        ++ preemptStoredEvents D .adc1 (D.checkDifferentialPins pin1P pin1N s.adc1).2,
      rfl, ?_, ?_⟩
    · simp only [List.append_assoc]
    · intro e he
      simp only [List.mem_append, List.mem_cons, List.mem_singleton, List.not_mem_nil,
        or_false] at he
      rcases he with ((rfl | rfl) | he) | he
      · rfl
      · rfl
      · exact isStartStep_preemptStoredEvents D _ _ e he
      · exact isStartStep_preemptStoredEvents D _ _ e he

/-- C21 at a concrete input: `adc0` is converting when
`analogSynchronizedRead(14, 26)` is issued; the four steps of the starting
come after the checks and the two preempts and before the polls. -/
theorem starting_order_witness :
    (demoDriver.checkPin 14 (demoADC 3 true true 10 10).adc0).1 = true
    ∧ (demoDriver.checkPin 26 (demoADC 3 true true 10 10).adc1).1 = true
    ∧ waitBoth demoDriver 3 (loopEntryRead demoDriver 14 26 (demoADC 3 true true 10 10))
        = some (demoWaited true true 10 10 15 27
            ([.checkPin .adc0 14, .checkPin .adc1 26, .isConverting .adc0, .disable_irq,
              .saveConfig .adc0 (7, 2), .enable_irq, .isConverting .adc1,
              .singleMode .adc0, .singleMode .adc1,
              .startReadFast .adc0 14, .startReadFast .adc1 26] ++ demoPolls))
    ∧ ∃ r before after, analogSynchronizedRead demoDriver demoBuild 3 14 26
          (demoADC 3 true true 10 10) = some r
        ∧ r.2.trace = (demoADC 3 true true 10 10).trace ++ before
            ++ [.singleMode .adc0, .singleMode .adc1,
                .startReadFast .adc0 14, .startReadFast .adc1 26]
            ++ after
        ∧ (∀ e ∈ before, Event.isStartStep e = false)
        ∧ (∀ e ∈ after, Event.isStartStep e = false) :=
  ⟨by decide, by decide, by decide,
    (starting_order demoDriver demoBuild (demoADC 3 true true 10 10)).1 3 14 26
      (demoWaited true true 10 10 15 27
        ([.checkPin .adc0 14, .checkPin .adc1 26, .isConverting .adc0, .disable_irq,
          .saveConfig .adc0 (7, 2), .enable_irq, .isConverting .adc1,
          .singleMode .adc0, .singleMode .adc1,
          .startReadFast .adc0 14, .startReadFast .adc1 26] ++ demoPolls))
      (by decide) (by decide) (by decide)⟩

theorem continuousStarted_eq (D : Driver σ κ) (pin0 pin1 : Nat) (s : ADC σ κ) :
    continuousStarted D pin0 pin1 s =
      { adc0 := (D.startContinuous pin0 (D.checkPin pin0 s.adc0).2).2
        adc1 := (D.startContinuous pin1 (D.checkPin pin1 s.adc1).2).2
        trace := s.trace ++ [.checkPin .adc0 pin0, .checkPin .adc1 pin1,
          .startContinuous .adc0 pin0, .startContinuous .adc1 pin1] } := by
  simp [continuousStarted, ADC.invoke, ADC.get, ADC.set, ADC.log]

theorem continuousStartedDifferential_eq (D : Driver σ κ) (pin0P pin0N pin1P pin1N : Nat)
    (s : ADC σ κ) :
    continuousStartedDifferential D pin0P pin0N pin1P pin1N s =
      { adc0 := (D.startContinuousDifferential pin0P pin0N
          (D.checkDifferentialPins pin0P pin0N s.adc0).2).2
        adc1 := (D.startContinuousDifferential pin1P pin1N
          (D.checkDifferentialPins pin1P pin1N s.adc1).2).2
        trace := s.trace ++ [.checkDifferentialPins .adc0 pin0P pin0N,
          .checkDifferentialPins .adc1 pin1P pin1N,
          .startContinuousDifferential .adc0 pin0P pin0N,
          .startContinuousDifferential .adc1 pin1P pin1N] } := by
  simp [continuousStartedDifferential, ADC.invoke, ADC.get, ADC.set, ADC.log]

theorem startSynchronizedContinuous_steps (D : Driver σ κ) (K : Build) (pin0 pin1 : Nat)
    (s : ADC σ κ)
    (h0 : (D.checkPin pin0 s.adc0).1 = true) (h1 : (D.checkPin pin1 s.adc1).1 = true) :
    startSynchronizedContinuous D K pin0 pin1 s
      = (true, alignContinuous (continuousStarted D pin0 pin1 s)) := by
  simp [startSynchronizedContinuous, continuousStarted, ADC.invoke, ADC.get, ADC.set,
    ADC.log, h0, h1]

theorem startSynchronizedContinuousDifferential_steps (D : Driver σ κ) (K : Build)
    (pin0P pin0N pin1P pin1N : Nat) (s : ADC σ κ)
    (h0 : (D.checkDifferentialPins pin0P pin0N s.adc0).1 = true)
    (h1 : (D.checkDifferentialPins pin1P pin1N s.adc1).1 = true) :
    startSynchronizedContinuousDifferential D K pin0P pin0N pin1P pin1N s
      = (true, alignContinuous (continuousStartedDifferential D pin0P pin0N pin1P pin1N s)) := by
  simp [startSynchronizedContinuousDifferential, continuousStartedDifferential, ADC.invoke,
    ADC.get, ADC.set, ADC.log, h0, h1]

theorem alignContinuous_halves (s : ADC σ κ) :
    alignContinuous s = restoreBoth (disableBoth s).1 (disableBoth s).2 :=
  rfl

theorem disableBoth_eq (s : ADC σ κ) :
    disableBoth s =
      ((s.adc0.SC1A, s.adc1.SC1A),
        { adc0 := { s.adc0 with SC1A := 0x1F }
          adc1 := { s.adc1 with SC1A := 0x1F }
          trace := s.trace ++ [.readSC1A .adc0, .writeSC1A .adc0 0x1F,
            .readSC1A .adc1, .writeSC1A .adc1 0x1F] }) := by
  simp [disableBoth, ADC.readSC1A, ADC.writeSC1A, ADC.get, ADC.set, ADC.log]

theorem restoreBoth_eq (temps : Nat × Nat) (s : ADC σ κ) :
    restoreBoth temps s =
      { adc0 := { s.adc0 with SC1A := temps.1 }
        adc1 := { s.adc1 with SC1A := temps.2 }
        trace := s.trace ++ [.disable_irq, .writeSC1A .adc0 temps.1,
          .writeSC1A .adc1 temps.2, .enable_irq] } := by
  simp [restoreBoth, ADC.writeSC1A, ADC.get, ADC.set, ADC.log]

theorem alignContinuous_window (s : ADC σ κ) :
    (alignContinuous s).trace = s.trace
        ++ [.readSC1A .adc0, .writeSC1A .adc0 0x1F, .readSC1A .adc1, .writeSC1A .adc1 0x1F]
        ++ [.disable_irq, .writeSC1A .adc0 s.adc0.SC1A, .writeSC1A .adc1 s.adc1.SC1A,
            .enable_irq] := by
  simp [alignContinuous_eq, alignEvents]

theorem readSingle_not_mem_preemptEvents (D : Driver σ κ) (w w1 : Which)
    (m : ADC_Module σ κ) : Event.readSingle w ∉ preemptEvents D w1 m := by
  cases h : wasInUse D m <;> simp [preemptEvents, h]

theorem readSingle_not_mem_restoreEvents (D : Driver σ κ) (w w1 : Which)
    (m : ADC_Module σ κ) : Event.readSingle w ∉ restoreEvents D w1 m := by
  cases h : wasInUse D m <;> simp [restoreEvents, h]

theorem readSingle_not_mem_of_isPoll (w : Which) (evs : List (Event κ))
    (h : ∀ e ∈ evs, Event.isPoll e = true) : Event.readSingle w ∉ evs := by
  intro hmem
  have hp := h _ hmem
  simp [Event.isPoll] at hp

theorem readSingle_mem_finishedEvents (D : Driver σ κ) (w w1 : Which)
    (m : ADC_Module σ κ) :
    Event.readSingle w ∈ finishedEvents D w1 m ↔ w = w1 ∧ (D.isComplete m).1 = true := by
  cases h : (D.isComplete m).1 <;> simp [finishedEvents, h]

/-- C22: in `startSynchronizedContinuous` and in
`startSynchronizedContinuousDifferential` with valid pins the steps end with
`__disable_irq()`, the write of `ADC0_SC1A`, the write of `ADC1_SC1A` and
`__enable_irq()`, consecutive and in this order; the values written are the
ones the registers held after the two continuous starts, and no step before
them changes the interrupt mask.  So the two restoring writes are next to each
other in the one masked window of the call, which holds nothing else. -/
theorem continuous_restore_window (D : Driver σ κ) (K : Build) (s : ADC σ κ) :
    (∀ pin0 pin1 : Nat,
      (D.checkPin pin0 s.adc0).1 = true → (D.checkPin pin1 s.adc1).1 = true →
      ∃ before, startSynchronizedContinuous D K pin0 pin1 s
          = (true, (startSynchronizedContinuous D K pin0 pin1 s).2)
        ∧ (startSynchronizedContinuous D K pin0 pin1 s).2.trace = s.trace ++ before
            ++ [.disable_irq,
                .writeSC1A .adc0 (continuousStarted D pin0 pin1 s).adc0.SC1A,
                .writeSC1A .adc1 (continuousStarted D pin0 pin1 s).adc1.SC1A,
                .enable_irq]
        ∧ (∀ e ∈ before, Event.isMask e = false))
    ∧ (∀ pin0P pin0N pin1P pin1N : Nat,
      (D.checkDifferentialPins pin0P pin0N s.adc0).1 = true →
      (D.checkDifferentialPins pin1P pin1N s.adc1).1 = true →
      ∃ before, startSynchronizedContinuousDifferential D K pin0P pin0N pin1P pin1N s
          = (true, (startSynchronizedContinuousDifferential D K pin0P pin0N pin1P pin1N s).2)
        ∧ (startSynchronizedContinuousDifferential D K pin0P pin0N pin1P pin1N s).2.trace
          = s.trace ++ before
            ++ [.disable_irq,
                .writeSC1A .adc0
                  (continuousStartedDifferential D pin0P pin0N pin1P pin1N s).adc0.SC1A,
                .writeSC1A .adc1
                  (continuousStartedDifferential D pin0P pin0N pin1P pin1N s).adc1.SC1A,
                .enable_irq]
        ∧ (∀ e ∈ before, Event.isMask e = false)) := by
  refine ⟨?_, ?_⟩
  · intro pin0 pin1 h0 h1
    rw [startSynchronizedContinuous_steps D K pin0 pin1 s h0 h1]
    refine ⟨[.checkPin .adc0 pin0, .checkPin .adc1 pin1,
        .startContinuous .adc0 pin0, .startContinuous .adc1 pin1,
        .readSC1A .adc0, .writeSC1A .adc0 0x1F, .readSC1A .adc1, .writeSC1A .adc1 0x1F],
      rfl, ?_, ?_⟩
    · simp [alignContinuous_window, continuousStarted_eq]
    · intro e he
      simp only [List.mem_cons, List.mem_singleton, List.not_mem_nil, or_false] at he
      rcases he with rfl | rfl | rfl | rfl | rfl | rfl | rfl | rfl <;> rfl
  · intro pin0P pin0N pin1P pin1N h0 h1
    rw [startSynchronizedContinuousDifferential_steps D K pin0P pin0N pin1P pin1N s h0 h1]
    refine ⟨[.checkDifferentialPins .adc0 pin0P pin0N,
        .checkDifferentialPins .adc1 pin1P pin1N,
        .startContinuousDifferential .adc0 pin0P pin0N,
        .startContinuousDifferential .adc1 pin1P pin1N,
        .readSC1A .adc0, .writeSC1A .adc0 0x1F, .readSC1A .adc1, .writeSC1A .adc1 0x1F],
      rfl, ?_, ?_⟩
    · simp [alignContinuous_window, continuousStartedDifferential_eq]
    · intro e he
      simp only [List.mem_cons, List.mem_singleton, List.not_mem_nil, or_false] at he
      rcases he with rfl | rfl | rfl | rfl | rfl | rfl | rfl | rfl <;> rfl

/-- C22 at a concrete input: `startSynchronizedContinuous(14, 26)` on the
concrete driver, whose continuous start sets the register to the pin; the
steps end with the window that writes 14 and 26. -/
theorem continuous_restore_window_witness :
    (demoDriver.checkPin 14 (demoADC 0 true true 10 10).adc0).1 = true
    ∧ (demoDriver.checkPin 26 (demoADC 0 true true 10 10).adc1).1 = true
    ∧ (continuousStarted demoDriver 14 26 (demoADC 0 true true 10 10)).adc0.SC1A = 14
    ∧ (continuousStarted demoDriver 14 26 (demoADC 0 true true 10 10)).adc1.SC1A = 26
    ∧ ∃ before, startSynchronizedContinuous demoDriver demoBuild 14 26
          (demoADC 0 true true 10 10)
          = (true, (startSynchronizedContinuous demoDriver demoBuild 14 26
              (demoADC 0 true true 10 10)).2)
        ∧ (startSynchronizedContinuous demoDriver demoBuild 14 26
            (demoADC 0 true true 10 10)).2.trace
          = (demoADC 0 true true 10 10).trace ++ before
            ++ [.disable_irq,
                .writeSC1A .adc0
                  (continuousStarted demoDriver 14 26 (demoADC 0 true true 10 10)).adc0.SC1A,
                .writeSC1A .adc1
                  (continuousStarted demoDriver 14 26 (demoADC 0 true true 10 10)).adc1.SC1A,
                .enable_irq]
        ∧ (∀ e ∈ before, Event.isMask e = false) :=
  ⟨by decide, by decide, by decide, by decide,
    (continuous_restore_window demoDriver demoBuild (demoADC 0 true true 10 10)).1 14 26
      (by decide) (by decide)⟩

/-- C23: with valid pins, what `startSynchronizedContinuous` and
`startSynchronizedContinuousDifferential` do after the two continuous starts
is two steps.  The first reads `ADC0_SC1A` and sets it to `0x1F`, then reads
`ADC1_SC1A` and sets it to `0x1F`: the temporaries are the values the
registers held after the starts, and both registers hold `0x1F` when it ends.
The second, which begins only then, writes the temporaries back.  At return
each module, its register included, is as it was after the two continuous
starts. -/
theorem continuous_alignment_preserves (D : Driver σ κ) (K : Build) (s : ADC σ κ) :
    (∀ pin0 pin1 : Nat,
      (D.checkPin pin0 s.adc0).1 = true → (D.checkPin pin1 s.adc1).1 = true →
      startSynchronizedContinuous D K pin0 pin1 s
          = (true, restoreBoth (disableBoth (continuousStarted D pin0 pin1 s)).1
              (disableBoth (continuousStarted D pin0 pin1 s)).2)
      ∧ (disableBoth (continuousStarted D pin0 pin1 s)).1
          = ((continuousStarted D pin0 pin1 s).adc0.SC1A,
              (continuousStarted D pin0 pin1 s).adc1.SC1A)
      ∧ (disableBoth (continuousStarted D pin0 pin1 s)).2.adc0.SC1A = 0x1F
      ∧ (disableBoth (continuousStarted D pin0 pin1 s)).2.adc1.SC1A = 0x1F
      ∧ (disableBoth (continuousStarted D pin0 pin1 s)).2.trace
          = (continuousStarted D pin0 pin1 s).trace
            ++ [.readSC1A .adc0, .writeSC1A .adc0 0x1F, .readSC1A .adc1, .writeSC1A .adc1 0x1F]
      ∧ (startSynchronizedContinuous D K pin0 pin1 s).2.trace
          = (disableBoth (continuousStarted D pin0 pin1 s)).2.trace
            ++ [.disable_irq,
                .writeSC1A .adc0 (continuousStarted D pin0 pin1 s).adc0.SC1A,
                .writeSC1A .adc1 (continuousStarted D pin0 pin1 s).adc1.SC1A,
                .enable_irq]
      ∧ (startSynchronizedContinuous D K pin0 pin1 s).2.adc0
          = (continuousStarted D pin0 pin1 s).adc0
      ∧ (startSynchronizedContinuous D K pin0 pin1 s).2.adc1
          = (continuousStarted D pin0 pin1 s).adc1)
    ∧ (∀ pin0P pin0N pin1P pin1N : Nat,
      (D.checkDifferentialPins pin0P pin0N s.adc0).1 = true →
      (D.checkDifferentialPins pin1P pin1N s.adc1).1 = true →
      startSynchronizedContinuousDifferential D K pin0P pin0N pin1P pin1N s
          = (true, restoreBoth
              (disableBoth (continuousStartedDifferential D pin0P pin0N pin1P pin1N s)).1
              (disableBoth (continuousStartedDifferential D pin0P pin0N pin1P pin1N s)).2)
      ∧ (disableBoth (continuousStartedDifferential D pin0P pin0N pin1P pin1N s)).1
          = ((continuousStartedDifferential D pin0P pin0N pin1P pin1N s).adc0.SC1A,
              (continuousStartedDifferential D pin0P pin0N pin1P pin1N s).adc1.SC1A)
      ∧ (disableBoth (continuousStartedDifferential D pin0P pin0N pin1P pin1N s)).2.adc0.SC1A
          = 0x1F
      ∧ (disableBoth (continuousStartedDifferential D pin0P pin0N pin1P pin1N s)).2.adc1.SC1A
          = 0x1F
      ∧ (disableBoth (continuousStartedDifferential D pin0P pin0N pin1P pin1N s)).2.trace
          = (continuousStartedDifferential D pin0P pin0N pin1P pin1N s).trace
            ++ [.readSC1A .adc0, .writeSC1A .adc0 0x1F, .readSC1A .adc1, .writeSC1A .adc1 0x1F]
      ∧ (startSynchronizedContinuousDifferential D K pin0P pin0N pin1P pin1N s).2.trace
          = (disableBoth (continuousStartedDifferential D pin0P pin0N pin1P pin1N s)).2.trace
            ++ [.disable_irq,
                .writeSC1A .adc0
                  (continuousStartedDifferential D pin0P pin0N pin1P pin1N s).adc0.SC1A,
                .writeSC1A .adc1
                  (continuousStartedDifferential D pin0P pin0N pin1P pin1N s).adc1.SC1A,
                .enable_irq]
      ∧ (startSynchronizedContinuousDifferential D K pin0P pin0N pin1P pin1N s).2.adc0
          = (continuousStartedDifferential D pin0P pin0N pin1P pin1N s).adc0
      ∧ (startSynchronizedContinuousDifferential D K pin0P pin0N pin1P pin1N s).2.adc1
          = (continuousStartedDifferential D pin0P pin0N pin1P pin1N s).adc1) := by
  refine ⟨?_, ?_⟩
  · intro pin0 pin1 h0 h1
    rw [startSynchronizedContinuous_steps D K pin0 pin1 s h0 h1]
    refine ⟨rfl, ?_, ?_, ?_, ?_, ?_, ?_, ?_⟩ <;>
      simp [alignContinuous_eq, alignEvents, disableBoth_eq]
  · intro pin0P pin0N pin1P pin1N h0 h1
    rw [startSynchronizedContinuousDifferential_steps D K pin0P pin0N pin1P pin1N s h0 h1]
    refine ⟨rfl, ?_, ?_, ?_, ?_, ?_, ?_, ?_⟩ <;>
      simp [alignContinuous_eq, alignEvents, disableBoth_eq]

/-- C23 at a concrete input: the continuous starts of the concrete driver leave
14 and 26 in the registers (which held 31 before); both are set to 31 and then
hold 14 and 26 again at return. -/
theorem continuous_alignment_preserves_witness :
    (demoDriver.checkPin 14 (demoADC 0 true true 10 10).adc0).1 = true
    ∧ (demoDriver.checkPin 26 (demoADC 0 true true 10 10).adc1).1 = true
    ∧ (continuousStarted demoDriver 14 26 (demoADC 0 true true 10 10)).adc0.SC1A = 14
    ∧ (continuousStarted demoDriver 14 26 (demoADC 0 true true 10 10)).adc1.SC1A = 26
    ∧ (startSynchronizedContinuous demoDriver demoBuild 14 26
        (demoADC 0 true true 10 10)).2.adc0.SC1A = 14
    ∧ (startSynchronizedContinuous demoDriver demoBuild 14 26
        (demoADC 0 true true 10 10)).2.adc1.SC1A = 26
    ∧ (startSynchronizedContinuous demoDriver demoBuild 14 26
        (demoADC 0 true true 10 10)).2.adc0
      = (continuousStarted demoDriver 14 26 (demoADC 0 true true 10 10)).adc0 :=
  ⟨by decide, by decide, by decide, by decide, by decide, by decide,
    ((continuous_alignment_preserves demoDriver demoBuild (demoADC 0 true true 10 10)).1 14 26
      (by decide) (by decide)).2.2.2.2.2.2.1⟩

/-- C30: in `analogSynchronizedReadDifferential` with valid pins, once the wait
loop has ended in state `sp`, for a module whose resolution read at entry is
16: if `isComplete` is false on it, its field of the result is
`ADC_ERROR_VALUE` itself and no step of the call is a `readSingle` on that
module; if `isComplete` is true on it, `readSingle` is among the steps and the
field is the double (as an `int32_t`) of the value it returned. -/
theorem differential_sentinel_not_doubled (D : Driver σ κ) (K : Build)
    (fuel pin0P pin0N pin1P pin1N : Nat) (s sp : ADC σ κ)
    (h0 : (D.checkDifferentialPins pin0P pin0N s.adc0).1 = true)
    (h1 : (D.checkDifferentialPins pin1P pin1N s.adc1).1 = true)
    (hw : waitBoth D fuel (loopEntryDifferential D pin0P pin0N pin1P pin1N s) = some sp) :
    ∃ r evs,
      analogSynchronizedReadDifferential D K fuel pin0P pin0N pin1P pin1N s = some r
      ∧ r.2.trace = s.trace ++ evs
      ∧ ((D.getResolution (D.checkDifferentialPins pin0P pin0N s.adc0).2).1 = 16 →
          ((D.isComplete sp.adc0).1 = false →
            r.1.result_adc0 = K.ADC_ERROR_VALUE ∧ Event.readSingle .adc0 ∉ evs)
          ∧ ((D.isComplete sp.adc0).1 = true →
            r.1.result_adc0 = wrap_int32 ((D.readSingle (D.isComplete sp.adc0).2).1 * 2)
              ∧ Event.readSingle .adc0 ∈ evs))
      ∧ ((D.getResolution (D.checkDifferentialPins pin1P pin1N s.adc1).2).1 = 16 →
          ((D.isComplete sp.adc1).1 = false →
            r.1.result_adc1 = K.ADC_ERROR_VALUE ∧ Event.readSingle .adc1 ∉ evs)
          ∧ ((D.isComplete sp.adc1).1 = true →
            r.1.result_adc1 = wrap_int32 ((D.readSingle (D.isComplete sp.adc1).2).1 * 2)
              ∧ Event.readSingle .adc1 ∈ evs)) := by
  obtain ⟨r, pollEvs, hr, hpoll, htr⟩ :=
    analogSynchronizedReadDifferential_trace D K fuel pin0P pin0N pin1P pin1N s sp h0 h1 hw
  have hv := analogSynchronizedReadDifferential_valid D K fuel pin0P pin0N pin1P pin1N
    s sp h0 h1 hw
  rw [hr] at hv
  have hres := congrArg (fun o => o.map (fun x => x.1)) hv
  simp only [Option.map_some', Option.some.injEq] at hres
  have hmem : ∀ w : Which, Event.readSingle w ∈
      ([.checkDifferentialPins .adc0 pin0P pin0N,
              .checkDifferentialPins .adc1 pin1P pin1N,
              .getResolution .adc0, .getResolution .adc1]
          ++ preemptEvents D .adc0
              (D.getResolution (D.checkDifferentialPins pin0P pin0N s.adc0).2).2
          ++ preemptEvents D .adc1
              (D.getResolution (D.checkDifferentialPins pin1P pin1N s.adc1).2).2
          ++ [.singleMode .adc0, .singleMode .adc1,
              .startDifferentialFast .adc0 pin0P pin0N,
              .startDifferentialFast .adc1 pin1P pin1N]
          ++ pollEvs ++ [.disable_irq] ++ finishedEvents D .adc0 sp.adc0
          ++ finishedEvents D .adc1 sp.adc1 ++ [.enable_irq]
          ++ restoreEvents D .adc0
              (D.getResolution (D.checkDifferentialPins pin0P pin0N s.adc0).2).2
          ++ restoreEvents D .adc1
              (D.getResolution (D.checkDifferentialPins pin1P pin1N s.adc1).2).2 : List (Event κ))
      ↔ (w = .adc0 ∧ (D.isComplete sp.adc0).1 = true)
        ∨ (w = .adc1 ∧ (D.isComplete sp.adc1).1 = true) := by
    intro w
    simp [List.mem_append, readSingle_not_mem_preemptEvents, readSingle_not_mem_restoreEvents,
      readSingle_not_mem_of_isPoll w pollEvs hpoll, readSingle_mem_finishedEvents]
  refine ⟨r, _, hr, htr, ?_, ?_⟩
  · intro h16
    refine ⟨fun hc => ⟨?_, ?_⟩, fun hc => ⟨?_, ?_⟩⟩
    · rw [hres]; simp [finishedFieldDifferential, hc]
    · rw [hmem]; simp [hc]
    · rw [hres]; simp [finishedFieldDifferential, hc, h16]
    · rw [hmem]; simp [hc]
  · intro h16
    refine ⟨fun hc => ⟨?_, ?_⟩, fun hc => ⟨?_, ?_⟩⟩
    · rw [hres]; simp [finishedFieldDifferential, hc]
    · rw [hmem]; simp [hc]
    · rw [hres]; simp [finishedFieldDifferential, hc, h16]
    · rw [hmem]; simp [hc]

/-- C30 at a concrete input: both modules are at 16 bits, the comparison fails
on `adc0` and succeeds on `adc1`, which reads 300; the result is
`(ADC_ERROR_VALUE, 600)`, not `(2 * ADC_ERROR_VALUE, 600)`. -/
theorem differential_sentinel_not_doubled_witness :
    (demoDriver.checkDifferentialPins 14 15 (demoADC 0 false true 16 16).adc0).1 = true
    ∧ (demoDriver.checkDifferentialPins 26 27 (demoADC 0 false true 16 16).adc1).1 = true
    ∧ waitBoth demoDriver 3
        (loopEntryDifferential demoDriver 14 15 26 27 (demoADC 0 false true 16 16))
        = some (demoWaited false true 16 16 1415 2627
            ([.checkDifferentialPins .adc0 14 15, .checkDifferentialPins .adc1 26 27,
              .getResolution .adc0, .getResolution .adc1,
              .isConverting .adc0, .isConverting .adc1,
              .singleMode .adc0, .singleMode .adc1,
              .startDifferentialFast .adc0 14 15, .startDifferentialFast .adc1 26 27]
              ++ demoPolls))
    ∧ (analogSynchronizedReadDifferential demoDriver demoBuild 3 14 15 26 27
        (demoADC 0 false true 16 16)).map (fun r => r.1)
        = some ⟨demoBuild.ADC_ERROR_VALUE, 600⟩
    ∧ ∃ r evs,
      analogSynchronizedReadDifferential demoDriver demoBuild 3 14 15 26 27
        (demoADC 0 false true 16 16) = some r
      ∧ r.2.trace = (demoADC 0 false true 16 16).trace ++ evs
      ∧ ((demoDriver.getResolution (demoDriver.checkDifferentialPins 14 15
            (demoADC 0 false true 16 16).adc0).2).1 = 16 →
          (false = false →
            r.1.result_adc0 = demoBuild.ADC_ERROR_VALUE ∧ Event.readSingle .adc0 ∉ evs)
          ∧ (false = true →
            r.1.result_adc0 = wrap_int32 (100 * 2) ∧ Event.readSingle .adc0 ∈ evs))
      ∧ ((demoDriver.getResolution (demoDriver.checkDifferentialPins 26 27
            (demoADC 0 false true 16 16).adc1).2).1 = 16 →
          (true = false →
            r.1.result_adc1 = demoBuild.ADC_ERROR_VALUE ∧ Event.readSingle .adc1 ∉ evs)
          ∧ (true = true →
            r.1.result_adc1 = wrap_int32 (300 * 2) ∧ Event.readSingle .adc1 ∈ evs)) :=
  ⟨by decide, by decide, by decide, by decide,
    differential_sentinel_not_doubled demoDriver demoBuild 3 14 15 26 27
      (demoADC 0 false true 16 16)
      (demoWaited false true 16 16 1415 2627
        ([.checkDifferentialPins .adc0 14 15, .checkDifferentialPins .adc1 26 27,
          .getResolution .adc0, .getResolution .adc1,
          .isConverting .adc0, .isConverting .adc1,
          .singleMode .adc0, .singleMode .adc1,
          .startDifferentialFast .adc0 14 15, .startDifferentialFast .adc1 26 27]
          ++ demoPolls))
      (by decide) (by decide) (by decide)⟩

end Starting

/-! ## The two dispatch policies side by side -/

section Policies

variable {σ κ α ρ : Type}

end Policies

/-! ## Two non-blocking starts in a row -/

section DoubleStart

variable {σ κ : Type}

theorem preemptedStoredModule_fields (D : Driver σ κ) (hD : D.KeepsStoredFields)
    (m : ADC_Module σ κ) :
    (preemptedStoredModule D m).adcWasInUse = (D.isConverting m).1
    ∧ (preemptedStoredModule D m).adc_config
        = (if (D.isConverting m).1 = true then storedSnapshot D m else m.adc_config) := by
  cases h : (D.isConverting m).1 <;>
    simp [preemptedStoredModule, wasInUse, storedEntry, h, hD.saveConfig, hD.isConverting]

theorem startSynchronizedSingleRead_stored (D : Driver σ κ) (K : Build)
    (hD : D.KeepsStoredFields) (pin0 pin1 : Nat) (s : ADC σ κ)
    (h0 : (D.checkPin pin0 s.adc0).1 = true) (h1 : (D.checkPin pin1 s.adc1).1 = true) :
    (startSynchronizedSingleRead D K pin0 pin1 s).1 = true
    ∧ (startSynchronizedSingleRead D K pin0 pin1 s).2.adc0.adcWasInUse
        = (D.isConverting (D.checkPin pin0 s.adc0).2).1
    ∧ (startSynchronizedSingleRead D K pin0 pin1 s).2.adc0.adc_config
        = (if (D.isConverting (D.checkPin pin0 s.adc0).2).1 = true
            then storedSnapshot D (D.checkPin pin0 s.adc0).2 else s.adc0.adc_config)
    ∧ (startSynchronizedSingleRead D K pin0 pin1 s).2.adc1.adcWasInUse
        = (D.isConverting (D.checkPin pin1 s.adc1).2).1
    ∧ (startSynchronizedSingleRead D K pin0 pin1 s).2.adc1.adc_config
        = (if (D.isConverting (D.checkPin pin1 s.adc1).2).1 = true
            then storedSnapshot D (D.checkPin pin1 s.adc1).2 else s.adc1.adc_config) := by
  rw [startSynchronizedSingleRead_valid D K pin0 pin1 s h0 h1]
  simp [(hD.startReadFast _ _).1, (hD.startReadFast _ _).2, (hD.singleMode _).1,
    (hD.singleMode _).2, (preemptedStoredModule_fields D hD _).1,
    (preemptedStoredModule_fields D hD _).2, hD.checkPin]

theorem startSynchronizedSingleRead_snapshots (D : Driver σ κ) (K : Build)
    (pin0 pin1 : Nat) (s : ADC σ κ)
    (h0 : (D.checkPin pin0 s.adc0).1 = true) (h1 : (D.checkPin pin1 s.adc1).1 = true)
    (w : Which) :
    savedSnapshots w (startSynchronizedSingleRead D K pin0 pin1 s).2.trace
      = savedSnapshots w s.trace
        ++ savedSnapshots w (preemptStoredEvents D .adc0 (D.checkPin pin0 s.adc0).2)
        ++ savedSnapshots w (preemptStoredEvents D .adc1 (D.checkPin pin1 s.adc1).2)
    ∧ loadedSnapshots w (startSynchronizedSingleRead D K pin0 pin1 s).2.trace
      = loadedSnapshots w s.trace := by
  rw [startSynchronizedSingleRead_valid D K pin0 pin1 s h0 h1]
  have a : savedSnapshots w ([.checkPin .adc0 pin0, .checkPin .adc1 pin1] : List (Event κ))
      = [] := rfl
  have b : savedSnapshots w ([.singleMode .adc0, .singleMode .adc1,
      .startReadFast .adc0 pin0, .startReadFast .adc1 pin1] : List (Event κ)) = [] := rfl
  have c : loadedSnapshots w ([.checkPin .adc0 pin0, .checkPin .adc1 pin1] : List (Event κ))
      = [] := rfl
  have d : loadedSnapshots w ([.singleMode .adc0, .singleMode .adc1,
      .startReadFast .adc0 pin0, .startReadFast .adc1 pin1] : List (Event κ)) = [] := rfl
  simp only [savedSnapshots_append, loadedSnapshots_append, a, b, c, d,
    loadedSnapshots_preemptStoredEvents, List.append_nil]
  exact ⟨trivial, trivial⟩

/-- C28: `startSynchronizedSingleRead` succeeds on `s` and then again on the
state `s1` the first call left, with no restore between (no `loadConfig` is
among the steps of either call).  With a driver whose functions leave
`adcWasInUse` and `adc_config` alone, a module that is converting at the second
call has at its return `adcWasInUse` set and in `adc_config` the snapshot taken
at the second call, whatever the two fields held before.  If the module was
converting at the first call too, `adc_config` held the snapshot of the first
call in between, `saveConfig` ran on the module twice, and the one
`adc_config` of the module now holds the second snapshot in place of the
first. -/
theorem double_start_overwrites (D : Driver σ κ) (K : Build) (hD : D.KeepsStoredFields)
    (pin0 pin1 q0 q1 : Nat) (s s1 : ADC σ κ)
    (h0 : (D.checkPin pin0 s.adc0).1 = true) (h1 : (D.checkPin pin1 s.adc1).1 = true)
    (hs1 : s1 = (startSynchronizedSingleRead D K pin0 pin1 s).2)
    (g0 : (D.checkPin q0 s1.adc0).1 = true) (g1 : (D.checkPin q1 s1.adc1).1 = true) :
    (startSynchronizedSingleRead D K pin0 pin1 s).1 = true
    ∧ (startSynchronizedSingleRead D K q0 q1 s1).1 = true
    ∧ (∀ w, loadedSnapshots w (startSynchronizedSingleRead D K q0 q1 s1).2.trace
        = loadedSnapshots w s.trace)
    ∧ ((D.isConverting (D.checkPin q0 s1.adc0).2).1 = true →
        (startSynchronizedSingleRead D K q0 q1 s1).2.adc0.adcWasInUse = true
        ∧ (startSynchronizedSingleRead D K q0 q1 s1).2.adc0.adc_config
          = storedSnapshot D (D.checkPin q0 s1.adc0).2
        ∧ ((D.isConverting (D.checkPin pin0 s.adc0).2).1 = true →
            s1.adc0.adc_config = storedSnapshot D (D.checkPin pin0 s.adc0).2
            ∧ savedSnapshots .adc0 (startSynchronizedSingleRead D K q0 q1 s1).2.trace
              = savedSnapshots .adc0 s.trace
                ++ [storedSnapshot D (D.checkPin pin0 s.adc0).2,
                    storedSnapshot D (D.checkPin q0 s1.adc0).2]))
    ∧ ((D.isConverting (D.checkPin q1 s1.adc1).2).1 = true →
        (startSynchronizedSingleRead D K q0 q1 s1).2.adc1.adcWasInUse = true
        ∧ (startSynchronizedSingleRead D K q0 q1 s1).2.adc1.adc_config
          = storedSnapshot D (D.checkPin q1 s1.adc1).2
        ∧ ((D.isConverting (D.checkPin pin1 s.adc1).2).1 = true →
            s1.adc1.adc_config = storedSnapshot D (D.checkPin pin1 s.adc1).2
            ∧ savedSnapshots .adc1 (startSynchronizedSingleRead D K q0 q1 s1).2.trace
              = savedSnapshots .adc1 s.trace
                ++ [storedSnapshot D (D.checkPin pin1 s.adc1).2,
                    storedSnapshot D (D.checkPin q1 s1.adc1).2])) := by
  obtain ⟨a1, a2, a3, a4, a5⟩ := startSynchronizedSingleRead_stored D K hD pin0 pin1 s h0 h1
  obtain ⟨b1, b2, b3, b4, b5⟩ := startSynchronizedSingleRead_stored D K hD q0 q1 s1 g0 g1
  have t1 := fun w => startSynchronizedSingleRead_snapshots D K pin0 pin1 s h0 h1 w
  have t2 := fun w => startSynchronizedSingleRead_snapshots D K q0 q1 s1 g0 g1 w
  rw [← hs1] at a2 a3 a4 a5 t1
  refine ⟨a1, b1, fun w => ?_, fun c2 => ⟨?_, ?_, fun c1 => ⟨?_, ?_⟩⟩,
    fun c2 => ⟨?_, ?_, fun c1 => ⟨?_, ?_⟩⟩⟩
  · rw [(t2 w).2, (t1 w).2]
  · rw [b2, c2]
  · rw [b3, if_pos c2]
  · rw [a3, if_pos c1]
  · rw [(t2 .adc0).1, (t1 .adc0).1]
    simp [savedSnapshots_preemptStoredEvents, wasInUse, c1, c2]
  · rw [b4, c2]
  · rw [b5, if_pos c2]
  · rw [a5, if_pos c1]
  · rw [(t2 .adc1).1, (t1 .adc1).1]
    simp [savedSnapshots_preemptStoredEvents, wasInUse, c1, c2]

/-- C28 at a concrete input: `adc0` is converting in mode 7 when pins 14 and 26
are started, and both are started again right away.  The first call stores the
snapshot (7, 2) in `adc0`; at the second call `adc0` is converting in mode 15
(the first synchronized conversion) and its `adc_config` becomes (15, 0);
`saveConfig` has run twice on `adc0` and `loadConfig` never. -/
theorem double_start_overwrites_witness :
    demoDriver.KeepsStoredFields
    ∧ (demoDriver.checkPin 14 (demoADC 3 true true 10 10).adc0).1 = true
    ∧ (demoDriver.checkPin 26 (demoADC 3 true true 10 10).adc1).1 = true
    ∧ (startSynchronizedSingleRead demoDriver demoBuild 14 26
        (demoADC 3 true true 10 10)).2.adc0.adc_config = (7, 2)
    ∧ (startSynchronizedSingleRead demoDriver demoBuild 14 26
        (startSynchronizedSingleRead demoDriver demoBuild 14 26
          (demoADC 3 true true 10 10)).2).2.adc0.adcWasInUse = true
    ∧ (startSynchronizedSingleRead demoDriver demoBuild 14 26
        (startSynchronizedSingleRead demoDriver demoBuild 14 26
          (demoADC 3 true true 10 10)).2).2.adc0.adc_config = (15, 0)
    ∧ savedSnapshots .adc0 (startSynchronizedSingleRead demoDriver demoBuild 14 26
        (startSynchronizedSingleRead demoDriver demoBuild 14 26
          (demoADC 3 true true 10 10)).2).2.trace = [(7, 2), (15, 0)]
    ∧ ∀ w, loadedSnapshots w (startSynchronizedSingleRead demoDriver demoBuild 14 26
        (startSynchronizedSingleRead demoDriver demoBuild 14 26
          (demoADC 3 true true 10 10)).2).2.trace = [] := by
  obtain ⟨_, _, l, a0, _⟩ :=
    double_start_overwrites demoDriver demoBuild demoDriver_keepsStoredFields 14 26 14 26
      (demoADC 3 true true 10 10)
      (startSynchronizedSingleRead demoDriver demoBuild 14 26 (demoADC 3 true true 10 10)).2
      (by decide) (by decide) rfl (by decide) (by decide)
  obtain ⟨u, v, x⟩ := a0 (by decide)
  obtain ⟨y, z⟩ := x (by decide)
  exact ⟨demoDriver_keepsStoredFields, by decide, by decide, y.trans (by decide), u,
    v.trans (by decide), z.trans (by decide), l⟩

end DoubleStart

/-! ## The interrupt mask -/

section Masking

variable {σ κ : Type}

theorem maskRun_append (masked : Bool) (a b : List (Event κ)) :
    maskRun masked (a ++ b) = (maskRun masked a).bind (fun m => maskRun m b) := by
  induction a generalizing masked with
  | nil => rfl
  | cons e es ih =>
    simp only [List.cons_append, maskRun]
    cases maskStep masked e with
    | none => rfl
    | some m => exact ih m

theorem balanced_nil : Balanced ([] : List (Event κ)) :=
  ⟨rfl, rfl⟩

theorem balanced_append {a b : List (Event κ)} (ha : Balanced a) (hb : Balanced b) :
    Balanced (a ++ b) := by
  refine ⟨?_, ?_⟩
  · rw [maskRun_append, ha.1]
    exact hb.1
  · rw [List.countP_append, List.countP_append, ha.2, hb.2]

theorem balanced_of_unmasked (evs : List (Event κ))
    (h : ∀ e ∈ evs, Event.isMask e = false) : Balanced evs := by
  induction evs with
  | nil => exact balanced_nil
  | cons e es ih =>
    have he := h e (List.mem_cons_self _ _)
    have hes := ih (fun x hx => h x (List.mem_cons_of_mem _ hx))
    refine ⟨?_, ?_⟩
    · have : maskStep false e = some false := by
        cases e <;> simp_all [maskStep, Event.isMask]
      simp only [maskRun, this, Option.some_bind]
      exact hes.1
    · have hd : Event.isDisable e = false := by cases e <;> simp_all [Event.isDisable, Event.isMask]
      have hn : Event.isEnable e = false := by cases e <;> simp_all [Event.isEnable, Event.isMask]
      simp [List.countP_cons, hd, hn, hes.2]

theorem balanced_of_isPoll (evs : List (Event κ))
    (h : ∀ e ∈ evs, Event.isPoll e = true) : Balanced evs := by
  refine balanced_of_unmasked evs (fun e he => ?_)
  have hp := h e he
  cases e <;> simp_all [Event.isPoll, Event.isMask]

theorem balanced_preemptEvents (D : Driver σ κ) (w : Which) (m : ADC_Module σ κ) :
    Balanced (preemptEvents D w m) := by
  cases h : wasInUse D m <;> simp only [preemptEvents, h] <;> exact ⟨rfl, rfl⟩

theorem balanced_preemptStoredEvents (D : Driver σ κ) (w : Which) (m : ADC_Module σ κ) :
    Balanced (preemptStoredEvents D w m) := by
  cases h : wasInUse D m <;> simp only [preemptStoredEvents, h] <;> exact ⟨rfl, rfl⟩

theorem balanced_restoreEvents (D : Driver σ κ) (w : Which) (m : ADC_Module σ κ) :
    Balanced (restoreEvents D w m) := by
  cases h : wasInUse D m <;> simp only [restoreEvents, h] <;> exact ⟨rfl, rfl⟩

theorem balanced_finishing (D : Driver σ κ) (m0 m1 : ADC_Module σ κ) :
    Balanced ([.disable_irq] ++ finishedEvents D .adc0 m0 ++ finishedEvents D .adc1 m1
      ++ [.enable_irq]) := by
  cases h0 : (D.isComplete m0).1 <;> cases h1 : (D.isComplete m1).1 <;>
    simp only [finishedEvents, h0, h1] <;> exact ⟨rfl, rfl⟩

theorem balanced_alignEvents (v0 v1 : Nat) :
    Balanced (alignEvents v0 v1 : List (Event κ)) :=
  ⟨rfl, rfl⟩

theorem analogSynchronizedRead_balanced (D : Driver σ κ) (K : Build)
    (fuel pin0 pin1 : Nat) (s : ADC σ κ) (r : Sync_result × ADC σ κ)
    (h : analogSynchronizedRead D K fuel pin0 pin1 s = some r) :
    ∃ evs, r.2.trace = s.trace ++ evs ∧ Balanced evs := by
  cases h0 : (D.checkPin pin0 s.adc0).1
  · simp [analogSynchronizedRead, ADC.invoke, ADC.get, ADC.set, ADC.log, ADC.orFail, h0] at h
    subst h
    exact ⟨[.checkPin .adc0 pin0], rfl, rfl, rfl⟩
  · cases h1 : (D.checkPin pin1 s.adc1).1
    · simp [analogSynchronizedRead, ADC.invoke, ADC.get, ADC.set, ADC.log, ADC.orFail, h0, h1]
        at h
      subst h
      exact ⟨[.checkPin .adc0 pin0, .checkPin .adc1 pin1], by simp, rfl, rfl⟩
    · cases hw : waitBoth D fuel (loopEntryRead D pin0 pin1 s) with
      | none =>
        rw [analogSynchronizedRead_wait_none D K fuel pin0 pin1 s h0 h1 hw] at h
        simp at h
      | some sp =>
        obtain ⟨r1, pollEvs, hr, hpoll, htr⟩ :=
          analogSynchronizedRead_trace D K fuel pin0 pin1 s sp h0 h1 hw
        rw [h] at hr
        simp only [Option.some.injEq] at hr
        subst hr
        have hb : Balanced (([.checkPin .adc0 pin0, .checkPin .adc1 pin1] : List (Event κ))
            ++ (preemptEvents D .adc0 (D.checkPin pin0 s.adc0).2
            ++ (preemptEvents D .adc1 (D.checkPin pin1 s.adc1).2
            ++ ([.singleMode .adc0, .singleMode .adc1,
                  .startReadFast .adc0 pin0, .startReadFast .adc1 pin1]
            ++ (pollEvs
            ++ (([.disable_irq] ++ finishedEvents D .adc0 sp.adc0
                  ++ finishedEvents D .adc1 sp.adc1 ++ [.enable_irq])
            ++ (restoreEvents D .adc0 (D.checkPin pin0 s.adc0).2
            ++ restoreEvents D .adc1 (D.checkPin pin1 s.adc1).2))))))) :=
          balanced_append ⟨rfl, rfl⟩ (balanced_append (balanced_preemptEvents D _ _)
            (balanced_append (balanced_preemptEvents D _ _) (balanced_append ⟨rfl, rfl⟩
              (balanced_append (balanced_of_isPoll pollEvs hpoll)
                (balanced_append (balanced_finishing D _ _)
                  (balanced_append (balanced_restoreEvents D _ _)
                    (balanced_restoreEvents D _ _)))))))
        exact ⟨_, htr, by simpa only [List.append_assoc] using hb⟩

theorem analogSynchronizedReadDifferential_balanced (D : Driver σ κ) (K : Build)
    (fuel pin0P pin0N pin1P pin1N : Nat) (s : ADC σ κ) (r : Sync_result × ADC σ κ)
    (h : analogSynchronizedReadDifferential D K fuel pin0P pin0N pin1P pin1N s = some r) :
    ∃ evs, r.2.trace = s.trace ++ evs ∧ Balanced evs := by
  cases h0 : (D.checkDifferentialPins pin0P pin0N s.adc0).1
  · simp [analogSynchronizedReadDifferential, ADC.invoke, ADC.get, ADC.set, ADC.log,
      ADC.orFail, h0] at h
    subst h
    exact ⟨[.checkDifferentialPins .adc0 pin0P pin0N], rfl, rfl, rfl⟩
  · cases h1 : (D.checkDifferentialPins pin1P pin1N s.adc1).1
    · simp [analogSynchronizedReadDifferential, ADC.invoke, ADC.get, ADC.set, ADC.log,
        ADC.orFail, h0, h1] at h
      subst h
      exact ⟨[.checkDifferentialPins .adc0 pin0P pin0N,
        .checkDifferentialPins .adc1 pin1P pin1N], by simp, rfl, rfl⟩
    · cases hw : waitBoth D fuel (loopEntryDifferential D pin0P pin0N pin1P pin1N s) with
      | none =>
        rw [analogSynchronizedReadDifferential_wait_none D K fuel pin0P pin0N pin1P pin1N s
          h0 h1 hw] at h
        simp at h
      | some sp =>
        obtain ⟨r1, pollEvs, hr, hpoll, htr⟩ :=
          analogSynchronizedReadDifferential_trace D K fuel pin0P pin0N pin1P pin1N s sp
            h0 h1 hw
        rw [h] at hr
        simp only [Option.some.injEq] at hr
        subst hr
        have hb : Balanced (([.checkDifferentialPins .adc0 pin0P pin0N,
                .checkDifferentialPins .adc1 pin1P pin1N,
                .getResolution .adc0, .getResolution .adc1] : List (Event κ))
            ++ (preemptEvents D .adc0
                (D.getResolution (D.checkDifferentialPins pin0P pin0N s.adc0).2).2
            ++ (preemptEvents D .adc1
                (D.getResolution (D.checkDifferentialPins pin1P pin1N s.adc1).2).2
            ++ ([.singleMode .adc0, .singleMode .adc1,
                  .startDifferentialFast .adc0 pin0P pin0N,
                  .startDifferentialFast .adc1 pin1P pin1N]
            ++ (pollEvs
            ++ (([.disable_irq] ++ finishedEvents D .adc0 sp.adc0
                  ++ finishedEvents D .adc1 sp.adc1 ++ [.enable_irq])
            ++ (restoreEvents D .adc0
                (D.getResolution (D.checkDifferentialPins pin0P pin0N s.adc0).2).2
            ++ restoreEvents D .adc1
                (D.getResolution (D.checkDifferentialPins pin1P pin1N s.adc1).2).2))))))) :=
          balanced_append ⟨rfl, rfl⟩ (balanced_append (balanced_preemptEvents D _ _)
            (balanced_append (balanced_preemptEvents D _ _) (balanced_append ⟨rfl, rfl⟩
              (balanced_append (balanced_of_isPoll pollEvs hpoll)
                (balanced_append (balanced_finishing D _ _)
                  (balanced_append (balanced_restoreEvents D _ _)
                    (balanced_restoreEvents D _ _)))))))
        exact ⟨_, htr, by simpa only [List.append_assoc] using hb⟩

theorem startSynchronizedSingleRead_balanced (D : Driver σ κ) (K : Build)
    (pin0 pin1 : Nat) (s : ADC σ κ) :
    ∃ evs, (startSynchronizedSingleRead D K pin0 pin1 s).2.trace = s.trace ++ evs
      ∧ Balanced evs := by
  cases h0 : (D.checkPin pin0 s.adc0).1
  · exact ⟨[.checkPin .adc0 pin0], by
      simp [startSynchronizedSingleRead, ADC.invoke, ADC.get, ADC.set, ADC.log, ADC.orFail, h0],
      rfl, rfl⟩
  · cases h1 : (D.checkPin pin1 s.adc1).1
    · exact ⟨[.checkPin .adc0 pin0, .checkPin .adc1 pin1], by
        simp [startSynchronizedSingleRead, ADC.invoke, ADC.get, ADC.set, ADC.log, ADC.orFail,
          h0, h1], rfl, rfl⟩
    · rw [startSynchronizedSingleRead_valid D K pin0 pin1 s h0 h1]
      have hb : Balanced (([.checkPin .adc0 pin0, .checkPin .adc1 pin1] : List (Event κ))
          ++ (preemptStoredEvents D .adc0 (D.checkPin pin0 s.adc0).2
          ++ (preemptStoredEvents D .adc1 (D.checkPin pin1 s.adc1).2
          ++ [.singleMode .adc0, .singleMode .adc1,
                .startReadFast .adc0 pin0, .startReadFast .adc1 pin1]))) :=
        balanced_append ⟨rfl, rfl⟩ (balanced_append (balanced_preemptStoredEvents D _ _)
          (balanced_append (balanced_preemptStoredEvents D _ _) ⟨rfl, rfl⟩))
      exact ⟨_, by simp only [List.append_assoc], hb⟩

theorem startSynchronizedSingleDifferential_balanced (D : Driver σ κ) (K : Build)
    (pin0P pin0N pin1P pin1N : Nat) (s : ADC σ κ) :
    ∃ evs, (startSynchronizedSingleDifferential D K pin0P pin0N pin1P pin1N s).2.trace
        = s.trace ++ evs
      ∧ Balanced evs := by
  cases h0 : (D.checkDifferentialPins pin0P pin0N s.adc0).1
  · exact ⟨[.checkDifferentialPins .adc0 pin0P pin0N], by
      simp [startSynchronizedSingleDifferential, ADC.invoke, ADC.get, ADC.set, ADC.log,
        ADC.orFail, h0], rfl, rfl⟩
  · cases h1 : (D.checkDifferentialPins pin1P pin1N s.adc1).1
    · exact ⟨[.checkDifferentialPins .adc0 pin0P pin0N,
        .checkDifferentialPins .adc1 pin1P pin1N], by
        simp [startSynchronizedSingleDifferential, ADC.invoke, ADC.get, ADC.set, ADC.log,
          ADC.orFail, h0, h1], rfl, rfl⟩
    · rw [startSynchronizedSingleDifferential_valid D K pin0P pin0N pin1P pin1N s h0 h1]
      have hb : Balanced (([.checkDifferentialPins .adc0 pin0P pin0N,
              .checkDifferentialPins .adc1 pin1P pin1N] : List (Event κ))
          ++ (preemptStoredEvents D .adc0 (D.checkDifferentialPins pin0P pin0N s.adc0).2
          ++ (preemptStoredEvents D .adc1 (D.checkDifferentialPins pin1P pin1N s.adc1).2
          ++ [.singleMode .adc0, .singleMode .adc1,
                .startDifferentialFast .adc0 pin0P pin0N,
                .startDifferentialFast .adc1 pin1P pin1N]))) :=
        balanced_append ⟨rfl, rfl⟩ (balanced_append (balanced_preemptStoredEvents D _ _)
          (balanced_append (balanced_preemptStoredEvents D _ _) ⟨rfl, rfl⟩))
      exact ⟨_, by simp only [List.append_assoc], hb⟩

theorem startSynchronizedContinuous_balanced (D : Driver σ κ) (K : Build)
    (pin0 pin1 : Nat) (s : ADC σ κ) :
    ∃ evs, (startSynchronizedContinuous D K pin0 pin1 s).2.trace = s.trace ++ evs
      ∧ Balanced evs := by
  cases h0 : (D.checkPin pin0 s.adc0).1
  · exact ⟨[.checkPin .adc0 pin0], by
      simp [startSynchronizedContinuous, ADC.invoke, ADC.get, ADC.set, ADC.log, ADC.orFail, h0],
      rfl, rfl⟩
  · cases h1 : (D.checkPin pin1 s.adc1).1
    · exact ⟨[.checkPin .adc0 pin0, .checkPin .adc1 pin1], by
        simp [startSynchronizedContinuous, ADC.invoke, ADC.get, ADC.set, ADC.log, ADC.orFail,
          h0, h1], rfl, rfl⟩
    · rw [startSynchronizedContinuous_valid D K pin0 pin1 s h0 h1]
      have hb : Balanced (([.checkPin .adc0 pin0, .checkPin .adc1 pin1,
              .startContinuous .adc0 pin0, .startContinuous .adc1 pin1] : List (Event κ))
          ++ alignEvents (D.startContinuous pin0 (D.checkPin pin0 s.adc0).2).2.SC1A
              (D.startContinuous pin1 (D.checkPin pin1 s.adc1).2).2.SC1A) :=
        balanced_append ⟨rfl, rfl⟩ (balanced_alignEvents _ _)
      exact ⟨_, by simp only [List.append_assoc], hb⟩

theorem startSynchronizedContinuousDifferential_balanced (D : Driver σ κ) (K : Build)
    (pin0P pin0N pin1P pin1N : Nat) (s : ADC σ κ) :
    ∃ evs, (startSynchronizedContinuousDifferential D K pin0P pin0N pin1P pin1N s).2.trace
        = s.trace ++ evs
      ∧ Balanced evs := by
  cases h0 : (D.checkDifferentialPins pin0P pin0N s.adc0).1
  · exact ⟨[.checkDifferentialPins .adc0 pin0P pin0N], by
      simp [startSynchronizedContinuousDifferential, ADC.invoke, ADC.get, ADC.set, ADC.log,
        ADC.orFail, h0], rfl, rfl⟩
  · cases h1 : (D.checkDifferentialPins pin1P pin1N s.adc1).1
    · exact ⟨[.checkDifferentialPins .adc0 pin0P pin0N,
        .checkDifferentialPins .adc1 pin1P pin1N], by
        simp [startSynchronizedContinuousDifferential, ADC.invoke, ADC.get, ADC.set, ADC.log,
          ADC.orFail, h0, h1], rfl, rfl⟩
    · rw [startSynchronizedContinuousDifferential_valid D K pin0P pin0N pin1P pin1N s h0 h1]
      have hb : Balanced (([.checkDifferentialPins .adc0 pin0P pin0N,
              .checkDifferentialPins .adc1 pin1P pin1N,
              .startContinuousDifferential .adc0 pin0P pin0N,
              .startContinuousDifferential .adc1 pin1P pin1N] : List (Event κ))
          ++ alignEvents
              (D.startContinuousDifferential pin0P pin0N
                (D.checkDifferentialPins pin0P pin0N s.adc0).2).2.SC1A
              (D.startContinuousDifferential pin1P pin1N
                (D.checkDifferentialPins pin1P pin1N s.adc1).2).2.SC1A) :=
        balanced_append ⟨rfl, rfl⟩ (balanced_alignEvents _ _)
      exact ⟨_, by simp only [List.append_assoc], hb⟩

/-- C29: every synchronized operation of `ADC.cpp`, on every path on which it
returns (the wrong-pin returns included), adds to the trace steps that are
balanced: run from interrupts enabled they end with interrupts enabled, no
`__disable_irq()` comes inside a masked window and no `__enable_irq()`
outside one, there are as many of the one as of the other, and no poll of
`isConverting`, `yield`, `singleMode`, start or `loadConfig` runs inside a
masked window. -/
theorem irq_balanced (D : Driver σ κ) (K : Build) (s : ADC σ κ) :
    (∀ (fuel pin0 pin1 : Nat) (r : Sync_result × ADC σ κ),
      analogSynchronizedRead D K fuel pin0 pin1 s = some r →
      ∃ evs, r.2.trace = s.trace ++ evs ∧ Balanced evs)
    ∧ (∀ (fuel pin0P pin0N pin1P pin1N : Nat) (r : Sync_result × ADC σ κ),
      analogSynchronizedReadDifferential D K fuel pin0P pin0N pin1P pin1N s = some r →
      ∃ evs, r.2.trace = s.trace ++ evs ∧ Balanced evs)
    ∧ (∀ pin0 pin1 : Nat,
      ∃ evs, (startSynchronizedSingleRead D K pin0 pin1 s).2.trace = s.trace ++ evs
        ∧ Balanced evs)
    ∧ (∀ pin0P pin0N pin1P pin1N : Nat,
      ∃ evs, (startSynchronizedSingleDifferential D K pin0P pin0N pin1P pin1N s).2.trace
          = s.trace ++ evs
        ∧ Balanced evs)
    ∧ (∃ evs, (readSynchronizedSingle D s).2.trace = s.trace ++ evs ∧ Balanced evs)
    ∧ (∀ pin0 pin1 : Nat,
      ∃ evs, (startSynchronizedContinuous D K pin0 pin1 s).2.trace = s.trace ++ evs
        ∧ Balanced evs)
    ∧ (∀ pin0P pin0N pin1P pin1N : Nat,
      ∃ evs, (startSynchronizedContinuousDifferential D K pin0P pin0N pin1P pin1N s).2.trace
          = s.trace ++ evs
        ∧ Balanced evs)
    ∧ (∃ evs, (readSynchronizedContinuous D s).2.trace = s.trace ++ evs ∧ Balanced evs)
    ∧ (∃ evs, (stopSynchronizedContinuous D s).trace = s.trace ++ evs ∧ Balanced evs) := by
  refine ⟨?_, ?_, ?_, ?_, ?_, ?_, ?_, ?_, ?_⟩
  · intro fuel pin0 pin1 r h
    exact analogSynchronizedRead_balanced D K fuel pin0 pin1 s r h
  · intro fuel pin0P pin0N pin1P pin1N r h
    exact analogSynchronizedReadDifferential_balanced D K fuel pin0P pin0N pin1P pin1N s r h
  · intro pin0 pin1
    exact startSynchronizedSingleRead_balanced D K pin0 pin1 s
  · intro pin0P pin0N pin1P pin1N
    exact startSynchronizedSingleDifferential_balanced D K pin0P pin0N pin1P pin1N s
  · exact ⟨[.readSingle .adc0, .readSingle .adc1], by
      simp [readSynchronizedSingle, ADC.invoke, ADC.get, ADC.set, ADC.log], rfl, rfl⟩
  · intro pin0 pin1
    exact startSynchronizedContinuous_balanced D K pin0 pin1 s
  · intro pin0P pin0N pin1P pin1N
    exact startSynchronizedContinuousDifferential_balanced D K pin0P pin0N pin1P pin1N s
  · exact ⟨[.analogReadContinuous .adc0, .analogReadContinuous .adc1], by
      simp [readSynchronizedContinuous, ADC.invoke, ADC.get, ADC.set, ADC.log], rfl, rfl⟩
  · exact ⟨[.stopContinuous .adc0, .stopContinuous .adc1], by
      simp [stopSynchronizedContinuous, ADC.run, ADC.get, ADC.set, ADC.log], rfl, rfl⟩

/-- C29 at two concrete inputs: `analogSynchronizedRead(14, 26)` with `adc0`
converting at entry, whose steps hold two masked windows (the preempt and the
finishing step), and `analogSynchronizedRead(99, 26)`, which returns at the
first check; the steps of both are balanced. -/
theorem irq_balanced_witness :
    (∃ r, analogSynchronizedRead demoDriver demoBuild 3 14 26 (demoADC 3 true true 10 10)
          = some r
        ∧ (r.2.trace.countP Event.isDisable = 2)
        ∧ ∃ evs, r.2.trace = (demoADC 3 true true 10 10).trace ++ evs ∧ Balanced evs)
    ∧ (∃ r, analogSynchronizedRead demoDriver demoBuild 3 99 26 (demoADC 3 true true 10 10)
          = some r
        ∧ (r.2.trace.countP Event.isDisable = 0)
        ∧ ∃ evs, r.2.trace = (demoADC 3 true true 10 10).trace ++ evs ∧ Balanced evs) :=
  ⟨⟨_, rfl, by decide,
      (irq_balanced demoDriver demoBuild (demoADC 3 true true 10 10)).1 3 14 26 _ rfl⟩,
    ⟨_, rfl, by decide,
      (irq_balanced demoDriver demoBuild (demoADC 3 true true 10 10)).1 3 99 26 _ rfl⟩⟩

end Masking

/-! ## The wait loop -/

section Polling

variable {σ κ : Type}

theorem waitBoth_step (D : Driver σ κ) (fuel : Nat) (s : ADC σ κ) :
    waitBoth D (fuel + 1) s =
      if (loopCondition D s).1 then waitBoth D fuel (loopTurn D s)
      else some (loopCondition D s).2 := by
  cases h0 : (D.isConverting s.adc0).1 <;> cases h1 : (D.isConverting s.adc1).1 <;>
    simp [waitBoth, loopCondition, loopTurn, ADC.invoke, ADC.get, ADC.set, ADC.log, h0, h1]

theorem loopCondition_false_iff (D : Driver σ κ) (s : ADC σ κ) :
    (loopCondition D s).1 = false
      ↔ (D.isConverting s.adc0).1 = false ∧ (D.isConverting s.adc1).1 = false := by
  cases h0 : (D.isConverting s.adc0).1 <;> cases h1 : (D.isConverting s.adc1).1 <;>
    simp [loopCondition, ADC.invoke, ADC.get, ADC.set, ADC.log, h0, h1]

theorem loopTurns_succ (D : Driver σ κ) (n : Nat) (s : ADC σ κ) :
    loopTurns D (n + 1) s = loopTurns D n (loopTurn D s) :=
  Function.iterate_succ_apply _ _ _

theorem loopTurns_succ_last (D : Driver σ κ) (n : Nat) (s : ADC σ κ) :
    loopTurns D (n + 1) s = loopTurn D (loopTurns D n s) :=
  Function.iterate_succ_apply' _ _ _

theorem waitBoth_exit (D : Driver σ κ) (n : Nat) :
    ∀ (s : ADC σ κ), (∀ k, k < n → (loopCondition D (loopTurns D k s)).1 = true) →
      (loopCondition D (loopTurns D n s)).1 = false →
      ∀ fuel, n < fuel → waitBoth D fuel s = some (loopCondition D (loopTurns D n s)).2 := by
  induction n with
  | zero =>
    intro s _ hf fuel hlt
    obtain ⟨f, rfl⟩ : ∃ f, fuel = f + 1 := ⟨fuel - 1, by omega⟩
    have hf' : (loopCondition D s).1 = false := hf
    rw [waitBoth_step, hf']
    rfl
  | succ n ih =>
    intro s ht hf fuel hlt
    obtain ⟨f, rfl⟩ : ∃ f, fuel = f + 1 := ⟨fuel - 1, by omega⟩
    have h0 : (loopCondition D s).1 = true := ht 0 (by omega)
    rw [waitBoth_step, h0, if_pos rfl, loopTurns_succ]
    refine ih (loopTurn D s) (fun k hk => ?_) (by rw [← loopTurns_succ]; exact hf) f (by omega)
    rw [← loopTurns_succ]
    exact ht (k + 1) (by omega)

theorem waitBoth_running (D : Driver σ κ) (fuel : Nat) :
    ∀ (n : Nat) (s : ADC σ κ),
      (∀ k, k < n → (loopCondition D (loopTurns D k s)).1 = true) →
      fuel ≤ n → waitBoth D fuel s = none := by
  induction fuel with
  | zero => intro n s _ _; rfl
  | succ f ih =>
    intro n s ht hle
    have h0 : (loopCondition D s).1 = true := ht 0 (by omega)
    rw [waitBoth_step, h0, if_pos rfl]
    refine ih (n - 1) (loopTurn D s) (fun k hk => ?_) (by omega)
    rw [← loopTurns_succ]
    exact ht (k + 1) (by omega)

theorem loopTurn_adc0 (D : Driver σ κ) (s : ADC σ κ) :
    (loopTurn D s).adc0 = (D.isConverting s.adc0).2 := by
  cases h0 : (D.isConverting s.adc0).1 <;>
    simp [loopTurn, loopCondition, ADC.invoke, ADC.get, ADC.set, ADC.log, h0]

theorem loopTurn_adc1 (D : Driver σ κ) (s : ADC σ κ) :
    (loopTurn D s).adc1
      = if (D.isConverting s.adc0).1 then s.adc1 else (D.isConverting s.adc1).2 := by
  cases h0 : (D.isConverting s.adc0).1 <;>
    simp [loopTurn, loopCondition, ADC.invoke, ADC.get, ADC.set, ADC.log, h0]

theorem loopTurn_trace (D : Driver σ κ) (s : ADC σ κ) :
    (loopTurn D s).trace
      = s.trace ++ (if (D.isConverting s.adc0).1 then [.isConverting .adc0, .yield]
          else [.isConverting .adc0, .isConverting .adc1, .yield]) := by
  cases h0 : (D.isConverting s.adc0).1 <;>
    simp [loopTurn, loopCondition, ADC.invoke, ADC.get, ADC.set, ADC.log, h0]

theorem polled_succ (D : Driver σ κ) (n : Nat) (m : ADC_Module σ κ) :
    polled D (n + 1) m = (D.isConverting (polled D n m)).2 :=
  Function.iterate_succ_apply' _ _ _

theorem loopTurns_adc0 (D : Driver σ κ) (n : Nat) (s : ADC σ κ) :
    (loopTurns D n s).adc0 = polled D n s.adc0 := by
  induction n with
  | zero => rfl
  | succ n ih => rw [loopTurns_succ_last, loopTurn_adc0, ih, polled_succ]

theorem loopTurns_yields (D : Driver σ κ) (n : Nat) (s : ADC σ κ) :
    ∃ evs, (loopTurns D n s).trace = s.trace ++ evs
      ∧ evs.countP Event.isYield = n ∧ ∀ e ∈ evs, Event.isPoll e = true := by
  induction n with
  | zero => exact ⟨[], by simp [loopTurns], rfl, by simp⟩
  | succ n ih =>
    obtain ⟨evs, he, hc, hp⟩ := ih
    rw [loopTurns_succ_last, loopTurn_trace, he]
    cases h0 : (D.isConverting (loopTurns D n s).adc0).1
    · refine ⟨evs ++ [.isConverting .adc0, .isConverting .adc1, .yield], by simp, ?_, ?_⟩
      · rw [List.countP_append, hc]; rfl
      · intro e hmem
        rcases List.mem_append.mp hmem with hmem | hmem
        · exact hp e hmem
        · simp only [List.mem_cons, List.mem_singleton, List.not_mem_nil, or_false] at hmem
          rcases hmem with rfl | rfl | rfl <;> rfl
    · refine ⟨evs ++ [.isConverting .adc0, .yield], by simp, ?_, ?_⟩
      · rw [List.countP_append, hc]; rfl
      · intro e hmem
        rcases List.mem_append.mp hmem with hmem | hmem
        · exact hp e hmem
        · simp only [List.mem_cons, List.mem_singleton, List.not_mem_nil, or_false] at hmem
          rcases hmem with rfl | rfl <;> rfl

theorem loopTurns_adc1 (D : Driver σ κ) (N0 : Nat) (s : ADC σ κ)
    (hs0 : ∀ n, N0 ≤ n → (D.isConverting (polled D n s.adc0)).1 = false) (n : Nat) :
    ∃ j, n ≤ N0 + j ∧ (loopTurns D n s).adc1 = polled D j s.adc1 := by
  induction n with
  | zero => exact ⟨0, by omega, rfl⟩
  | succ n ih =>
    obtain ⟨j, hj, he⟩ := ih
    rw [loopTurns_succ_last, loopTurn_adc1, loopTurns_adc0, he]
    cases h0 : (D.isConverting (polled D n s.adc0)).1
    · exact ⟨j + 1, by omega, by simp [polled_succ]⟩
    · refine ⟨j, ?_, by simp⟩
      by_contra hlt
      have := hs0 n (by omega)
      rw [h0] at this
      exact Bool.noConfusion this

theorem loopCondition_settles (D : Driver σ κ) (N0 N1 : Nat) (s : ADC σ κ)
    (hs0 : ∀ n, N0 ≤ n → (D.isConverting (polled D n s.adc0)).1 = false)
    (hs1 : ∀ n, N1 ≤ n → (D.isConverting (polled D n s.adc1)).1 = false) :
    (loopCondition D (loopTurns D (N0 + N1) s)).1 = false := by
  obtain ⟨j, hj, he⟩ := loopTurns_adc1 D N0 s hs0 (N0 + N1)
  rw [loopCondition_false_iff, loopTurns_adc0, he]
  exact ⟨hs0 _ (by omega), hs1 _ (by omega)⟩

theorem loopCondition_first (D : Driver σ κ) (N0 N1 : Nat) (s : ADC σ κ)
    (hs0 : ∀ n, N0 ≤ n → (D.isConverting (polled D n s.adc0)).1 = false)
    (hs1 : ∀ n, N1 ≤ n → (D.isConverting (polled D n s.adc1)).1 = false) :
    ∃ n, n ≤ N0 + N1
      ∧ (∀ k, k < n → (loopCondition D (loopTurns D k s)).1 = true)
      ∧ (loopCondition D (loopTurns D n s)).1 = false := by
  have hex : ∃ n, (loopCondition D (loopTurns D n s)).1 = false :=
    ⟨N0 + N1, loopCondition_settles D N0 N1 s hs0 hs1⟩
  refine ⟨Nat.find hex, Nat.find_min' hex (loopCondition_settles D N0 N1 s hs0 hs1),
    fun k hk => ?_, Nat.find_spec hex⟩
  have := Nat.find_min hex hk
  simpa using this

theorem loopCondition_exit_trace (D : Driver σ κ) (s : ADC σ κ)
    (h : (loopCondition D s).1 = false) :
    (loopCondition D s).2.trace = s.trace ++ [.isConverting .adc0, .isConverting .adc1] := by
  have h0 := ((loopCondition_false_iff D s).mp h).1
  simp [loopCondition, ADC.invoke, ADC.get, ADC.set, ADC.log, h0]

theorem demo_polled_busy (n : Nat) (m : DemoModule) :
    (polled demoDriver n m).hw.busy = m.hw.busy - n := by
  induction n with
  | zero => rfl
  | succ n ih =>
    rw [polled_succ]
    show (polled demoDriver n m).hw.busy - 1 = m.hw.busy - (n + 1)
    rw [ih]
    omega

theorem demo_settles (m : DemoModule) (n : Nat) (h : m.hw.busy ≤ n) :
    (demoDriver.isConverting (polled demoDriver n m)).1 = false := by
  show decide (0 < (polled demoDriver n m).hw.busy) = false
  rw [demo_polled_busy]
  simp
  omega

/-- C24: `analogSynchronizedRead` with valid pins, on modules whose
`isConverting()`, polled from the state in which the wait loop is entered,
answers false from the `N0`-th poll on for `adc0` and from the `N1`-th on for
`adc1` (whether or not the modules were idle at entry).  Then there is a turn
`n`, at most `N0 + N1`, such that: in every turn before it one of the modules
reports converting, and the loop is still running after `n` evaluations of its
condition; at turn `n` both modules report not converting, and with any fuel
above `n` the loop ends there, in the state `sp` that evaluation leaves; the
steps of the loop hold `n` calls of `yield()`, one for each turn before the
last; and the call returns a result in which, if `isComplete` holds on both
modules, the two fields are the two values of `readSingle`, each within
`[0, 2^resolution - 1]` for any `resolution` for which the value `readSingle`
returned is. -/
theorem polling_terminates (D : Driver σ κ) (K : Build) (pin0 pin1 N0 N1 : Nat)
    (s : ADC σ κ)
    (h0 : (D.checkPin pin0 s.adc0).1 = true) (h1 : (D.checkPin pin1 s.adc1).1 = true)
    (hs0 : ∀ n, N0 ≤ n →
      (D.isConverting (polled D n (loopEntryRead D pin0 pin1 s).adc0)).1 = false)
    (hs1 : ∀ n, N1 ≤ n →
      (D.isConverting (polled D n (loopEntryRead D pin0 pin1 s).adc1)).1 = false) :
    ∃ n sp, n ≤ N0 + N1
      ∧ sp = (loopCondition D (loopTurns D n (loopEntryRead D pin0 pin1 s))).2
      ∧ (∀ k, k < n →
          (D.isConverting (loopTurns D k (loopEntryRead D pin0 pin1 s)).adc0).1 = true
          ∨ (D.isConverting (loopTurns D k (loopEntryRead D pin0 pin1 s)).adc1).1 = true)
      ∧ (∀ fuel, fuel ≤ n → waitBoth D fuel (loopEntryRead D pin0 pin1 s) = none)
      ∧ (D.isConverting (loopTurns D n (loopEntryRead D pin0 pin1 s)).adc0).1 = false
      ∧ (D.isConverting (loopTurns D n (loopEntryRead D pin0 pin1 s)).adc1).1 = false
      ∧ (∀ fuel, n < fuel → waitBoth D fuel (loopEntryRead D pin0 pin1 s) = some sp)
      ∧ (∃ evs, sp.trace = (loopEntryRead D pin0 pin1 s).trace ++ evs
          ∧ evs.countP Event.isYield = n ∧ ∀ e ∈ evs, Event.isPoll e = true)
      ∧ (∀ fuel, n < fuel →
          ∃ r, analogSynchronizedRead D K fuel pin0 pin1 s = some r
            ∧ ((D.isComplete sp.adc0).1 = true → (D.isComplete sp.adc1).1 = true →
              r.1 = ⟨(D.readSingle (D.isComplete sp.adc0).2).1,
                      (D.readSingle (D.isComplete sp.adc1).2).1⟩
              ∧ ∀ resolution : Nat,
                  (0 ≤ (D.readSingle (D.isComplete sp.adc0).2).1
                      ∧ (D.readSingle (D.isComplete sp.adc0).2).1 ≤ 2 ^ resolution - 1 →
                    0 ≤ r.1.result_adc0 ∧ r.1.result_adc0 ≤ 2 ^ resolution - 1)
                  ∧ (0 ≤ (D.readSingle (D.isComplete sp.adc1).2).1
                      ∧ (D.readSingle (D.isComplete sp.adc1).2).1 ≤ 2 ^ resolution - 1 →
                    0 ≤ r.1.result_adc1 ∧ r.1.result_adc1 ≤ 2 ^ resolution - 1))) := by
  obtain ⟨n, hn, hbefore, hat⟩ :=
    loopCondition_first D N0 N1 (loopEntryRead D pin0 pin1 s) hs0 hs1
  have hexit := waitBoth_exit D n (loopEntryRead D pin0 pin1 s) hbefore hat
  obtain ⟨evs, he, hc, hp⟩ := loopTurns_yields D n (loopEntryRead D pin0 pin1 s)
  refine ⟨n, _, hn, rfl, fun k hk => ?_,
    fun fuel hf => waitBoth_running D fuel n _ hbefore hf,
    ((loopCondition_false_iff D _).mp hat).1, ((loopCondition_false_iff D _).mp hat).2,
    hexit, ?_, fun fuel hf => ?_⟩
  · have hk' := hbefore k hk
    by_contra hcon
    have hboth : (loopCondition D (loopTurns D k (loopEntryRead D pin0 pin1 s))).1 = false := by
      rw [loopCondition_false_iff]
      constructor
      · cases hx : (D.isConverting (loopTurns D k (loopEntryRead D pin0 pin1 s)).adc0).1
        · rfl
        · exact absurd (Or.inl hx) hcon
      · cases hx : (D.isConverting (loopTurns D k (loopEntryRead D pin0 pin1 s)).adc1).1
        · rfl
        · exact absurd (Or.inr hx) hcon
    rw [hboth] at hk'
    exact Bool.noConfusion hk'
  · refine ⟨evs ++ [.isConverting .adc0, .isConverting .adc1], ?_, ?_, ?_⟩
    · rw [loopCondition_exit_trace D _ hat, he, List.append_assoc]
    · rw [List.countP_append, hc]; rfl
    · intro e hmem
      rcases List.mem_append.mp hmem with hmem | hmem
      · exact hp e hmem
      · simp only [List.mem_cons, List.mem_singleton, List.not_mem_nil, or_false] at hmem
        rcases hmem with rfl | rfl <;> rfl
  · refine ⟨_, analogSynchronizedRead_valid D K fuel pin0 pin1 s _ h0 h1 (hexit fuel hf), ?_⟩
    intro c0 c1
    refine ⟨by simp [finishedField, c0, c1], fun resolution => ⟨?_, ?_⟩⟩
    · intro hb
      simpa [finishedField, c0] using hb
    · intro hb
      simpa [finishedField, c1] using hb

/-- C24 at a concrete input: two idle modules of the concrete driver, on which
a started conversion answers one poll with true.  The loop ends within two
turns, and with fuel 3 the call returns the two samples (100, 300); with
fuel 2 the loop is still running. -/
theorem polling_terminates_witness :
    (demoDriver.checkPin 14 (demoADC 0 true true 10 10).adc0).1 = true
    ∧ (demoDriver.checkPin 26 (demoADC 0 true true 10 10).adc1).1 = true
    ∧ (demoDriver.isConverting (demoADC 0 true true 10 10).adc0).1 = false
    ∧ (demoDriver.isConverting (demoADC 0 true true 10 10).adc1).1 = false
    ∧ waitBoth demoDriver 2 (loopEntryRead demoDriver 14 26 (demoADC 0 true true 10 10)) = none
    ∧ (analogSynchronizedRead demoDriver demoBuild 3 14 26
        (demoADC 0 true true 10 10)).map (fun r => r.1) = some ⟨100, 300⟩
    ∧ ∃ n, n ≤ 1 + 1
        ∧ (∀ fuel, n < fuel →
          ∃ sp, waitBoth demoDriver fuel
              (loopEntryRead demoDriver 14 26 (demoADC 0 true true 10 10)) = some sp)
        ∧ (∀ fuel, n < fuel →
          ∃ r, analogSynchronizedRead demoDriver demoBuild fuel 14 26
              (demoADC 0 true true 10 10) = some r) := by
  obtain ⟨n, sp, hn, _, _, _, _, _, hexit, _, hres⟩ :=
    polling_terminates demoDriver demoBuild 14 26 1 1 (demoADC 0 true true 10 10)
      (by decide) (by decide)
      (fun n hn => demo_settles _ n (le_trans (by decide) hn))
      (fun n hn => demo_settles _ n (le_trans (by decide) hn))
  exact ⟨by decide, by decide, by decide, by decide, by decide, by decide, n, hn,
    fun fuel hf => ⟨sp, hexit fuel hf⟩,
    fun fuel hf => (hres fuel hf).imp (fun _ h => h.1)⟩

end Polling

end TeensyADC
